import Mathlib

/-!
# Verification of the generated simulation code of the oc_latch model

This development shallowly embeds the model-specific generated C sources
(oc_latch.c, oc_latch_03lsy.c, oc_latch_05evt.c, oc_latch_06inz.c,
oc_latch_08bnd.c, oc_latch_09alg.c, oc_latch_12jac.c) and proves properties
of the equation functions, the linear-system residual and Jacobian callbacks,
the zero-crossing indicator function, the when-clause equations, the
assertion-checking equations, and the evaluation passes composed from them.

Modelling conventions:
* machine doubles are modelled as rationals; `DIVISION` and `DIVISION_SIM`
  are modelled as total rational division;
* the mutable simulation context (DATA together with the pieces of
  threadData the generated code touches) is one `State` record whose arrays
  are total functions from indices;
* calls into the external runtime (the time-table external object, the
  hysteresis relation evaluator, the zero-crossing relation evaluators) are
  parameters collected in `ExtRuntime`; calls to the external linear solver library
  are a parameter of type `LinSolver`;
* an aborting call (throwStreamPrintWithEquationIndexes,
  omc_assert_withEquationIndexes in simulation mode) is an `Except.error`
  carrying the diagnostic and the state at the moment of the abort;
* the diagnostic sink (infoStreamPrint and friends) is a log list in the
  state; the per-function `static int` already-warned flags are the
  `assertLatch` map of the state, keyed by equation index.
-/

/-- Pointwise update of an index-keyed store, modelling `a[i] = v`. -/
def upd {α : Type} (f : Nat → α) (i : Nat) (v : α) : Nat → α :=
  fun j => if j = i then v else f j

/-- One message sent to the logging/diagnostics sink, tagged with the
equation index and the simulated time as the generated printing calls are. -/
structure LogEntry where
  eqIndex : Nat
  time : ℚ
  text : String
deriving DecidableEq

/-- The diagnostic of a fatal abort: the equation indexes array, the current
simulated time, the message, and the state at the moment of the abort. -/
structure Err (σ : Type) where
  equationIndexes : List Nat
  time : ℚ
  msg : String
  state : σ

/-- The mutable simulation context: the variable store of DATA
(localData[0] current values, localData[1] previous-step values, the pre
arrays and parameters of simulationInfo), the relation bookkeeping, the
assertion configuration and latches, and the diagnostics log. -/
structure State where
  realVars : Nat → ℚ
  realVars1 : Nat → ℚ
  booleanVars : Nat → Bool
  realVarsPre : Nat → ℚ
  booleanVarsPre : Nat → Bool
  realParameter : Nat → ℚ
  integerParameter : Nat → Int
  booleanParameter : Nat → Bool
  timeValue : ℚ
  storedRelations : Nat → Bool
  relations : Nat → Bool
  noThrowAsserts : Bool
  needToReThrow : Bool
  assertLatch : Nat → Bool
  lastEquationSolved : Nat
  log : List LogEntry

/-- The two relational operators the generated code passes to the
hysteresis evaluator (GreaterEq/GreaterEqZC and LessEq/LessEqZC pairs). -/
inductive RelOp where
  | greaterEq
  | lessEq
deriving DecidableEq

/-- Modelled from the spec: the external runtime collaborators that the
generated equations call and whose code is not part of this repository —
the hysteresis-protected relation evaluator `relationhysteresis`, the
zero-crossing relation evaluators `GreaterEqZC`/`LessEqZC` (each a function
of the compared values and of the stored relation flag), and the queries of
the constructed external time-table object
(`Modelica.Blocks.Tables.Internal.getNextTimeEvent`,
`getTimeTableValueNoDer`, `getTimeTableTmax`, `getTimeTableTmin`). They are
deterministic, read-only collaborators per the spec. -/
structure ExtRuntime where
  relationhysteresis : RelOp → ℚ → ℚ → Bool → Bool
  greaterEqZC : ℚ → ℚ → Bool → Bool
  lessEqZC : ℚ → ℚ → Bool → Bool
  getNextTimeEvent : ℚ → ℚ
  getTimeTableValueNoDer : ℚ → ℚ → ℚ → ℚ
  getTimeTableTmax : ℚ
  getTimeTableTmin : ℚ

/-- Modelled from the spec: the external linear solver library call
`solve_linear_system(data, threadData, sysIndex, aux)` — given the system
index, the state and the initial guess it returns a status code (failure
when positive) and the solution value written back through aux. -/
def LinSolver : Type := Nat → State → ℚ → Int × ℚ

/-- The invocation-scoped side buffers of one ANALYTIC_JACOBIAN record:
seedVars, tmpVars and resultVars. -/
structure JacState where
  seedVars : Nat → ℚ
  tmpVars : Nat → ℚ
  resultVars : Nat → ℚ

/-- Boolean `GreaterEq(a,b)` of the generated code. -/
def qGreaterEq (a b : ℚ) : Bool := decide (b ≤ a)

/-- Boolean `LessEq(a,b)` of the generated code. -/
def qLessEq (a b : ℚ) : Bool := decide (a ≤ b)

/-- Boolean `Less(a,b)` of the generated code. -/
def qLess (a b : ℚ) : Bool := decide (a < b)

/-- Equation 115 of oc_latch_03lsy.c: R1.v = R1.R_actual * R2.i. -/
def oc_latch_eqFunction_115 (s : State) : State :=
  { s with realVars := upd s.realVars 2 (s.realVars 1 * s.realVars 5) }

/-- Equation 116 of oc_latch_03lsy.c: R2.v = R2.R_actual * R2.i. -/
def oc_latch_eqFunction_116 (s : State) : State :=
  { s with realVars := upd s.realVars 6 (s.realVars 4 * s.realVars 5) }

/-- residualFunc121 of oc_latch_03lsy.c: writes the trial value into R2.i
in the primary store, recomputes the local constraints 115 and 116, and
returns the updated store together with the residual value
constantVoltage.V + (-R2.v) - R1.v. -/
def residualFunc121 (s : State) (xloc : ℚ) : State × ℚ :=
  let s := { s with realVars := upd s.realVars 5 xloc }
  let s := oc_latch_eqFunction_115 s
  let s := oc_latch_eqFunction_116 s
  (s, s.realParameter 29 + (-s.realVars 6) - s.realVars 2)

/-- Equation 92 of oc_latch_03lsy.c:
resistor3.i = resistor2.v / resistor2.R_actual. -/
def oc_latch_eqFunction_92 (s : State) : State :=
  { s with realVars := upd s.realVars 52 (s.realVars 49 / s.realVars 48) }

/-- Equation 93 of oc_latch_03lsy.c:
resistor3.v = resistor3.R_actual * resistor3.i. -/
def oc_latch_eqFunction_93 (s : State) : State :=
  { s with realVars := upd s.realVars 53 (s.realVars 51 * s.realVars 52) }

/-- residualFunc98 of oc_latch_03lsy.c: writes the trial value into
resistor2.v, recomputes the local constraints 92 and 93, and returns the
residual constantVoltage.V + (-resistor3.v) - resistor2.v. -/
def residualFunc98 (s : State) (xloc : ℚ) : State × ℚ :=
  let s := { s with realVars := upd s.realVars 49 xloc }
  let s := oc_latch_eqFunction_92 s
  let s := oc_latch_eqFunction_93 s
  (s, s.realParameter 29 + (-s.realVars 53) - s.realVars 49)

/-- Equation 27 of oc_latch_03lsy.c:
resistor3.i = resistor3.v / resistor3.R_actual. -/
def oc_latch_eqFunction_27 (s : State) : State :=
  { s with realVars := upd s.realVars 52 (s.realVars 53 / s.realVars 51) }

/-- Equation 28 of oc_latch_03lsy.c:
resistor2.v = resistor2.R_actual * resistor3.i. -/
def oc_latch_eqFunction_28 (s : State) : State :=
  { s with realVars := upd s.realVars 49 (s.realVars 48 * s.realVars 52) }

/-- residualFunc33 of oc_latch_03lsy.c: writes the trial value into
resistor3.v, recomputes the local constraints 27 and 28, and returns the
residual constantVoltage.V + (-resistor3.v) - resistor2.v. -/
def residualFunc33 (s : State) (xloc : ℚ) : State × ℚ :=
  let s := { s with realVars := upd s.realVars 53 xloc }
  let s := oc_latch_eqFunction_27 s
  let s := oc_latch_eqFunction_28 s
  (s, s.realParameter 29 + (-s.realVars 53) - s.realVars 49)

/-- Equation 17 of oc_latch_03lsy.c: R2.i = R2.v / R2.R_actual. -/
def oc_latch_eqFunction_17 (s : State) : State :=
  { s with realVars := upd s.realVars 5 (s.realVars 6 / s.realVars 4) }

/-- Equation 18 of oc_latch_03lsy.c: R1.v = R1.R_actual * R2.i. -/
def oc_latch_eqFunction_18 (s : State) : State :=
  { s with realVars := upd s.realVars 2 (s.realVars 1 * s.realVars 5) }

/-- residualFunc23 of oc_latch_03lsy.c: writes the trial value into R2.v,
recomputes the local constraints 17 and 18, and returns the residual
constantVoltage.V + (-R2.v) - R1.v. -/
def residualFunc23 (s : State) (xloc : ℚ) : State × ℚ :=
  let s := { s with realVars := upd s.realVars 6 xloc }
  let s := oc_latch_eqFunction_17 s
  let s := oc_latch_eqFunction_18 s
  (s, s.realParameter 29 + (-s.realVars 6) - s.realVars 2)

/-- The residual value of the linear system with the given solver index
(0 for equation 23, 1 for 33, 2 for 98, 3 for 121), evaluated at a trial
value without keeping the store mutation. -/
def lsResidualValue (k : Nat) (s : State) (x : ℚ) : ℚ :=
  match k with
  | 0 => (residualFunc23 s x).2
  | 1 => (residualFunc33 s x).2
  | 2 => (residualFunc98 s x).2
  | _ => (residualFunc121 s x).2

/-- The slope of the (affine) residual of the linear system with the given
solver index: the difference of the residual at 1 and at 0. -/
def lsResidualSlope (k : Nat) (s : State) : ℚ :=
  lsResidualValue k s 1 - lsResidualValue k s 0

/-- Modelled from the spec: the external linear solver library, which for
these one-unknown linear systems performs one exact Newton step from the
initial guess with the analytic slope of the residual callback, reaching
the unique zero of the affine residual, and reports failure (positive
status) exactly when the system is singular (zero slope). -/
def specLinSolver : LinSolver := fun k s x0 =>
  (if lsResidualSlope k s = 0 then 1 else 0,
   x0 - lsResidualValue k s x0 / lsResidualSlope k s)

example : upd (fun _ => (0 : ℚ)) 3 5 3 = 5 := by decide
example : upd (fun _ => (0 : ℚ)) 3 5 4 = 0 := by decide

/-- The literal 9.999999999999999e+59 used by the nextTimeEvent clamping
equations 39 and 108. -/
def maxTimeEventValue : ℚ := 9.999999999999999e59

/-- Sets threadData lastEquationSolved, as functionAlg_system0 does after
every equation call. -/
def setLastEq (n : Nat) (s : State) : State := { s with lastEquationSolved := n }

/-- Equation 89 of oc_latch.c:
whenCondition1 = time >= pre(combiTimeTable.nextTimeEvent), through
relationhysteresis with relation index 6. -/
def oc_latch_eqFunction_89 (ext : ExtRuntime) (s : State) : State :=
  let tmp0 := ext.relationhysteresis .greaterEq s.timeValue (s.realVarsPre 56)
    (s.storedRelations 6)
  { s with booleanVars := upd s.booleanVars 0 tmp0 }

/-- Equation 90 of oc_latch.c: reset = time >= 0.95 and time <= 0.96,
through relationhysteresis with relation indices 4 and 5. -/
def oc_latch_eqFunction_90 (ext : ExtRuntime) (s : State) : State :=
  let tmp1 := ext.relationhysteresis .greaterEq s.timeValue 0.95 (s.storedRelations 4)
  let tmp2 := ext.relationhysteresis .lessEq s.timeValue 0.96 (s.storedRelations 5)
  { s with booleanVars := upd s.booleanVars 11 (tmp1 && tmp2) }

/-- Equation 91 of oc_latch.c: enable = time <= 0.1 or time >= 0.9,
through relationhysteresis with relation indices 2 and 3. -/
def oc_latch_eqFunction_91 (ext : ExtRuntime) (s : State) : State :=
  let tmp3 := ext.relationhysteresis .lessEq s.timeValue 0.1 (s.storedRelations 2)
  let tmp4 := ext.relationhysteresis .greaterEq s.timeValue 0.9 (s.storedRelations 3)
  { s with booleanVars := upd s.booleanVars 2 (tmp3 || tmp4) }

/-- Equation 98 of oc_latch.c: solve linear system 98 (solver index 2) for
resistor2.v seeded from the previous-step value; a positive solver status
aborts with the diagnostic naming equation 98 and the current time, else
the solution is written to resistor2.v. -/
def oc_latch_eqFunction_98 (ls : LinSolver) (s : State) : Except (Err State) State :=
  let aux := s.realVars1 49
  let r := ls 2 s aux
  if 0 < r.1 then
    .error ⟨[1, 98], s.timeValue, "Solving linear system 98 failed", s⟩
  else
    .ok { s with realVars := upd s.realVars 49 r.2 }

/-- Equation 99 of oc_latch.c: resistor2.LossPower = resistor2.v * resistor3.i. -/
def oc_latch_eqFunction_99 (s : State) : State :=
  { s with realVars := upd s.realVars 47 (s.realVars 49 * s.realVars 52) }

/-- Equation 100 of oc_latch.c: resistor3.LossPower = resistor3.v * resistor3.i. -/
def oc_latch_eqFunction_100 (s : State) : State :=
  { s with realVars := upd s.realVars 50 (s.realVars 53 * s.realVars 52) }

/-- Equation 101 of oc_latch.c: pre11.y = pre(pre11.u). -/
def oc_latch_eqFunction_101 (s : State) : State :=
  { s with booleanVars := upd s.booleanVars 10 (s.booleanVarsPre 9) }

/-- Equation 102 of oc_latch.c: nor1.u1 = pre(pre1.u). -/
def oc_latch_eqFunction_102 (s : State) : State :=
  { s with booleanVars := upd s.booleanVars 5 (s.booleanVarsPre 8) }

/-- Equation 103 of oc_latch.c: SW = not (nor1.u1 or pre11.y). -/
def oc_latch_eqFunction_103 (s : State) : State :=
  { s with booleanVars := upd s.booleanVars 1 (!(s.booleanVars 5 || s.booleanVars 10)) }

/-- Equation 104 of oc_latch.c: pre1.u = not (SW or enable). -/
def oc_latch_eqFunction_104 (s : State) : State :=
  { s with booleanVars := upd s.booleanVars 8 (!(s.booleanVars 1 || s.booleanVars 2)) }

/-- Equation 105 of oc_latch.c: combiTimeTable.timeScaled = time. -/
def oc_latch_eqFunction_105 (s : State) : State :=
  { s with realVars := upd s.realVars 9 s.timeValue }

/-- Equation 106 of oc_latch.c, a when-clause: on the rising edge of
whenCondition1 (current value true, pre value false) assign
combiTimeTable.nextTimeEventScaled from the external getNextTimeEvent
query at combiTimeTable.timeScaled; otherwise do nothing. -/
def oc_latch_eqFunction_106 (ext : ExtRuntime) (s : State) : State :=
  if s.booleanVars 0 && !s.booleanVarsPre 0 then
    { s with realVars := upd s.realVars 57 (ext.getNextTimeEvent (s.realVars 9)) }
  else s

/-- Equation 107 of oc_latch.c: combiTimeTable.y[1] from the external
getTimeTableValueNoDer query at (timeScaled, nextTimeEventScaled,
pre(nextTimeEventScaled)); the constant output-column argument 1 is folded
into the modelled query. -/
def oc_latch_eqFunction_107 (ext : ExtRuntime) (s : State) : State :=
  let v := ext.getTimeTableValueNoDer (s.realVars 9) (s.realVars 57) (s.realVarsPre 57)
  { s with realVars := upd s.realVars 10 v }

/-- Equation 108 of oc_latch.c, a when-clause: on the rising edge of
whenCondition1 assign combiTimeTable.nextTimeEvent to
nextTimeEventScaled clamped at 9.999999999999999e59; otherwise do nothing. -/
def oc_latch_eqFunction_108 (s : State) : State :=
  if s.booleanVars 0 && !s.booleanVarsPre 0 then
    let tmp5 := qLess (s.realVars 57) maxTimeEventValue
    { s with realVars := upd s.realVars 56 (if tmp5 then s.realVars 57 else maxTimeEventValue) }
  else s

/-- Equation 109 of oc_latch.c: opAmp1.vin = combiTimeTable.y[1] - resistor3.v. -/
def oc_latch_eqFunction_109 (s : State) : State :=
  { s with realVars := upd s.realVars 34 (s.realVars 10 - s.realVars 53) }

/-- Equation 110 of oc_latch.c: potentialSensor1.phi from the opAmp1
saturation formula. -/
def oc_latch_eqFunction_110 (s : State) : State :=
  let tmp6 := qLess (s.realVars 31 * s.realVars 34) 0
  let v := 0.5 * s.realParameter 29 + s.realVars 30 *
    (s.realVars 34 /
      (1 + s.realVars 30 *
        (if tmp6 then (-s.realVars 31) * s.realVars 34 else s.realVars 31 * s.realVars 34)))
  { s with realVars := upd s.realVars 38 v }

/-- Equation 111 of oc_latch.c: resistor1.v = constantVoltage.V - potentialSensor1.phi. -/
def oc_latch_eqFunction_111 (s : State) : State :=
  { s with realVars := upd s.realVars 46 (s.realParameter 29 - s.realVars 38) }

/-- Equation 112 of oc_latch.c: resistor1.i = resistor1.v / resistor1.R_actual. -/
def oc_latch_eqFunction_112 (s : State) : State :=
  { s with realVars := upd s.realVars 45 (s.realVars 46 / s.realVars 44) }

/-- Equation 113 of oc_latch.c: resistor1.LossPower = resistor1.v * resistor1.i. -/
def oc_latch_eqFunction_113 (s : State) : State :=
  { s with realVars := upd s.realVars 43 (s.realVars 46 * s.realVars 45) }

/-- Equation 114 of oc_latch.c: greaterEqualThreshold1.y =
potentialSensor1.phi >= greaterEqualThreshold1.threshold, through
relationhysteresis with relation index 1. -/
def oc_latch_eqFunction_114 (ext : ExtRuntime) (s : State) : State :=
  let tmp7 := ext.relationhysteresis .greaterEq (s.realVars 38) (s.realParameter 33)
    (s.storedRelations 1)
  { s with booleanVars := upd s.booleanVars 3 tmp7 }

/-- Equation 121 of oc_latch.c: solve linear system 121 (solver index 3)
for R2.i seeded from the previous-step value; a positive solver status
aborts with the diagnostic naming equation 121 and the current time, else
the solution is written to R2.i. -/
def oc_latch_eqFunction_121 (ls : LinSolver) (s : State) : Except (Err State) State :=
  let aux := s.realVars1 5
  let r := ls 3 s aux
  if 0 < r.1 then
    .error ⟨[1, 121], s.timeValue, "Solving linear system 121 failed", s⟩
  else
    .ok { s with realVars := upd s.realVars 5 r.2 }

/-- Equation 122 of oc_latch.c: R1.LossPower = R1.v * R2.i. -/
def oc_latch_eqFunction_122 (s : State) : State :=
  { s with realVars := upd s.realVars 0 (s.realVars 2 * s.realVars 5) }

/-- Equation 123 of oc_latch.c: opAmp.vin = R2.v - combiTimeTable.y[1]. -/
def oc_latch_eqFunction_123 (s : State) : State :=
  { s with realVars := upd s.realVars 27 (s.realVars 6 - s.realVars 10) }

/-- Equation 124 of oc_latch.c: potentialSensor.phi from the opAmp
saturation formula. -/
def oc_latch_eqFunction_124 (s : State) : State :=
  let tmp8 := qLess (s.realVars 24 * s.realVars 27) 0
  let v := 0.5 * s.realParameter 29 + s.realVars 23 *
    (s.realVars 27 /
      (1 + s.realVars 23 *
        (if tmp8 then (-s.realVars 24) * s.realVars 27 else s.realVars 24 * s.realVars 27)))
  { s with realVars := upd s.realVars 36 v }

/-- Equation 125 of oc_latch.c: resistor.v = constantVoltage.V - potentialSensor.phi. -/
def oc_latch_eqFunction_125 (s : State) : State :=
  { s with realVars := upd s.realVars 42 (s.realParameter 29 - s.realVars 36) }

/-- Equation 126 of oc_latch.c: resistor.i = resistor.v / resistor.R_actual. -/
def oc_latch_eqFunction_126 (s : State) : State :=
  { s with realVars := upd s.realVars 41 (s.realVars 42 / s.realVars 40) }

/-- Equation 127 of oc_latch.c: resistor.LossPower = resistor.v * resistor.i. -/
def oc_latch_eqFunction_127 (s : State) : State :=
  { s with realVars := upd s.realVars 39 (s.realVars 42 * s.realVars 41) }

/-- Equation 128 of oc_latch.c: nand.u1 = potentialSensor.phi >=
greaterEqualThreshold.threshold, through relationhysteresis with relation
index 0. -/
def oc_latch_eqFunction_128 (ext : ExtRuntime) (s : State) : State :=
  let tmp9 := ext.relationhysteresis .greaterEq (s.realVars 36) (s.realParameter 32)
    (s.storedRelations 0)
  { s with booleanVars := upd s.booleanVars 4 tmp9 }

/-- Equation 129 of oc_latch.c: nor3.u2 = not (nand.u1 and greaterEqualThreshold1.y). -/
def oc_latch_eqFunction_129 (s : State) : State :=
  { s with booleanVars := upd s.booleanVars 6 (!(s.booleanVars 4 && s.booleanVars 3)) }

/-- Equation 130 of oc_latch.c: nor3.y = not (pre11.y or nor3.u2). -/
def oc_latch_eqFunction_130 (s : State) : State :=
  { s with booleanVars := upd s.booleanVars 7 (!(s.booleanVars 10 || s.booleanVars 6)) }

/-- Equation 131 of oc_latch.c: pre11.u = not (nor3.y or reset). -/
def oc_latch_eqFunction_131 (s : State) : State :=
  { s with booleanVars := upd s.booleanVars 9 (!(s.booleanVars 7 || s.booleanVars 11)) }

/-- Equation 132 of oc_latch.c: R2.LossPower = R2.v * R2.i. -/
def oc_latch_eqFunction_132 (s : State) : State :=
  { s with realVars := upd s.realVars 3 (s.realVars 6 * s.realVars 5) }

/-- Equation 133 of oc_latch.c:
constantVoltage.i = (-resistor3.i) - resistor1.i - resistor.i - R2.i. -/
def oc_latch_eqFunction_133 (s : State) : State :=
  let v := (-s.realVars 52) - s.realVars 45 - s.realVars 41 - s.realVars 5
  { s with realVars := upd s.realVars 11 v }

/-- Shared shape of the algorithm-block temperature assertions (equations
134 to 139 of oc_latch.c and 83 to 88 of oc_latch_06inz.c): when the
condition value is below 1e-15 the assertion is violated; with
noThrowAsserts set the violation is printed to the log (the two
infoStreamPrint calls), needToReThrow is set and evaluation continues, else
omc_assert_warning logs a warning and omc_assert_withEquationIndexes (the
fatal simulation assert) aborts. These functions declare a static
already-warned flag but never read or write it, which this model mirrors
by leaving assertLatch untouched. -/
def tempScopeAssert (eqIndex : Nat) (condValue : ℚ) (condText : String)
    (s : State) : Except (Err State) State :=
  if qGreaterEq condValue 1e-15 then .ok s
  else if s.noThrowAsserts then
    .ok { s with
      log := s.log ++ [⟨eqIndex, s.timeValue, condText⟩,
        ⟨eqIndex, s.timeValue, "Temperature outside scope of model!"⟩],
      needToReThrow := true }
  else
    .error ⟨[1, eqIndex], s.timeValue, "Temperature outside scope of model!",
      { s with log := s.log ++ [⟨eqIndex, s.timeValue, condText⟩] }⟩

/-- Equation 139 of oc_latch.c:
assert(1.0 + resistor3.alpha * (resistor3.T - resistor3.T_ref) >= 1e-15). -/
def oc_latch_eqFunction_139 (s : State) : Except (Err State) State :=
  tempScopeAssert 139
    (1 + s.realParameter 60 * (s.realParameter 57 - s.realParameter 59))
    "1.0 + resistor3.alpha * (resistor3.T - resistor3.T_ref) >= 1e-15" s

/-- Equation 138 of oc_latch.c:
assert(1.0 + resistor2.alpha * (resistor2.T - resistor2.T_ref) >= 1e-15). -/
def oc_latch_eqFunction_138 (s : State) : Except (Err State) State :=
  tempScopeAssert 138
    (1 + s.realParameter 54 * (s.realParameter 51 - s.realParameter 53))
    "1.0 + resistor2.alpha * (resistor2.T - resistor2.T_ref) >= 1e-15" s

/-- Equation 137 of oc_latch.c:
assert(1.0 + resistor1.alpha * (resistor1.T - resistor1.T_ref) >= 1e-15). -/
def oc_latch_eqFunction_137 (s : State) : Except (Err State) State :=
  tempScopeAssert 137
    (1 + s.realParameter 48 * (s.realParameter 45 - s.realParameter 47))
    "1.0 + resistor1.alpha * (resistor1.T - resistor1.T_ref) >= 1e-15" s

/-- Equation 136 of oc_latch.c:
assert(1.0 + resistor.alpha * (resistor.T - resistor.T_ref) >= 1e-15). -/
def oc_latch_eqFunction_136 (s : State) : Except (Err State) State :=
  tempScopeAssert 136
    (1 + s.realParameter 42 * (s.realParameter 39 - s.realParameter 41))
    "1.0 + resistor.alpha * (resistor.T - resistor.T_ref) >= 1e-15" s

/-- Equation 135 of oc_latch.c:
assert(1.0 + R2.alpha * (R2.T - R2.T_ref) >= 1e-15). -/
def oc_latch_eqFunction_135 (s : State) : Except (Err State) State :=
  tempScopeAssert 135
    (1 + s.realParameter 10 * (s.realParameter 7 - s.realParameter 9))
    "1.0 + R2.alpha * (R2.T - R2.T_ref) >= 1e-15" s

/-- Equation 134 of oc_latch.c:
assert(1.0 + R1.alpha * (R1.T - R1.T_ref) >= 1e-15). -/
def oc_latch_eqFunction_134 (s : State) : Except (Err State) State :=
  tempScopeAssert 134
    (1 + s.realParameter 4 * (s.realParameter 1 - s.realParameter 3))
    "1.0 + R1.alpha * (R1.T - R1.T_ref) >= 1e-15" s

/-- functionAlg_system0 of oc_latch_09alg.c: the continuous/algebraic pass,
running equations 89, 90, 91, 98, 99, 100, 101, 102, 103, 104, 105, 107,
109, 110, 111, 112, 113, 114, 121, 122, 123, 124, 125, 126, 127, 128, 129,
130, 131, 132, 133 and the assertion equations 134 to 139 in the generated
order, recording lastEquationSolved after each. -/
def functionAlg_system0 (ext : ExtRuntime) (ls : LinSolver) (s : State) :
    Except (Err State) State := do
  let s := setLastEq 89 (oc_latch_eqFunction_89 ext s)
  let s := setLastEq 90 (oc_latch_eqFunction_90 ext s)
  let s := setLastEq 91 (oc_latch_eqFunction_91 ext s)
  let s := setLastEq 98 (← oc_latch_eqFunction_98 ls s)
  let s := setLastEq 99 (oc_latch_eqFunction_99 s)
  let s := setLastEq 100 (oc_latch_eqFunction_100 s)
  let s := setLastEq 101 (oc_latch_eqFunction_101 s)
  let s := setLastEq 102 (oc_latch_eqFunction_102 s)
  let s := setLastEq 103 (oc_latch_eqFunction_103 s)
  let s := setLastEq 104 (oc_latch_eqFunction_104 s)
  let s := setLastEq 105 (oc_latch_eqFunction_105 s)
  let s := setLastEq 107 (oc_latch_eqFunction_107 ext s)
  let s := setLastEq 109 (oc_latch_eqFunction_109 s)
  let s := setLastEq 110 (oc_latch_eqFunction_110 s)
  let s := setLastEq 111 (oc_latch_eqFunction_111 s)
  let s := setLastEq 112 (oc_latch_eqFunction_112 s)
  let s := setLastEq 113 (oc_latch_eqFunction_113 s)
  let s := setLastEq 114 (oc_latch_eqFunction_114 ext s)
  let s := setLastEq 121 (← oc_latch_eqFunction_121 ls s)
  let s := setLastEq 122 (oc_latch_eqFunction_122 s)
  let s := setLastEq 123 (oc_latch_eqFunction_123 s)
  let s := setLastEq 124 (oc_latch_eqFunction_124 s)
  let s := setLastEq 125 (oc_latch_eqFunction_125 s)
  let s := setLastEq 126 (oc_latch_eqFunction_126 s)
  let s := setLastEq 127 (oc_latch_eqFunction_127 s)
  let s := setLastEq 128 (oc_latch_eqFunction_128 ext s)
  let s := setLastEq 129 (oc_latch_eqFunction_129 s)
  let s := setLastEq 130 (oc_latch_eqFunction_130 s)
  let s := setLastEq 131 (oc_latch_eqFunction_131 s)
  let s := setLastEq 132 (oc_latch_eqFunction_132 s)
  let s := setLastEq 133 (oc_latch_eqFunction_133 s)
  let s := setLastEq 134 (← oc_latch_eqFunction_134 s)
  let s := setLastEq 135 (← oc_latch_eqFunction_135 s)
  let s := setLastEq 136 (← oc_latch_eqFunction_136 s)
  let s := setLastEq 137 (← oc_latch_eqFunction_137 s)
  let s := setLastEq 138 (← oc_latch_eqFunction_138 s)
  let s := setLastEq 139 (← oc_latch_eqFunction_139 s)
  pure s

/-- oc_latch_function_savePreSynchronous of oc_latch_15syn.c: generated
empty (no clocked variables). -/
def oc_latch_function_savePreSynchronous (s : State) : State := s

/-- oc_latch_functionAlgebraics of oc_latch_09alg.c: savePreSynchronous
followed by functionAlg_system0. -/
def oc_latch_functionAlgebraics (ext : ExtRuntime) (ls : LinSolver) (s : State) :
    Except (Err State) State :=
  functionAlg_system0 ext ls (oc_latch_function_savePreSynchronous s)

/-- The realVars indices written by the continuous/algebraic pass, in the
order of the generated equation calls. -/
def algRealWrites : List Nat :=
  [49, 47, 50, 9, 10, 34, 38, 46, 45, 43, 5, 0, 27, 36, 42, 41, 39, 3, 11]

/-- The booleanVars indices written by the continuous/algebraic pass, in
the order of the generated equation calls. -/
def algBoolWrites : List Nat := [0, 11, 2, 10, 5, 1, 8, 3, 4, 6, 7, 9]

/-- The input/output relation of one completed run of the
continuous/algebraic pass: each variable written by the pass equals the
closed form of its generated equation over the inputs of u; every variable
outside the write sets and every input-frame component of the store is
returned unchanged. -/
structure AlgSpec (ext : ExtRuntime) (u w : State) : Prop where
  b0 : w.booleanVars 0 = ext.relationhysteresis .greaterEq u.timeValue (u.realVarsPre 56) (u.storedRelations 6)
  b11 : w.booleanVars 11 = (ext.relationhysteresis .greaterEq u.timeValue 0.95 (u.storedRelations 4) && ext.relationhysteresis .lessEq u.timeValue 0.96 (u.storedRelations 5))
  b2 : w.booleanVars 2 = (ext.relationhysteresis .lessEq u.timeValue 0.1 (u.storedRelations 2) || ext.relationhysteresis .greaterEq u.timeValue 0.9 (u.storedRelations 3))
  e49 : w.realVars 49 = u.realVars1 49 - lsResidualValue 2 u (u.realVars1 49) / lsResidualSlope 2 u
  e47 : w.realVars 47 = (u.realVars1 49 - lsResidualValue 2 u (u.realVars1 49) / lsResidualSlope 2 u) * u.realVars 52
  e50 : w.realVars 50 = u.realVars 53 * u.realVars 52
  b10 : w.booleanVars 10 = u.booleanVarsPre 9
  b5 : w.booleanVars 5 = u.booleanVarsPre 8
  b1 : w.booleanVars 1 = !((u.booleanVarsPre 8) || (u.booleanVarsPre 9))
  b8 : w.booleanVars 8 = !((!((u.booleanVarsPre 8) || (u.booleanVarsPre 9))) || ((ext.relationhysteresis .lessEq u.timeValue 0.1 (u.storedRelations 2) || ext.relationhysteresis .greaterEq u.timeValue 0.9 (u.storedRelations 3))))
  e9 : w.realVars 9 = u.timeValue
  e10 : w.realVars 10 = ext.getTimeTableValueNoDer ((u.timeValue)) (u.realVars 57) (u.realVarsPre 57)
  e34 : w.realVars 34 = (ext.getTimeTableValueNoDer ((u.timeValue)) (u.realVars 57) (u.realVarsPre 57)) - u.realVars 53
  e38 : w.realVars 38 = 0.5 * u.realParameter 29 + u.realVars 30 * (((ext.getTimeTableValueNoDer ((u.timeValue)) (u.realVars 57) (u.realVarsPre 57)) - u.realVars 53) / (1 + u.realVars 30 * (if qLess (u.realVars 31 * ((ext.getTimeTableValueNoDer ((u.timeValue)) (u.realVars 57) (u.realVarsPre 57)) - u.realVars 53)) 0 then (-u.realVars 31) * ((ext.getTimeTableValueNoDer ((u.timeValue)) (u.realVars 57) (u.realVarsPre 57)) - u.realVars 53) else u.realVars 31 * ((ext.getTimeTableValueNoDer ((u.timeValue)) (u.realVars 57) (u.realVarsPre 57)) - u.realVars 53))))
  e46 : w.realVars 46 = u.realParameter 29 - (0.5 * u.realParameter 29 + u.realVars 30 * (((ext.getTimeTableValueNoDer ((u.timeValue)) (u.realVars 57) (u.realVarsPre 57)) - u.realVars 53) / (1 + u.realVars 30 * (if qLess (u.realVars 31 * ((ext.getTimeTableValueNoDer ((u.timeValue)) (u.realVars 57) (u.realVarsPre 57)) - u.realVars 53)) 0 then (-u.realVars 31) * ((ext.getTimeTableValueNoDer ((u.timeValue)) (u.realVars 57) (u.realVarsPre 57)) - u.realVars 53) else u.realVars 31 * ((ext.getTimeTableValueNoDer ((u.timeValue)) (u.realVars 57) (u.realVarsPre 57)) - u.realVars 53)))))
  e45 : w.realVars 45 = (u.realParameter 29 - (0.5 * u.realParameter 29 + u.realVars 30 * (((ext.getTimeTableValueNoDer ((u.timeValue)) (u.realVars 57) (u.realVarsPre 57)) - u.realVars 53) / (1 + u.realVars 30 * (if qLess (u.realVars 31 * ((ext.getTimeTableValueNoDer ((u.timeValue)) (u.realVars 57) (u.realVarsPre 57)) - u.realVars 53)) 0 then (-u.realVars 31) * ((ext.getTimeTableValueNoDer ((u.timeValue)) (u.realVars 57) (u.realVarsPre 57)) - u.realVars 53) else u.realVars 31 * ((ext.getTimeTableValueNoDer ((u.timeValue)) (u.realVars 57) (u.realVarsPre 57)) - u.realVars 53)))))) / u.realVars 44
  e43 : w.realVars 43 = (u.realParameter 29 - (0.5 * u.realParameter 29 + u.realVars 30 * (((ext.getTimeTableValueNoDer ((u.timeValue)) (u.realVars 57) (u.realVarsPre 57)) - u.realVars 53) / (1 + u.realVars 30 * (if qLess (u.realVars 31 * ((ext.getTimeTableValueNoDer ((u.timeValue)) (u.realVars 57) (u.realVarsPre 57)) - u.realVars 53)) 0 then (-u.realVars 31) * ((ext.getTimeTableValueNoDer ((u.timeValue)) (u.realVars 57) (u.realVarsPre 57)) - u.realVars 53) else u.realVars 31 * ((ext.getTimeTableValueNoDer ((u.timeValue)) (u.realVars 57) (u.realVarsPre 57)) - u.realVars 53)))))) * ((u.realParameter 29 - (0.5 * u.realParameter 29 + u.realVars 30 * (((ext.getTimeTableValueNoDer ((u.timeValue)) (u.realVars 57) (u.realVarsPre 57)) - u.realVars 53) / (1 + u.realVars 30 * (if qLess (u.realVars 31 * ((ext.getTimeTableValueNoDer ((u.timeValue)) (u.realVars 57) (u.realVarsPre 57)) - u.realVars 53)) 0 then (-u.realVars 31) * ((ext.getTimeTableValueNoDer ((u.timeValue)) (u.realVars 57) (u.realVarsPre 57)) - u.realVars 53) else u.realVars 31 * ((ext.getTimeTableValueNoDer ((u.timeValue)) (u.realVars 57) (u.realVarsPre 57)) - u.realVars 53)))))) / u.realVars 44)
  b3 : w.booleanVars 3 = ext.relationhysteresis .greaterEq ((0.5 * u.realParameter 29 + u.realVars 30 * (((ext.getTimeTableValueNoDer ((u.timeValue)) (u.realVars 57) (u.realVarsPre 57)) - u.realVars 53) / (1 + u.realVars 30 * (if qLess (u.realVars 31 * ((ext.getTimeTableValueNoDer ((u.timeValue)) (u.realVars 57) (u.realVarsPre 57)) - u.realVars 53)) 0 then (-u.realVars 31) * ((ext.getTimeTableValueNoDer ((u.timeValue)) (u.realVars 57) (u.realVarsPre 57)) - u.realVars 53) else u.realVars 31 * ((ext.getTimeTableValueNoDer ((u.timeValue)) (u.realVars 57) (u.realVarsPre 57)) - u.realVars 53)))))) (u.realParameter 33) (u.storedRelations 1)
  e5 : w.realVars 5 = u.realVars1 5 - lsResidualValue 3 u (u.realVars1 5) / lsResidualSlope 3 u
  e0 : w.realVars 0 = u.realVars 2 * (u.realVars1 5 - lsResidualValue 3 u (u.realVars1 5) / lsResidualSlope 3 u)
  e27 : w.realVars 27 = u.realVars 6 - (ext.getTimeTableValueNoDer ((u.timeValue)) (u.realVars 57) (u.realVarsPre 57))
  e36 : w.realVars 36 = 0.5 * u.realParameter 29 + u.realVars 23 * ((u.realVars 6 - (ext.getTimeTableValueNoDer ((u.timeValue)) (u.realVars 57) (u.realVarsPre 57))) / (1 + u.realVars 23 * (if qLess (u.realVars 24 * (u.realVars 6 - (ext.getTimeTableValueNoDer ((u.timeValue)) (u.realVars 57) (u.realVarsPre 57)))) 0 then (-u.realVars 24) * (u.realVars 6 - (ext.getTimeTableValueNoDer ((u.timeValue)) (u.realVars 57) (u.realVarsPre 57))) else u.realVars 24 * (u.realVars 6 - (ext.getTimeTableValueNoDer ((u.timeValue)) (u.realVars 57) (u.realVarsPre 57))))))
  e42 : w.realVars 42 = u.realParameter 29 - (0.5 * u.realParameter 29 + u.realVars 23 * ((u.realVars 6 - (ext.getTimeTableValueNoDer ((u.timeValue)) (u.realVars 57) (u.realVarsPre 57))) / (1 + u.realVars 23 * (if qLess (u.realVars 24 * (u.realVars 6 - (ext.getTimeTableValueNoDer ((u.timeValue)) (u.realVars 57) (u.realVarsPre 57)))) 0 then (-u.realVars 24) * (u.realVars 6 - (ext.getTimeTableValueNoDer ((u.timeValue)) (u.realVars 57) (u.realVarsPre 57))) else u.realVars 24 * (u.realVars 6 - (ext.getTimeTableValueNoDer ((u.timeValue)) (u.realVars 57) (u.realVarsPre 57)))))))
  e41 : w.realVars 41 = (u.realParameter 29 - (0.5 * u.realParameter 29 + u.realVars 23 * ((u.realVars 6 - (ext.getTimeTableValueNoDer ((u.timeValue)) (u.realVars 57) (u.realVarsPre 57))) / (1 + u.realVars 23 * (if qLess (u.realVars 24 * (u.realVars 6 - (ext.getTimeTableValueNoDer ((u.timeValue)) (u.realVars 57) (u.realVarsPre 57)))) 0 then (-u.realVars 24) * (u.realVars 6 - (ext.getTimeTableValueNoDer ((u.timeValue)) (u.realVars 57) (u.realVarsPre 57))) else u.realVars 24 * (u.realVars 6 - (ext.getTimeTableValueNoDer ((u.timeValue)) (u.realVars 57) (u.realVarsPre 57)))))))) / u.realVars 40
  e39 : w.realVars 39 = (u.realParameter 29 - (0.5 * u.realParameter 29 + u.realVars 23 * ((u.realVars 6 - (ext.getTimeTableValueNoDer ((u.timeValue)) (u.realVars 57) (u.realVarsPre 57))) / (1 + u.realVars 23 * (if qLess (u.realVars 24 * (u.realVars 6 - (ext.getTimeTableValueNoDer ((u.timeValue)) (u.realVars 57) (u.realVarsPre 57)))) 0 then (-u.realVars 24) * (u.realVars 6 - (ext.getTimeTableValueNoDer ((u.timeValue)) (u.realVars 57) (u.realVarsPre 57))) else u.realVars 24 * (u.realVars 6 - (ext.getTimeTableValueNoDer ((u.timeValue)) (u.realVars 57) (u.realVarsPre 57)))))))) * ((u.realParameter 29 - (0.5 * u.realParameter 29 + u.realVars 23 * ((u.realVars 6 - (ext.getTimeTableValueNoDer ((u.timeValue)) (u.realVars 57) (u.realVarsPre 57))) / (1 + u.realVars 23 * (if qLess (u.realVars 24 * (u.realVars 6 - (ext.getTimeTableValueNoDer ((u.timeValue)) (u.realVars 57) (u.realVarsPre 57)))) 0 then (-u.realVars 24) * (u.realVars 6 - (ext.getTimeTableValueNoDer ((u.timeValue)) (u.realVars 57) (u.realVarsPre 57))) else u.realVars 24 * (u.realVars 6 - (ext.getTimeTableValueNoDer ((u.timeValue)) (u.realVars 57) (u.realVarsPre 57)))))))) / u.realVars 40)
  b4 : w.booleanVars 4 = ext.relationhysteresis .greaterEq ((0.5 * u.realParameter 29 + u.realVars 23 * ((u.realVars 6 - (ext.getTimeTableValueNoDer ((u.timeValue)) (u.realVars 57) (u.realVarsPre 57))) / (1 + u.realVars 23 * (if qLess (u.realVars 24 * (u.realVars 6 - (ext.getTimeTableValueNoDer ((u.timeValue)) (u.realVars 57) (u.realVarsPre 57)))) 0 then (-u.realVars 24) * (u.realVars 6 - (ext.getTimeTableValueNoDer ((u.timeValue)) (u.realVars 57) (u.realVarsPre 57))) else u.realVars 24 * (u.realVars 6 - (ext.getTimeTableValueNoDer ((u.timeValue)) (u.realVars 57) (u.realVarsPre 57)))))))) (u.realParameter 32) (u.storedRelations 0)
  b6 : w.booleanVars 6 = !((ext.relationhysteresis .greaterEq ((0.5 * u.realParameter 29 + u.realVars 23 * ((u.realVars 6 - (ext.getTimeTableValueNoDer ((u.timeValue)) (u.realVars 57) (u.realVarsPre 57))) / (1 + u.realVars 23 * (if qLess (u.realVars 24 * (u.realVars 6 - (ext.getTimeTableValueNoDer ((u.timeValue)) (u.realVars 57) (u.realVarsPre 57)))) 0 then (-u.realVars 24) * (u.realVars 6 - (ext.getTimeTableValueNoDer ((u.timeValue)) (u.realVars 57) (u.realVarsPre 57))) else u.realVars 24 * (u.realVars 6 - (ext.getTimeTableValueNoDer ((u.timeValue)) (u.realVars 57) (u.realVarsPre 57)))))))) (u.realParameter 32) (u.storedRelations 0)) && (ext.relationhysteresis .greaterEq ((0.5 * u.realParameter 29 + u.realVars 30 * (((ext.getTimeTableValueNoDer ((u.timeValue)) (u.realVars 57) (u.realVarsPre 57)) - u.realVars 53) / (1 + u.realVars 30 * (if qLess (u.realVars 31 * ((ext.getTimeTableValueNoDer ((u.timeValue)) (u.realVars 57) (u.realVarsPre 57)) - u.realVars 53)) 0 then (-u.realVars 31) * ((ext.getTimeTableValueNoDer ((u.timeValue)) (u.realVars 57) (u.realVarsPre 57)) - u.realVars 53) else u.realVars 31 * ((ext.getTimeTableValueNoDer ((u.timeValue)) (u.realVars 57) (u.realVarsPre 57)) - u.realVars 53)))))) (u.realParameter 33) (u.storedRelations 1)))
  b7 : w.booleanVars 7 = !((u.booleanVarsPre 9) || (!((ext.relationhysteresis .greaterEq ((0.5 * u.realParameter 29 + u.realVars 23 * ((u.realVars 6 - (ext.getTimeTableValueNoDer ((u.timeValue)) (u.realVars 57) (u.realVarsPre 57))) / (1 + u.realVars 23 * (if qLess (u.realVars 24 * (u.realVars 6 - (ext.getTimeTableValueNoDer ((u.timeValue)) (u.realVars 57) (u.realVarsPre 57)))) 0 then (-u.realVars 24) * (u.realVars 6 - (ext.getTimeTableValueNoDer ((u.timeValue)) (u.realVars 57) (u.realVarsPre 57))) else u.realVars 24 * (u.realVars 6 - (ext.getTimeTableValueNoDer ((u.timeValue)) (u.realVars 57) (u.realVarsPre 57)))))))) (u.realParameter 32) (u.storedRelations 0)) && (ext.relationhysteresis .greaterEq ((0.5 * u.realParameter 29 + u.realVars 30 * (((ext.getTimeTableValueNoDer ((u.timeValue)) (u.realVars 57) (u.realVarsPre 57)) - u.realVars 53) / (1 + u.realVars 30 * (if qLess (u.realVars 31 * ((ext.getTimeTableValueNoDer ((u.timeValue)) (u.realVars 57) (u.realVarsPre 57)) - u.realVars 53)) 0 then (-u.realVars 31) * ((ext.getTimeTableValueNoDer ((u.timeValue)) (u.realVars 57) (u.realVarsPre 57)) - u.realVars 53) else u.realVars 31 * ((ext.getTimeTableValueNoDer ((u.timeValue)) (u.realVars 57) (u.realVarsPre 57)) - u.realVars 53)))))) (u.realParameter 33) (u.storedRelations 1)))))
  b9 : w.booleanVars 9 = !((!((u.booleanVarsPre 9) || (!((ext.relationhysteresis .greaterEq ((0.5 * u.realParameter 29 + u.realVars 23 * ((u.realVars 6 - (ext.getTimeTableValueNoDer ((u.timeValue)) (u.realVars 57) (u.realVarsPre 57))) / (1 + u.realVars 23 * (if qLess (u.realVars 24 * (u.realVars 6 - (ext.getTimeTableValueNoDer ((u.timeValue)) (u.realVars 57) (u.realVarsPre 57)))) 0 then (-u.realVars 24) * (u.realVars 6 - (ext.getTimeTableValueNoDer ((u.timeValue)) (u.realVars 57) (u.realVarsPre 57))) else u.realVars 24 * (u.realVars 6 - (ext.getTimeTableValueNoDer ((u.timeValue)) (u.realVars 57) (u.realVarsPre 57)))))))) (u.realParameter 32) (u.storedRelations 0)) && (ext.relationhysteresis .greaterEq ((0.5 * u.realParameter 29 + u.realVars 30 * (((ext.getTimeTableValueNoDer ((u.timeValue)) (u.realVars 57) (u.realVarsPre 57)) - u.realVars 53) / (1 + u.realVars 30 * (if qLess (u.realVars 31 * ((ext.getTimeTableValueNoDer ((u.timeValue)) (u.realVars 57) (u.realVarsPre 57)) - u.realVars 53)) 0 then (-u.realVars 31) * ((ext.getTimeTableValueNoDer ((u.timeValue)) (u.realVars 57) (u.realVarsPre 57)) - u.realVars 53) else u.realVars 31 * ((ext.getTimeTableValueNoDer ((u.timeValue)) (u.realVars 57) (u.realVarsPre 57)) - u.realVars 53)))))) (u.realParameter 33) (u.storedRelations 1)))))) || ((ext.relationhysteresis .greaterEq u.timeValue 0.95 (u.storedRelations 4) && ext.relationhysteresis .lessEq u.timeValue 0.96 (u.storedRelations 5))))
  e3 : w.realVars 3 = u.realVars 6 * (u.realVars1 5 - lsResidualValue 3 u (u.realVars1 5) / lsResidualSlope 3 u)
  e11 : w.realVars 11 = -u.realVars 52 - ((u.realParameter 29 - (0.5 * u.realParameter 29 + u.realVars 30 * (((ext.getTimeTableValueNoDer ((u.timeValue)) (u.realVars 57) (u.realVarsPre 57)) - u.realVars 53) / (1 + u.realVars 30 * (if qLess (u.realVars 31 * ((ext.getTimeTableValueNoDer ((u.timeValue)) (u.realVars 57) (u.realVarsPre 57)) - u.realVars 53)) 0 then (-u.realVars 31) * ((ext.getTimeTableValueNoDer ((u.timeValue)) (u.realVars 57) (u.realVarsPre 57)) - u.realVars 53) else u.realVars 31 * ((ext.getTimeTableValueNoDer ((u.timeValue)) (u.realVars 57) (u.realVarsPre 57)) - u.realVars 53)))))) / u.realVars 44) - ((u.realParameter 29 - (0.5 * u.realParameter 29 + u.realVars 23 * ((u.realVars 6 - (ext.getTimeTableValueNoDer ((u.timeValue)) (u.realVars 57) (u.realVarsPre 57))) / (1 + u.realVars 23 * (if qLess (u.realVars 24 * (u.realVars 6 - (ext.getTimeTableValueNoDer ((u.timeValue)) (u.realVars 57) (u.realVarsPre 57)))) 0 then (-u.realVars 24) * (u.realVars 6 - (ext.getTimeTableValueNoDer ((u.timeValue)) (u.realVars 57) (u.realVarsPre 57))) else u.realVars 24 * (u.realVars 6 - (ext.getTimeTableValueNoDer ((u.timeValue)) (u.realVars 57) (u.realVarsPre 57)))))))) / u.realVars 40) - (u.realVars1 5 - lsResidualValue 3 u (u.realVars1 5) / lsResidualSlope 3 u)
  rvOther : ∀ i, ¬ i ∈ algRealWrites → w.realVars i = u.realVars i
  bvOther : ∀ i, ¬ i ∈ algBoolWrites → w.booleanVars i = u.booleanVars i
  rv1Eq : w.realVars1 = u.realVars1
  rpre : w.realVarsPre = u.realVarsPre
  bpre : w.booleanVarsPre = u.booleanVarsPre
  par : w.realParameter = u.realParameter
  ipar : w.integerParameter = u.integerParameter
  bpar : w.booleanParameter = u.booleanParameter
  time : w.timeValue = u.timeValue
  stored : w.storedRelations = u.storedRelations
  rels : w.relations = u.relations
  nt : w.noThrowAsserts = u.noThrowAsserts
  latch : w.assertLatch = u.assertLatch

/-- oc_latch_function_ZeroCrossings of oc_latch_05evt.c: evaluates the five
registered zero crossings through the hysteresis-protected ZC relation
evaluators against the stored relation flags and writes one signed
indicator (+1 for true, -1 for false) into gout[0] to gout[4]. -/
def oc_latch_function_ZeroCrossings (ext : ExtRuntime) (s : State)
    (gout : Nat → ℚ) : Nat → ℚ :=
  let tmp0 := ext.greaterEqZC (s.realVars 36) (s.realParameter 32) (s.storedRelations 0)
  let gout := upd gout 0 (if tmp0 then 1 else -1)
  let tmp1 := ext.greaterEqZC (s.realVars 38) (s.realParameter 33) (s.storedRelations 1)
  let gout := upd gout 1 (if tmp1 then 1 else -1)
  let tmp2 := ext.lessEqZC s.timeValue 0.1 (s.storedRelations 2)
  let tmp3 := ext.greaterEqZC s.timeValue 0.9 (s.storedRelations 3)
  let gout := upd gout 2 (if tmp2 || tmp3 then 1 else -1)
  let tmp4 := ext.greaterEqZC s.timeValue 0.95 (s.storedRelations 4)
  let tmp5 := ext.lessEqZC s.timeValue 0.96 (s.storedRelations 5)
  let gout := upd gout 3 (if tmp4 && tmp5 then 1 else -1)
  let tmp6 := ext.greaterEqZC s.timeValue (s.realVarsPre 56) (s.storedRelations 6)
  upd gout 4 (if tmp6 then 1 else -1)

/-- Equation 20 of oc_latch_12jac.c:
R2.i seed derivative = R2.v.SeedLSJac0 / R2.R_actual, written to the
Jacobian tmpVars side buffer. -/
def oc_latch_eqFunction_20 (p : State × JacState) : State × JacState :=
  (p.1, { p.2 with tmpVars := upd p.2.tmpVars 0 (p.2.seedVars 0 / p.1.realVars 4) })

/-- Equation 21 of oc_latch_12jac.c:
R1.v seed derivative = R1.R_actual * (R2.i seed derivative). -/
def oc_latch_eqFunction_21 (p : State × JacState) : State × JacState :=
  (p.1, { p.2 with tmpVars := upd p.2.tmpVars 1 (p.1.realVars 1 * p.2.tmpVars 0) })

/-- Equation 22 of oc_latch_12jac.c: residual derivative of LSJac0 =
(-R2.v.SeedLSJac0) - (R1.v seed derivative), written to resultVars[0]. -/
def oc_latch_eqFunction_22 (p : State × JacState) : State × JacState :=
  (p.1, { p.2 with resultVars := upd p.2.resultVars 0 ((-p.2.seedVars 0) - p.2.tmpVars 1) })

/-- oc_latch_functionJacLSJac0_column of oc_latch_12jac.c: the directional
derivative column of linear system 23, running equations 20, 21, 22. -/
def oc_latch_functionJacLSJac0_column (p : State × JacState) : State × JacState :=
  oc_latch_eqFunction_22 (oc_latch_eqFunction_21 (oc_latch_eqFunction_20 p))

/-- Equation 30 of oc_latch_12jac.c:
resistor3.i seed derivative = resistor3.v.SeedLSJac1 / resistor3.R_actual. -/
def oc_latch_eqFunction_30 (p : State × JacState) : State × JacState :=
  (p.1, { p.2 with tmpVars := upd p.2.tmpVars 0 (p.2.seedVars 0 / p.1.realVars 51) })

/-- Equation 31 of oc_latch_12jac.c:
resistor2.v seed derivative = resistor2.R_actual * (resistor3.i seed derivative). -/
def oc_latch_eqFunction_31 (p : State × JacState) : State × JacState :=
  (p.1, { p.2 with tmpVars := upd p.2.tmpVars 1 (p.1.realVars 48 * p.2.tmpVars 0) })

/-- Equation 32 of oc_latch_12jac.c: residual derivative of LSJac1 =
(-resistor3.v.SeedLSJac1) - (resistor2.v seed derivative). -/
def oc_latch_eqFunction_32 (p : State × JacState) : State × JacState :=
  (p.1, { p.2 with resultVars := upd p.2.resultVars 0 ((-p.2.seedVars 0) - p.2.tmpVars 1) })

/-- oc_latch_functionJacLSJac1_column of oc_latch_12jac.c: the directional
derivative column of linear system 33, running equations 30, 31, 32. -/
def oc_latch_functionJacLSJac1_column (p : State × JacState) : State × JacState :=
  oc_latch_eqFunction_32 (oc_latch_eqFunction_31 (oc_latch_eqFunction_30 p))

/-- Equation 95 of oc_latch_12jac.c:
resistor3.i seed derivative = resistor2.v.SeedLSJac2 / resistor2.R_actual. -/
def oc_latch_eqFunction_95 (p : State × JacState) : State × JacState :=
  (p.1, { p.2 with tmpVars := upd p.2.tmpVars 0 (p.2.seedVars 0 / p.1.realVars 48) })

/-- Equation 96 of oc_latch_12jac.c:
resistor3.v seed derivative = resistor3.R_actual * (resistor3.i seed derivative). -/
def oc_latch_eqFunction_96 (p : State × JacState) : State × JacState :=
  (p.1, { p.2 with tmpVars := upd p.2.tmpVars 1 (p.1.realVars 51 * p.2.tmpVars 0) })

/-- Equation 97 of oc_latch_12jac.c: residual derivative of LSJac2 =
(-(resistor3.v seed derivative)) - resistor2.v.SeedLSJac2. -/
def oc_latch_eqFunction_97 (p : State × JacState) : State × JacState :=
  (p.1, { p.2 with resultVars := upd p.2.resultVars 0 ((-p.2.tmpVars 1) - p.2.seedVars 0) })

/-- oc_latch_functionJacLSJac2_column of oc_latch_12jac.c: the directional
derivative column of linear system 98, running equations 95, 96, 97. -/
def oc_latch_functionJacLSJac2_column (p : State × JacState) : State × JacState :=
  oc_latch_eqFunction_97 (oc_latch_eqFunction_96 (oc_latch_eqFunction_95 p))

/-- Equation 118 of oc_latch_12jac.c:
R1.v seed derivative = R1.R_actual * R2.i.SeedLSJac3. -/
def oc_latch_eqFunction_118 (p : State × JacState) : State × JacState :=
  (p.1, { p.2 with tmpVars := upd p.2.tmpVars 0 (p.1.realVars 1 * p.2.seedVars 0) })

/-- Equation 119 of oc_latch_12jac.c:
R2.v seed derivative = R2.R_actual * R2.i.SeedLSJac3. -/
def oc_latch_eqFunction_119 (p : State × JacState) : State × JacState :=
  (p.1, { p.2 with tmpVars := upd p.2.tmpVars 1 (p.1.realVars 4 * p.2.seedVars 0) })

/-- Equation 120 of oc_latch_12jac.c: residual derivative of LSJac3 =
(-(R2.v seed derivative)) - (R1.v seed derivative). -/
def oc_latch_eqFunction_120 (p : State × JacState) : State × JacState :=
  (p.1, { p.2 with resultVars := upd p.2.resultVars 0 ((-p.2.tmpVars 1) - p.2.tmpVars 0) })

/-- oc_latch_functionJacLSJac3_column of oc_latch_12jac.c: the directional
derivative column of linear system 121, running equations 118, 119, 120. -/
def oc_latch_functionJacLSJac3_column (p : State × JacState) : State × JacState :=
  oc_latch_eqFunction_120 (oc_latch_eqFunction_119 (oc_latch_eqFunction_118 p))

/-- Equation 1 of oc_latch_06inz.c: opAmp.VMin.i = 0.0. -/
def oc_latch_eqFunction_1 (s : State) : State :=
  { s with realVars := upd s.realVars 22 0 }

/-- Equation 2 of oc_latch_06inz.c: opAmp1.VMin.i = 0.0. -/
def oc_latch_eqFunction_2 (s : State) : State :=
  { s with realVars := upd s.realVars 29 0 }

/-- Equation 3 of oc_latch_06inz.c: signalVoltage.i = 0.0. -/
def oc_latch_eqFunction_3 (s : State) : State :=
  { s with realVars := upd s.realVars 54 0 }

/-- Equation 4 of oc_latch_06inz.c: opAmp.in_n.i = 0.0. -/
def oc_latch_eqFunction_4 (s : State) : State :=
  { s with realVars := upd s.realVars 25 0 }

/-- Equation 5 of oc_latch_06inz.c: opAmp1.in_p.i = 0.0. -/
def oc_latch_eqFunction_5 (s : State) : State :=
  { s with realVars := upd s.realVars 33 0 }

/-- Equation 6 of oc_latch_06inz.c: capacitor.i = 0.0. -/
def oc_latch_eqFunction_6 (s : State) : State :=
  { s with realVars := upd s.realVars 7 0 }

/-- Equation 7 of oc_latch_06inz.c: opAmp.f = 2.0 / constantVoltage.V. -/
def oc_latch_eqFunction_7 (s : State) : State :=
  { s with realVars := upd s.realVars 24 (2 / s.realParameter 29) }

/-- Equation 8 of oc_latch_06inz.c: opAmp1.f = 2.0 / constantVoltage.V. -/
def oc_latch_eqFunction_8 (s : State) : State :=
  { s with realVars := upd s.realVars 31 (2 / s.realParameter 29) }

/-- Equation 9 of oc_latch_06inz.c: resistor3.R_actual =
resistor3.R * (1.0 + resistor3.alpha * (resistor3.T - resistor3.T_ref)). -/
def oc_latch_eqFunction_9 (s : State) : State :=
  let v := s.realParameter 56 * (1 + s.realParameter 60 * (s.realParameter 57 - s.realParameter 59))
  { s with realVars := upd s.realVars 51 v }

/-- Equation 10 of oc_latch_06inz.c: resistor2.R_actual =
resistor2.R * (1.0 + resistor2.alpha * (resistor2.T - resistor2.T_ref)). -/
def oc_latch_eqFunction_10 (s : State) : State :=
  let v := s.realParameter 50 * (1 + s.realParameter 54 * (s.realParameter 51 - s.realParameter 53))
  { s with realVars := upd s.realVars 48 v }

/-- Equation 11 of oc_latch_06inz.c: resistor1.R_actual =
resistor1.R * (1.0 + resistor1.alpha * (resistor1.T - resistor1.T_ref)). -/
def oc_latch_eqFunction_11 (s : State) : State :=
  let v := s.realParameter 44 * (1 + s.realParameter 48 * (s.realParameter 45 - s.realParameter 47))
  { s with realVars := upd s.realVars 44 v }

/-- Equation 12 of oc_latch_06inz.c: resistor.R_actual =
resistor.R * (1.0 + resistor.alpha * (resistor.T - resistor.T_ref)). -/
def oc_latch_eqFunction_12 (s : State) : State :=
  let v := s.realParameter 38 * (1 + s.realParameter 42 * (s.realParameter 39 - s.realParameter 41))
  { s with realVars := upd s.realVars 40 v }

/-- Equation 13 of oc_latch_06inz.c: R2.R_actual =
R2.R * (1.0 + R2.alpha * (R2.T - R2.T_ref)). -/
def oc_latch_eqFunction_13 (s : State) : State :=
  let v := s.realParameter 6 * (1 + s.realParameter 10 * (s.realParameter 7 - s.realParameter 9))
  { s with realVars := upd s.realVars 4 v }

/-- Equation 14 of oc_latch_06inz.c: R1.R_actual =
R1.R * (1.0 + R1.alpha * (R1.T - R1.T_ref)). -/
def oc_latch_eqFunction_14 (s : State) : State :=
  let v := s.realParameter 0 * (1 + s.realParameter 4 * (s.realParameter 1 - s.realParameter 3))
  { s with realVars := upd s.realVars 1 v }

/-- Equation 15 of oc_latch_06inz.c:
opAmp.absSlope = if opAmp.Slope < 0.0 then -opAmp.Slope else opAmp.Slope. -/
def oc_latch_eqFunction_15 (s : State) : State :=
  let tmp0 := qLess (s.realParameter 34) 0
  { s with realVars := upd s.realVars 23 (if tmp0 then -s.realParameter 34 else s.realParameter 34) }

/-- Equation 16 of oc_latch_06inz.c:
opAmp1.absSlope = if opAmp1.Slope < 0.0 then -opAmp1.Slope else opAmp1.Slope. -/
def oc_latch_eqFunction_16 (s : State) : State :=
  let tmp1 := qLess (s.realParameter 36) 0
  { s with realVars := upd s.realVars 30 (if tmp1 then -s.realParameter 36 else s.realParameter 36) }

/-- Equation 23 of oc_latch_06inz.c: solve linear system 23 (solver index
0) for R2.v seeded from the previous-step value; a positive solver status
aborts with the diagnostic naming equation 23 and the current time, else
the solution is written to R2.v. -/
def oc_latch_eqFunction_23 (ls : LinSolver) (s : State) : Except (Err State) State :=
  let aux := s.realVars1 6
  let r := ls 0 s aux
  if 0 < r.1 then
    .error ⟨[1, 23], s.timeValue, "Solving linear system 23 failed", s⟩
  else
    .ok { s with realVars := upd s.realVars 6 r.2 }

/-- Equation 33 of oc_latch_06inz.c: solve linear system 33 (solver index
1) for resistor3.v seeded from the previous-step value; a positive solver
status aborts with the diagnostic naming equation 33 and the current time,
else the solution is written to resistor3.v. -/
def oc_latch_eqFunction_33 (ls : LinSolver) (s : State) : Except (Err State) State :=
  let aux := s.realVars1 53
  let r := ls 1 s aux
  if 0 < r.1 then
    .error ⟨[1, 33], s.timeValue, "Solving linear system 33 failed", s⟩
  else
    .ok { s with realVars := upd s.realVars 53 r.2 }

/-- Equation 38 of oc_latch_06inz.c: combiTimeTable.nextTimeEventScaled
from the external getNextTimeEvent query at combiTimeTable.timeScaled. -/
def oc_latch_eqFunction_38 (ext : ExtRuntime) (s : State) : State :=
  { s with realVars := upd s.realVars 57 (ext.getNextTimeEvent (s.realVars 9)) }

/-- Equation 39 of oc_latch_06inz.c: combiTimeTable.nextTimeEvent =
nextTimeEventScaled clamped at 9.999999999999999e59. -/
def oc_latch_eqFunction_39 (s : State) : State :=
  let tmp2 := qLess (s.realVars 57) maxTimeEventValue
  { s with realVars := upd s.realVars 56 (if tmp2 then s.realVars 57 else maxTimeEventValue) }

/-- Equation 40 of oc_latch_06inz.c: PRE.combiTimeTable.nextTimeEventScaled = 0.0. -/
def oc_latch_eqFunction_40 (s : State) : State :=
  { s with realVarsPre := upd s.realVarsPre 57 0 }

/-- Equation 41 of oc_latch_06inz.c: combiTimeTable.y[1] from the external
getTimeTableValueNoDer query at (timeScaled, nextTimeEventScaled,
PRE.nextTimeEventScaled). -/
def oc_latch_eqFunction_41 (ext : ExtRuntime) (s : State) : State :=
  let v := ext.getTimeTableValueNoDer (s.realVars 9) (s.realVars 57) (s.realVarsPre 57)
  { s with realVars := upd s.realVars 10 v }

/-- Equation 56 of oc_latch_06inz.c: PRE.pre11.u = pre11.pre_u_start. -/
def oc_latch_eqFunction_56 (s : State) : State :=
  { s with booleanVarsPre := upd s.booleanVarsPre 9 (s.booleanParameter 6) }

/-- Equation 57 of oc_latch_06inz.c: pre11.y = PRE.pre11.u. -/
def oc_latch_eqFunction_57 (s : State) : State :=
  { s with booleanVars := upd s.booleanVars 10 (s.booleanVarsPre 9) }

/-- Equation 60 of oc_latch_06inz.c: PRE.pre1.u = pre1.pre_u_start. -/
def oc_latch_eqFunction_60 (s : State) : State :=
  { s with booleanVarsPre := upd s.booleanVarsPre 8 (s.booleanParameter 5) }

/-- Equation 61 of oc_latch_06inz.c: nor1.u1 = PRE.pre1.u. -/
def oc_latch_eqFunction_61 (s : State) : State :=
  { s with booleanVars := upd s.booleanVars 5 (s.booleanVarsPre 8) }

/-- Equation 64 of oc_latch_06inz.c: ground.p.v = 0.0. -/
def oc_latch_eqFunction_64 (s : State) : State :=
  { s with realVars := upd s.realVars 12 0 }

/-- Equation 65 of oc_latch_06inz.c: opAmp.in_p.i = 0.0. -/
def oc_latch_eqFunction_65 (s : State) : State :=
  { s with realVars := upd s.realVars 26 0 }

/-- Equation 66 of oc_latch_06inz.c: opAmp.VMax.i = 0.0. -/
def oc_latch_eqFunction_66 (s : State) : State :=
  { s with realVars := upd s.realVars 21 0 }

/-- Equation 67 of oc_latch_06inz.c: ground1.p.v = 0.0. -/
def oc_latch_eqFunction_67 (s : State) : State :=
  { s with realVars := upd s.realVars 13 0 }

/-- Equation 68 of oc_latch_06inz.c: ground2.p.v = 0.0. -/
def oc_latch_eqFunction_68 (s : State) : State :=
  { s with realVars := upd s.realVars 14 0 }

/-- Equation 69 of oc_latch_06inz.c: ground3.p.v = 0.0. -/
def oc_latch_eqFunction_69 (s : State) : State :=
  { s with realVars := upd s.realVars 16 0 }

/-- Equation 70 of oc_latch_06inz.c: ground4.p.v = 0.0. -/
def oc_latch_eqFunction_70 (s : State) : State :=
  { s with realVars := upd s.realVars 17 0 }

/-- Equation 71 of oc_latch_06inz.c: potentialSensor.p.i = 0.0. -/
def oc_latch_eqFunction_71 (s : State) : State :=
  { s with realVars := upd s.realVars 35 0 }

/-- Equation 72 of oc_latch_06inz.c: opAmp1.in_n.i = 0.0. -/
def oc_latch_eqFunction_72 (s : State) : State :=
  { s with realVars := upd s.realVars 32 0 }

/-- Equation 73 of oc_latch_06inz.c: opAmp1.VMax.i = 0.0. -/
def oc_latch_eqFunction_73 (s : State) : State :=
  { s with realVars := upd s.realVars 28 0 }

/-- Equation 74 of oc_latch_06inz.c: ground5.p.v = 0.0. -/
def oc_latch_eqFunction_74 (s : State) : State :=
  { s with realVars := upd s.realVars 19 0 }

/-- Equation 75 of oc_latch_06inz.c: potentialSensor1.p.i = 0.0. -/
def oc_latch_eqFunction_75 (s : State) : State :=
  { s with realVars := upd s.realVars 37 0 }

/-- Equation 76 of oc_latch_06inz.c: ground6.p.v = 0.0. -/
def oc_latch_eqFunction_76 (s : State) : State :=
  { s with realVars := upd s.realVars 20 0 }

/-- Equation 77 of oc_latch_06inz.c: capacitor.n.i = 0.0. -/
def oc_latch_eqFunction_77 (s : State) : State :=
  { s with realVars := upd s.realVars 8 0 }

/-- Equation 78 of oc_latch_06inz.c: signalVoltage.n.i = 0.0. -/
def oc_latch_eqFunction_78 (s : State) : State :=
  { s with realVars := upd s.realVars 55 0 }

/-- Equation 79 of oc_latch_06inz.c: ground5.p.i = 0.0. -/
def oc_latch_eqFunction_79 (s : State) : State :=
  { s with realVars := upd s.realVars 18 0 }

/-- Equation 80 of oc_latch_06inz.c: ground3.p.i = 0.0. -/
def oc_latch_eqFunction_80 (s : State) : State :=
  { s with realVars := upd s.realVars 15 0 }

/-- Equation 81 of oc_latch_06inz.c: PRE.combiTimeTable.nextTimeEvent = 0.0. -/
def oc_latch_eqFunction_81 (s : State) : State :=
  { s with realVarsPre := upd s.realVarsPre 56 0 }

/-- Equation 82 of oc_latch_06inz.c:
whenCondition1 = time >= PRE.combiTimeTable.nextTimeEvent (plain GreaterEq,
no hysteresis during initialization). -/
def oc_latch_eqFunction_82 (s : State) : State :=
  let tmp3 := qGreaterEq s.timeValue (s.realVarsPre 56)
  { s with booleanVars := upd s.booleanVars 0 tmp3 }

/-- Equation 88 of oc_latch_06inz.c:
assert(1.0 + resistor3.alpha * (resistor3.T - resistor3.T_ref) >= 1e-15). -/
def oc_latch_eqFunction_88 (s : State) : Except (Err State) State :=
  tempScopeAssert 88
    (1 + s.realParameter 60 * (s.realParameter 57 - s.realParameter 59))
    "1.0 + resistor3.alpha * (resistor3.T - resistor3.T_ref) >= 1e-15" s

/-- Equation 87 of oc_latch_06inz.c:
assert(1.0 + resistor2.alpha * (resistor2.T - resistor2.T_ref) >= 1e-15). -/
def oc_latch_eqFunction_87 (s : State) : Except (Err State) State :=
  tempScopeAssert 87
    (1 + s.realParameter 54 * (s.realParameter 51 - s.realParameter 53))
    "1.0 + resistor2.alpha * (resistor2.T - resistor2.T_ref) >= 1e-15" s

/-- Equation 86 of oc_latch_06inz.c:
assert(1.0 + resistor1.alpha * (resistor1.T - resistor1.T_ref) >= 1e-15). -/
def oc_latch_eqFunction_86 (s : State) : Except (Err State) State :=
  tempScopeAssert 86
    (1 + s.realParameter 48 * (s.realParameter 45 - s.realParameter 47))
    "1.0 + resistor1.alpha * (resistor1.T - resistor1.T_ref) >= 1e-15" s

/-- Equation 85 of oc_latch_06inz.c:
assert(1.0 + resistor.alpha * (resistor.T - resistor.T_ref) >= 1e-15). -/
def oc_latch_eqFunction_85 (s : State) : Except (Err State) State :=
  tempScopeAssert 85
    (1 + s.realParameter 42 * (s.realParameter 39 - s.realParameter 41))
    "1.0 + resistor.alpha * (resistor.T - resistor.T_ref) >= 1e-15" s

/-- Equation 84 of oc_latch_06inz.c:
assert(1.0 + R2.alpha * (R2.T - R2.T_ref) >= 1e-15). -/
def oc_latch_eqFunction_84 (s : State) : Except (Err State) State :=
  tempScopeAssert 84
    (1 + s.realParameter 10 * (s.realParameter 7 - s.realParameter 9))
    "1.0 + R2.alpha * (R2.T - R2.T_ref) >= 1e-15" s

/-- Equation 83 of oc_latch_06inz.c:
assert(1.0 + R1.alpha * (R1.T - R1.T_ref) >= 1e-15). -/
def oc_latch_eqFunction_83 (s : State) : Except (Err State) State :=
  tempScopeAssert 83
    (1 + s.realParameter 4 * (s.realParameter 1 - s.realParameter 3))
    "1.0 + R1.alpha * (R1.T - R1.T_ref) >= 1e-15" s

/-- oc_latch_functionInitialEquations_0 of oc_latch_06inz.c: the one-time
initial-equation pass, running equations 1 to 16, 23, 122, 132, 105, 33,
99, 100, 91, 90, 38 to 41, 109, 110, 114, 111, 112, 113, 123, 124, 128,
129, 125, 126, 127, 133, 56, 57, 130, 131, 60, 61, 103, 104, 64 to 82 and
the assertion equations 88 to 83 in the generated order. -/
def oc_latch_functionInitialEquations_0 (ext : ExtRuntime) (ls : LinSolver)
    (s : State) : Except (Err State) State := do
  let s := oc_latch_eqFunction_1 s
  let s := oc_latch_eqFunction_2 s
  let s := oc_latch_eqFunction_3 s
  let s := oc_latch_eqFunction_4 s
  let s := oc_latch_eqFunction_5 s
  let s := oc_latch_eqFunction_6 s
  let s := oc_latch_eqFunction_7 s
  let s := oc_latch_eqFunction_8 s
  let s := oc_latch_eqFunction_9 s
  let s := oc_latch_eqFunction_10 s
  let s := oc_latch_eqFunction_11 s
  let s := oc_latch_eqFunction_12 s
  let s := oc_latch_eqFunction_13 s
  let s := oc_latch_eqFunction_14 s
  let s := oc_latch_eqFunction_15 s
  let s := oc_latch_eqFunction_16 s
  let s ← oc_latch_eqFunction_23 ls s
  let s := oc_latch_eqFunction_122 s
  let s := oc_latch_eqFunction_132 s
  let s := oc_latch_eqFunction_105 s
  let s ← oc_latch_eqFunction_33 ls s
  let s := oc_latch_eqFunction_99 s
  let s := oc_latch_eqFunction_100 s
  let s := oc_latch_eqFunction_91 ext s
  let s := oc_latch_eqFunction_90 ext s
  let s := oc_latch_eqFunction_38 ext s
  let s := oc_latch_eqFunction_39 s
  let s := oc_latch_eqFunction_40 s
  let s := oc_latch_eqFunction_41 ext s
  let s := oc_latch_eqFunction_109 s
  let s := oc_latch_eqFunction_110 s
  let s := oc_latch_eqFunction_114 ext s
  let s := oc_latch_eqFunction_111 s
  let s := oc_latch_eqFunction_112 s
  let s := oc_latch_eqFunction_113 s
  let s := oc_latch_eqFunction_123 s
  let s := oc_latch_eqFunction_124 s
  let s := oc_latch_eqFunction_128 ext s
  let s := oc_latch_eqFunction_129 s
  let s := oc_latch_eqFunction_125 s
  let s := oc_latch_eqFunction_126 s
  let s := oc_latch_eqFunction_127 s
  let s := oc_latch_eqFunction_133 s
  let s := oc_latch_eqFunction_56 s
  let s := oc_latch_eqFunction_57 s
  let s := oc_latch_eqFunction_130 s
  let s := oc_latch_eqFunction_131 s
  let s := oc_latch_eqFunction_60 s
  let s := oc_latch_eqFunction_61 s
  let s := oc_latch_eqFunction_103 s
  let s := oc_latch_eqFunction_104 s
  let s := oc_latch_eqFunction_64 s
  let s := oc_latch_eqFunction_65 s
  let s := oc_latch_eqFunction_66 s
  let s := oc_latch_eqFunction_67 s
  let s := oc_latch_eqFunction_68 s
  let s := oc_latch_eqFunction_69 s
  let s := oc_latch_eqFunction_70 s
  let s := oc_latch_eqFunction_71 s
  let s := oc_latch_eqFunction_72 s
  let s := oc_latch_eqFunction_73 s
  let s := oc_latch_eqFunction_74 s
  let s := oc_latch_eqFunction_75 s
  let s := oc_latch_eqFunction_76 s
  let s := oc_latch_eqFunction_77 s
  let s := oc_latch_eqFunction_78 s
  let s := oc_latch_eqFunction_79 s
  let s := oc_latch_eqFunction_80 s
  let s := oc_latch_eqFunction_81 s
  let s := oc_latch_eqFunction_82 s
  let s ← oc_latch_eqFunction_88 s
  let s ← oc_latch_eqFunction_87 s
  let s ← oc_latch_eqFunction_86 s
  let s ← oc_latch_eqFunction_85 s
  let s ← oc_latch_eqFunction_84 s
  let s ← oc_latch_eqFunction_83 s
  pure s

/-- oc_latch_functionInitialEquations of oc_latch_06inz.c: runs
functionInitialEquations_0; the discreteCall flag it sets around the pass
is read by nothing modelled here. -/
def oc_latch_functionInitialEquations (ext : ExtRuntime) (ls : LinSolver)
    (s : State) : Except (Err State) State :=
  oc_latch_functionInitialEquations_0 ext ls s

/-- Equation 140 of oc_latch_08bnd.c: combiTimeTable.shiftTime = combiTimeTable.startTime. -/
def oc_latch_eqFunction_140 (s : State) : State :=
  { s with realParameter := upd s.realParameter 16 (s.realParameter 17) }

/-- Equation 141 of oc_latch_08bnd.c: constructs the external
ExternalCombiTimeTable object into extObjs[0]; the opaque handle itself is
outside the modelled store (the table queries live in ExtRuntime), so the
store is unchanged. -/
def oc_latch_eqFunction_141 (s : State) : State := s

/-- Equation 142 of oc_latch_08bnd.c: capacitor.v = constantVoltage.V. -/
def oc_latch_eqFunction_142 (s : State) : State :=
  { s with realParameter := upd s.realParameter 13 (s.realParameter 29) }

/-- Equation 143 of oc_latch_08bnd.c: resistor2.p.v = constantVoltage.V. -/
def oc_latch_eqFunction_143 (s : State) : State :=
  { s with realParameter := upd s.realParameter 55 (s.realParameter 29) }

/-- Equation 144 of oc_latch_08bnd.c: constantVoltage.p.v = constantVoltage.V. -/
def oc_latch_eqFunction_144 (s : State) : State :=
  { s with realParameter := upd s.realParameter 30 (s.realParameter 29) }

/-- Equation 145 of oc_latch_08bnd.c: opAmp1.VMax.v = constantVoltage.V. -/
def oc_latch_eqFunction_145 (s : State) : State :=
  { s with realParameter := upd s.realParameter 37 (s.realParameter 29) }

/-- Equation 146 of oc_latch_08bnd.c: resistor1.p.v = constantVoltage.V. -/
def oc_latch_eqFunction_146 (s : State) : State :=
  { s with realParameter := upd s.realParameter 49 (s.realParameter 29) }

/-- Equation 147 of oc_latch_08bnd.c: resistor.p.v = constantVoltage.V. -/
def oc_latch_eqFunction_147 (s : State) : State :=
  { s with realParameter := upd s.realParameter 43 (s.realParameter 29) }

/-- Equation 148 of oc_latch_08bnd.c: opAmp.VMax.v = constantVoltage.V. -/
def oc_latch_eqFunction_148 (s : State) : State :=
  { s with realParameter := upd s.realParameter 35 (s.realParameter 29) }

/-- Equation 149 of oc_latch_08bnd.c: R1.p.v = constantVoltage.V. -/
def oc_latch_eqFunction_149 (s : State) : State :=
  { s with realParameter := upd s.realParameter 5 (s.realParameter 29) }

/-- Equation 150 of oc_latch_08bnd.c: capacitor.p.v = constantVoltage.V. -/
def oc_latch_eqFunction_150 (s : State) : State :=
  { s with realParameter := upd s.realParameter 12 (s.realParameter 29) }

/-- Equation 151 of oc_latch_08bnd.c: constantVoltage.v = constantVoltage.V. -/
def oc_latch_eqFunction_151 (s : State) : State :=
  { s with realParameter := upd s.realParameter 31 (s.realParameter 29) }

/-- Equation 152 of oc_latch_08bnd.c: R1.T = R1.T_ref. -/
def oc_latch_eqFunction_152 (s : State) : State :=
  { s with realParameter := upd s.realParameter 1 (s.realParameter 3) }

/-- Equation 153 of oc_latch_08bnd.c: R1.T_heatPort = R1.T. -/
def oc_latch_eqFunction_153 (s : State) : State :=
  { s with realParameter := upd s.realParameter 2 (s.realParameter 1) }

/-- Equation 154 of oc_latch_08bnd.c: R2.T = R2.T_ref. -/
def oc_latch_eqFunction_154 (s : State) : State :=
  { s with realParameter := upd s.realParameter 7 (s.realParameter 9) }

/-- Equation 155 of oc_latch_08bnd.c: R2.T_heatPort = R2.T. -/
def oc_latch_eqFunction_155 (s : State) : State :=
  { s with realParameter := upd s.realParameter 8 (s.realParameter 7) }

/-- Equation 156 of oc_latch_08bnd.c: resistor.T = resistor.T_ref. -/
def oc_latch_eqFunction_156 (s : State) : State :=
  { s with realParameter := upd s.realParameter 39 (s.realParameter 41) }

/-- Equation 157 of oc_latch_08bnd.c: resistor.T_heatPort = resistor.T. -/
def oc_latch_eqFunction_157 (s : State) : State :=
  { s with realParameter := upd s.realParameter 40 (s.realParameter 39) }

/-- Equation 158 of oc_latch_08bnd.c: resistor1.T = resistor1.T_ref. -/
def oc_latch_eqFunction_158 (s : State) : State :=
  { s with realParameter := upd s.realParameter 45 (s.realParameter 47) }

/-- Equation 159 of oc_latch_08bnd.c: resistor1.T_heatPort = resistor1.T. -/
def oc_latch_eqFunction_159 (s : State) : State :=
  { s with realParameter := upd s.realParameter 46 (s.realParameter 45) }

/-- Equation 160 of oc_latch_08bnd.c: resistor2.T = resistor2.T_ref. -/
def oc_latch_eqFunction_160 (s : State) : State :=
  { s with realParameter := upd s.realParameter 51 (s.realParameter 53) }

/-- Equation 161 of oc_latch_08bnd.c: resistor2.T_heatPort = resistor2.T. -/
def oc_latch_eqFunction_161 (s : State) : State :=
  { s with realParameter := upd s.realParameter 52 (s.realParameter 51) }

/-- Equation 162 of oc_latch_08bnd.c: resistor3.T = resistor3.T_ref. -/
def oc_latch_eqFunction_162 (s : State) : State :=
  { s with realParameter := upd s.realParameter 57 (s.realParameter 59) }

/-- Equation 163 of oc_latch_08bnd.c: resistor3.T_heatPort = resistor3.T. -/
def oc_latch_eqFunction_163 (s : State) : State :=
  { s with realParameter := upd s.realParameter 58 (s.realParameter 57) }

/-- Equation 171 of oc_latch_08bnd.c: combiTimeTable.t_maxScaled from the
external getTimeTableTmax query. -/
def oc_latch_eqFunction_171 (ext : ExtRuntime) (s : State) : State :=
  { s with realParameter := upd s.realParameter 19 ext.getTimeTableTmax }

/-- Equation 172 of oc_latch_08bnd.c: combiTimeTable.t_minScaled from the
external getTimeTableTmin query. -/
def oc_latch_eqFunction_172 (ext : ExtRuntime) (s : State) : State :=
  { s with realParameter := upd s.realParameter 21 ext.getTimeTableTmin }

/-- Equation 173 of oc_latch_08bnd.c: combiTimeTable.t_max = combiTimeTable.t_maxScaled. -/
def oc_latch_eqFunction_173 (s : State) : State :=
  { s with realParameter := upd s.realParameter 18 (s.realParameter 19) }

/-- Equation 174 of oc_latch_08bnd.c: combiTimeTable.t_min = combiTimeTable.t_minScaled. -/
def oc_latch_eqFunction_174 (s : State) : State :=
  { s with realParameter := upd s.realParameter 20 (s.realParameter 21) }

/-- Shared shape of the min/max bound assertions of oc_latch_08bnd.c
(equations 216 to 239): guarded by the static already-warned flag so that
the check and the report run at most once per run; on a violation both
branches only print (infoStreamPrint under noThrowAsserts, the two
omc_assert_warning calls otherwise — never a fatal assert) and the flag is
set; the formatted parameter value appended to the message in C is not
carried by the modelled text. -/
def latchedBoundAssert (eqIndex : Nat) (ok : Bool) (condText msgText : String)
    (s : State) : State :=
  if s.assertLatch eqIndex then s
  else if ok then s
  else
    { s with
      log := s.log ++ [⟨eqIndex, s.timeValue, condText⟩,
        ⟨eqIndex, s.timeValue, msgText⟩],
      assertLatch := upd s.assertLatch eqIndex true }

/-- Equation 216 of oc_latch_08bnd.c: assert(R1.T_ref >= 0.0), latched. -/
def oc_latch_eqFunction_216 (s : State) : State :=
  latchedBoundAssert 216 (qGreaterEq (s.realParameter 3) 0) "R1.T_ref >= 0.0"
    "Variable violating min constraint: 0.0 <= R1.T_ref" s

/-- Equation 217 of oc_latch_08bnd.c: assert(R1.T >= 0.0), latched. -/
def oc_latch_eqFunction_217 (s : State) : State :=
  latchedBoundAssert 217 (qGreaterEq (s.realParameter 1) 0) "R1.T >= 0.0"
    "Variable violating min constraint: 0.0 <= R1.T" s

/-- Equation 218 of oc_latch_08bnd.c: assert(R1.T_heatPort >= 0.0), latched. -/
def oc_latch_eqFunction_218 (s : State) : State :=
  latchedBoundAssert 218 (qGreaterEq (s.realParameter 2) 0) "R1.T_heatPort >= 0.0"
    "Variable violating min constraint: 0.0 <= R1.T_heatPort" s

/-- Equation 219 of oc_latch_08bnd.c: assert(R2.T_ref >= 0.0), latched. -/
def oc_latch_eqFunction_219 (s : State) : State :=
  latchedBoundAssert 219 (qGreaterEq (s.realParameter 9) 0) "R2.T_ref >= 0.0"
    "Variable violating min constraint: 0.0 <= R2.T_ref" s

/-- Equation 220 of oc_latch_08bnd.c: assert(R2.T >= 0.0), latched. -/
def oc_latch_eqFunction_220 (s : State) : State :=
  latchedBoundAssert 220 (qGreaterEq (s.realParameter 7) 0) "R2.T >= 0.0"
    "Variable violating min constraint: 0.0 <= R2.T" s

/-- Equation 221 of oc_latch_08bnd.c: assert(R2.T_heatPort >= 0.0), latched. -/
def oc_latch_eqFunction_221 (s : State) : State :=
  latchedBoundAssert 221 (qGreaterEq (s.realParameter 8) 0) "R2.T_heatPort >= 0.0"
    "Variable violating min constraint: 0.0 <= R2.T_heatPort" s

/-- Equation 222 of oc_latch_08bnd.c: assert(resistor.T_ref >= 0.0), latched. -/
def oc_latch_eqFunction_222 (s : State) : State :=
  latchedBoundAssert 222 (qGreaterEq (s.realParameter 41) 0) "resistor.T_ref >= 0.0"
    "Variable violating min constraint: 0.0 <= resistor.T_ref" s

/-- Equation 223 of oc_latch_08bnd.c: assert(resistor.T >= 0.0), latched. -/
def oc_latch_eqFunction_223 (s : State) : State :=
  latchedBoundAssert 223 (qGreaterEq (s.realParameter 39) 0) "resistor.T >= 0.0"
    "Variable violating min constraint: 0.0 <= resistor.T" s

/-- Equation 224 of oc_latch_08bnd.c: assert(resistor.T_heatPort >= 0.0), latched. -/
def oc_latch_eqFunction_224 (s : State) : State :=
  latchedBoundAssert 224 (qGreaterEq (s.realParameter 40) 0) "resistor.T_heatPort >= 0.0"
    "Variable violating min constraint: 0.0 <= resistor.T_heatPort" s

/-- Equation 225 of oc_latch_08bnd.c: assert(resistor1.T_ref >= 0.0), latched. -/
def oc_latch_eqFunction_225 (s : State) : State :=
  latchedBoundAssert 225 (qGreaterEq (s.realParameter 47) 0) "resistor1.T_ref >= 0.0"
    "Variable violating min constraint: 0.0 <= resistor1.T_ref" s

/-- Equation 226 of oc_latch_08bnd.c: assert(resistor1.T >= 0.0), latched. -/
def oc_latch_eqFunction_226 (s : State) : State :=
  latchedBoundAssert 226 (qGreaterEq (s.realParameter 45) 0) "resistor1.T >= 0.0"
    "Variable violating min constraint: 0.0 <= resistor1.T" s

/-- Equation 227 of oc_latch_08bnd.c: assert(resistor1.T_heatPort >= 0.0), latched. -/
def oc_latch_eqFunction_227 (s : State) : State :=
  latchedBoundAssert 227 (qGreaterEq (s.realParameter 46) 0) "resistor1.T_heatPort >= 0.0"
    "Variable violating min constraint: 0.0 <= resistor1.T_heatPort" s

/-- Equation 228 of oc_latch_08bnd.c: assert(resistor2.T_ref >= 0.0), latched. -/
def oc_latch_eqFunction_228 (s : State) : State :=
  latchedBoundAssert 228 (qGreaterEq (s.realParameter 53) 0) "resistor2.T_ref >= 0.0"
    "Variable violating min constraint: 0.0 <= resistor2.T_ref" s

/-- Equation 229 of oc_latch_08bnd.c: assert(resistor2.T >= 0.0), latched. -/
def oc_latch_eqFunction_229 (s : State) : State :=
  latchedBoundAssert 229 (qGreaterEq (s.realParameter 51) 0) "resistor2.T >= 0.0"
    "Variable violating min constraint: 0.0 <= resistor2.T" s

/-- Equation 230 of oc_latch_08bnd.c: assert(resistor2.T_heatPort >= 0.0), latched. -/
def oc_latch_eqFunction_230 (s : State) : State :=
  latchedBoundAssert 230 (qGreaterEq (s.realParameter 52) 0) "resistor2.T_heatPort >= 0.0"
    "Variable violating min constraint: 0.0 <= resistor2.T_heatPort" s

/-- Equation 231 of oc_latch_08bnd.c: assert(resistor3.T_ref >= 0.0), latched. -/
def oc_latch_eqFunction_231 (s : State) : State :=
  latchedBoundAssert 231 (qGreaterEq (s.realParameter 59) 0) "resistor3.T_ref >= 0.0"
    "Variable violating min constraint: 0.0 <= resistor3.T_ref" s

/-- Equation 232 of oc_latch_08bnd.c: assert(resistor3.T >= 0.0), latched. -/
def oc_latch_eqFunction_232 (s : State) : State :=
  latchedBoundAssert 232 (qGreaterEq (s.realParameter 57) 0) "resistor3.T >= 0.0"
    "Variable violating min constraint: 0.0 <= resistor3.T" s

/-- Equation 233 of oc_latch_08bnd.c: assert(resistor3.T_heatPort >= 0.0), latched. -/
def oc_latch_eqFunction_233 (s : State) : State :=
  latchedBoundAssert 233 (qGreaterEq (s.realParameter 58) 0) "resistor3.T_heatPort >= 0.0"
    "Variable violating min constraint: 0.0 <= resistor3.T_heatPort" s

/-- Equation 234 of oc_latch_08bnd.c: assert(1 <= combiTimeTable.timeEvents <= 3), latched. -/
def oc_latch_eqFunction_234 (s : State) : State :=
  latchedBoundAssert 234
    (decide (1 ≤ s.integerParameter 4) && decide (s.integerParameter 4 ≤ 3))
    "combiTimeTable.timeEvents >= TimeEvents.Always and combiTimeTable.timeEvents <= TimeEvents.NoTimeEvents"
    "Variable violating min/max constraint: combiTimeTable.timeEvents" s

/-- Equation 235 of oc_latch_08bnd.c: assert(combiTimeTable.timeScale >= 1e-15), latched. -/
def oc_latch_eqFunction_235 (s : State) : State :=
  latchedBoundAssert 235 (qGreaterEq (s.realParameter 28) 1e-15)
    "combiTimeTable.timeScale >= 1e-15"
    "Variable violating min constraint: 1e-15 <= combiTimeTable.timeScale" s

/-- Equation 236 of oc_latch_08bnd.c: assert(1 <= combiTimeTable.extrapolation <= 4), latched. -/
def oc_latch_eqFunction_236 (s : State) : State :=
  latchedBoundAssert 236
    (decide (1 ≤ s.integerParameter 1) && decide (s.integerParameter 1 ≤ 4))
    "combiTimeTable.extrapolation >= Extrapolation.HoldLastPoint and combiTimeTable.extrapolation <= Extrapolation.NoExtrapolation"
    "Variable violating min/max constraint: combiTimeTable.extrapolation" s

/-- Equation 237 of oc_latch_08bnd.c: assert(1 <= combiTimeTable.smoothness <= 6), latched. -/
def oc_latch_eqFunction_237 (s : State) : State :=
  latchedBoundAssert 237
    (decide (1 ≤ s.integerParameter 3) && decide (s.integerParameter 3 ≤ 6))
    "combiTimeTable.smoothness >= Smoothness.LinearSegments and combiTimeTable.smoothness <= Smoothness.ModifiedContinuousDerivative"
    "Variable violating min/max constraint: combiTimeTable.smoothness" s

/-- Equation 238 of oc_latch_08bnd.c: assert(combiTimeTable.nout >= 1), latched. -/
def oc_latch_eqFunction_238 (s : State) : State :=
  latchedBoundAssert 238 (decide (1 ≤ s.integerParameter 2))
    "combiTimeTable.nout >= 1"
    "Variable violating min constraint: 1 <= combiTimeTable.nout" s

/-- Equation 239 of oc_latch_08bnd.c: assert(capacitor.C >= 0.0), latched. -/
def oc_latch_eqFunction_239 (s : State) : State :=
  latchedBoundAssert 239 (qGreaterEq (s.realParameter 11) 0)
    "capacitor.C >= 0.0"
    "Variable violating min constraint: 0.0 <= capacitor.C" s

/-- oc_latch_updateBoundParameters_0 of oc_latch_08bnd.c: equations 140 to
163, 171 to 174, then 76, 75, 74, 16, 73, 72, 71, 70, 69, 68, 67, 15, 66,
65, 64, 14, 13, 12, 11, 10, 9, 8, 7, 6, 5, 4, 3, 2, 1, then the latched
bound assertions 216 to 239, in the generated order. -/
def oc_latch_updateBoundParameters_0 (ext : ExtRuntime) (s : State) : State :=
  let s := oc_latch_eqFunction_140 s
  let s := oc_latch_eqFunction_141 s
  let s := oc_latch_eqFunction_142 s
  let s := oc_latch_eqFunction_143 s
  let s := oc_latch_eqFunction_144 s
  let s := oc_latch_eqFunction_145 s
  let s := oc_latch_eqFunction_146 s
  let s := oc_latch_eqFunction_147 s
  let s := oc_latch_eqFunction_148 s
  let s := oc_latch_eqFunction_149 s
  let s := oc_latch_eqFunction_150 s
  let s := oc_latch_eqFunction_151 s
  let s := oc_latch_eqFunction_152 s
  let s := oc_latch_eqFunction_153 s
  let s := oc_latch_eqFunction_154 s
  let s := oc_latch_eqFunction_155 s
  let s := oc_latch_eqFunction_156 s
  let s := oc_latch_eqFunction_157 s
  let s := oc_latch_eqFunction_158 s
  let s := oc_latch_eqFunction_159 s
  let s := oc_latch_eqFunction_160 s
  let s := oc_latch_eqFunction_161 s
  let s := oc_latch_eqFunction_162 s
  let s := oc_latch_eqFunction_163 s
  let s := oc_latch_eqFunction_171 ext s
  let s := oc_latch_eqFunction_172 ext s
  let s := oc_latch_eqFunction_173 s
  let s := oc_latch_eqFunction_174 s
  let s := oc_latch_eqFunction_76 s
  let s := oc_latch_eqFunction_75 s
  let s := oc_latch_eqFunction_74 s
  let s := oc_latch_eqFunction_16 s
  let s := oc_latch_eqFunction_73 s
  let s := oc_latch_eqFunction_72 s
  let s := oc_latch_eqFunction_71 s
  let s := oc_latch_eqFunction_70 s
  let s := oc_latch_eqFunction_69 s
  let s := oc_latch_eqFunction_68 s
  let s := oc_latch_eqFunction_67 s
  let s := oc_latch_eqFunction_15 s
  let s := oc_latch_eqFunction_66 s
  let s := oc_latch_eqFunction_65 s
  let s := oc_latch_eqFunction_64 s
  let s := oc_latch_eqFunction_14 s
  let s := oc_latch_eqFunction_13 s
  let s := oc_latch_eqFunction_12 s
  let s := oc_latch_eqFunction_11 s
  let s := oc_latch_eqFunction_10 s
  let s := oc_latch_eqFunction_9 s
  let s := oc_latch_eqFunction_8 s
  let s := oc_latch_eqFunction_7 s
  let s := oc_latch_eqFunction_6 s
  let s := oc_latch_eqFunction_5 s
  let s := oc_latch_eqFunction_4 s
  let s := oc_latch_eqFunction_3 s
  let s := oc_latch_eqFunction_2 s
  let s := oc_latch_eqFunction_1 s
  let s := oc_latch_eqFunction_216 s
  let s := oc_latch_eqFunction_217 s
  let s := oc_latch_eqFunction_218 s
  let s := oc_latch_eqFunction_219 s
  let s := oc_latch_eqFunction_220 s
  let s := oc_latch_eqFunction_221 s
  let s := oc_latch_eqFunction_222 s
  let s := oc_latch_eqFunction_223 s
  let s := oc_latch_eqFunction_224 s
  let s := oc_latch_eqFunction_225 s
  let s := oc_latch_eqFunction_226 s
  let s := oc_latch_eqFunction_227 s
  let s := oc_latch_eqFunction_228 s
  let s := oc_latch_eqFunction_229 s
  let s := oc_latch_eqFunction_230 s
  let s := oc_latch_eqFunction_231 s
  let s := oc_latch_eqFunction_232 s
  let s := oc_latch_eqFunction_233 s
  let s := oc_latch_eqFunction_234 s
  let s := oc_latch_eqFunction_235 s
  let s := oc_latch_eqFunction_236 s
  let s := oc_latch_eqFunction_237 s
  let s := oc_latch_eqFunction_238 s
  let s := oc_latch_eqFunction_239 s
  s

/-- oc_latch_updateBoundParameters of oc_latch_08bnd.c: the direct constant
bindings (combiTimeTable integer parameters, the fixed-to-zero currents and
offsets, the useHeatPort and table booleans), then updateBoundParameters_0;
the time_unvarying metadata flags it also sets are outside the modelled
store. -/
def oc_latch_updateBoundParameters (ext : ExtRuntime) (s : State) : State :=
  let s := { s with integerParameter := upd s.integerParameter 0 2 }
  let s := { s with integerParameter := upd s.integerParameter 2 1 }
  let s := { s with realVars := upd s.realVars 8 (-0) }
  let s := { s with realVars := upd s.realVars 15 (-0) }
  let s := { s with realVars := upd s.realVars 18 (-0) }
  let s := { s with realVars := upd s.realVars 55 (-0) }
  let s := { s with realParameter := upd s.realParameter 14 0 }
  let s := { s with realParameter := upd s.realParameter 15 0 }
  let s := { s with realParameter := upd s.realParameter 28 1 }
  let s := { s with booleanParameter := upd s.booleanParameter 0 false }
  let s := { s with booleanParameter := upd s.booleanParameter 1 false }
  let s := { s with booleanParameter := upd s.booleanParameter 2 false }
  let s := { s with booleanParameter := upd s.booleanParameter 3 false }
  let s := { s with booleanParameter := upd s.booleanParameter 7 false }
  let s := { s with booleanParameter := upd s.booleanParameter 8 false }
  let s := { s with booleanParameter := upd s.booleanParameter 9 false }
  let s := { s with booleanParameter := upd s.booleanParameter 10 false }
  let s := { s with integerParameter := upd s.integerParameter 1 1 }
  let s := { s with integerParameter := upd s.integerParameter 3 3 }
  oc_latch_updateBoundParameters_0 ext s

/-- An all-zero simulation context with warning-mode asserts and cleared
latches, used as the base of concrete evaluation states. -/
def state0 : State where
  realVars := fun _ => 0
  realVars1 := fun _ => 0
  booleanVars := fun _ => false
  realVarsPre := fun _ => 0
  booleanVarsPre := fun _ => false
  realParameter := fun _ => 0
  integerParameter := fun _ => 1
  booleanParameter := fun _ => false
  timeValue := 0
  storedRelations := fun _ => false
  relations := fun _ => false
  noThrowAsserts := true
  needToReThrow := false
  assertLatch := fun _ => false
  lastEquationSolved := 0
  log := []

/-- A concrete external runtime for closed evaluations: the hysteresis and
zero-crossing evaluators compare directly and the table queries return 0. -/
def ext0 : ExtRuntime where
  relationhysteresis := fun op x y _ =>
    match op with
    | .greaterEq => qGreaterEq x y
    | .lessEq => qLessEq x y
  greaterEqZC := fun x y _ => qGreaterEq x y
  lessEqZC := fun x y _ => qLessEq x y
  getNextTimeEvent := fun _ => 0
  getTimeTableValueNoDer := fun _ _ _ => 0
  getTimeTableTmax := 0
  getTimeTableTmin := 0

/-- The series two-resistor scenario: R1.R_actual = R2.R_actual = 10 and
constantVoltage.V = 1, everything else zero. -/
def stateDivider : State :=
  { state0 with
    realVars := fun i => if i = 1 then 10 else if i = 4 then 10 else 0,
    realParameter := fun i => if i = 29 then 1 else 0 }

/-- A context whose resistor3 temperature parameters violate the
temperature-scope assertion: alpha = 1, T = 0, T_ref = 2, so
1 + alpha * (T - T_ref) = -1 < 1e-15. -/
def stateTempViolation : State :=
  { state0 with
    realParameter := fun i => if i = 60 then 1 else if i = 59 then 2 else 0 }

/-- The base context with whenCondition1 currently true while its pre
value is false: a rising edge. -/
def stateEdge : State :=
  { state0 with booleanVars := fun i => if i = 0 then true else false }

/-- A solver stub that always reports failure. -/
def lsFail : LinSolver := fun _ _ _ => (1, 0)

/-- A solver stub that always succeeds with the value 37. -/
def lsOk : LinSolver := fun _ _ _ => (0, 37)

/-- A context whose R1.T_ref parameter violates its min-constraint
assertion (equation 216): R1.T_ref = -1 < 0. -/
def stateBoundViolation : State :=
  { state0 with realParameter := fun i => if i = 3 then -1 else 0 }

/-- A Jacobian invocation buffer carrying the unit seed. -/
def jacSeedOne : JacState where
  seedVars := fun _ => 1
  tmpVars := fun _ => 0
  resultVars := fun _ => 0

/-- C2: for every parameter valuation with R1.R_actual + R2.R_actual
nonzero, the residual of residualFunc121 at a trial value x — after the
local-constraint equations 115 and 116 are recomputed — equals
constantVoltage.V - (R1.R_actual + R2.R_actual) * x, so its unique zero is
x = constantVoltage.V / (R1.R_actual + R2.R_actual); and for
R1.R_actual = R2.R_actual = 10, constantVoltage.V = 1 the solved current
R2.i is 0.05. -/
theorem residualFunc121_series_divider (s : State) (x : ℚ)
    (hsum : s.realVars 1 + s.realVars 4 ≠ 0) :
    (residualFunc121 s x).2
      = s.realParameter 29 - (s.realVars 1 + s.realVars 4) * x ∧
    ((residualFunc121 s x).2 = 0 ↔
      x = s.realParameter 29 / (s.realVars 1 + s.realVars 4)) ∧
    (s.realVars 1 = 10 → s.realVars 4 = 10 → s.realParameter 29 = 1 →
      ∀ x0 : ℚ, (specLinSolver 3 s x0).2 = 0.05) := by
  have hres : (residualFunc121 s x).2
      = s.realParameter 29 - (s.realVars 1 + s.realVars 4) * x := by
    simp only [residualFunc121, oc_latch_eqFunction_115, oc_latch_eqFunction_116, upd]
    norm_num
    ring
  refine ⟨hres, ?_, ?_⟩
  · rw [hres]
    constructor
    · intro h
      field_simp at h ⊢
      linarith [h]
    · intro h
      rw [h]
      field_simp
  · intro h1 h4 hV x0
    simp only [specLinSolver, lsResidualSlope, lsResidualValue, residualFunc121,
      oc_latch_eqFunction_115, oc_latch_eqFunction_116, upd]
    norm_num [h1, h4, hV]
    ring

/-- Witness for C2: the hypothesis holds at the concrete series-divider
valuation and the residual at the trial value 1/20 has the affine form the
theorem states. -/
theorem residualFunc121_series_divider_witness :
    stateDivider.realVars 1 + stateDivider.realVars 4 ≠ 0 ∧
    (residualFunc121 stateDivider (1/20)).2
      = stateDivider.realParameter 29
        - (stateDivider.realVars 1 + stateDivider.realVars 4) * (1/20) :=
  ⟨by norm_num [stateDivider, state0],
   (residualFunc121_series_divider stateDivider (1/20)
     (by norm_num [stateDivider, state0])).1⟩

/-- C3: with a unit seed (seedVars[0] = 1) each torn-system Jacobian column
function writes into resultVars[0] exactly the slope of the affine residual
of its linear system with respect to the torn unknown; for LSJac3
(system 121) this value is -(R2.R_actual + R1.R_actual), and for LSJac0,
LSJac1 and LSJac2 the written value likewise satisfies the difference
identity of the corresponding residual for every pair of trial values. -/
theorem jac_columns_compute_residual_slopes (s : State) (j : JacState)
    (hseed : j.seedVars 0 = 1) :
    (oc_latch_functionJacLSJac3_column (s, j)).2.resultVars 0
      = -(s.realVars 4 + s.realVars 1) ∧
    (∀ x y : ℚ, lsResidualValue 3 s x - lsResidualValue 3 s y
      = (oc_latch_functionJacLSJac3_column (s, j)).2.resultVars 0 * (x - y)) ∧
    (∀ x y : ℚ, lsResidualValue 0 s x - lsResidualValue 0 s y
      = (oc_latch_functionJacLSJac0_column (s, j)).2.resultVars 0 * (x - y)) ∧
    (∀ x y : ℚ, lsResidualValue 1 s x - lsResidualValue 1 s y
      = (oc_latch_functionJacLSJac1_column (s, j)).2.resultVars 0 * (x - y)) ∧
    (∀ x y : ℚ, lsResidualValue 2 s x - lsResidualValue 2 s y
      = (oc_latch_functionJacLSJac2_column (s, j)).2.resultVars 0 * (x - y)) := by
  refine ⟨?_, ?_, ?_, ?_, ?_⟩
  · simp only [oc_latch_functionJacLSJac3_column, oc_latch_eqFunction_118,
      oc_latch_eqFunction_119, oc_latch_eqFunction_120, upd, hseed]
    norm_num
    ring
  · intro x y
    simp only [oc_latch_functionJacLSJac3_column, oc_latch_eqFunction_118,
      oc_latch_eqFunction_119, oc_latch_eqFunction_120, lsResidualValue,
      residualFunc121, oc_latch_eqFunction_115, oc_latch_eqFunction_116, upd, hseed]
    norm_num
    ring
  · intro x y
    simp only [oc_latch_functionJacLSJac0_column, oc_latch_eqFunction_20,
      oc_latch_eqFunction_21, oc_latch_eqFunction_22, lsResidualValue,
      residualFunc23, oc_latch_eqFunction_17, oc_latch_eqFunction_18, upd, hseed]
    norm_num
    ring
  · intro x y
    simp only [oc_latch_functionJacLSJac1_column, oc_latch_eqFunction_30,
      oc_latch_eqFunction_31, oc_latch_eqFunction_32, lsResidualValue,
      residualFunc33, oc_latch_eqFunction_27, oc_latch_eqFunction_28, upd, hseed]
    norm_num
    ring
  · intro x y
    simp only [oc_latch_functionJacLSJac2_column, oc_latch_eqFunction_95,
      oc_latch_eqFunction_96, oc_latch_eqFunction_97, lsResidualValue,
      residualFunc98, oc_latch_eqFunction_92, oc_latch_eqFunction_93, upd, hseed]
    norm_num
    ring

/-- Witness for C3: a unit-seed Jacobian buffer at the series-divider
valuation, where the LSJac3 column yields -(10 + 10) = -20. -/
theorem jac_columns_compute_residual_slopes_witness :
    jacSeedOne.seedVars 0 = 1 ∧
    (oc_latch_functionJacLSJac3_column (stateDivider, jacSeedOne)).2.resultVars 0
      = -(stateDivider.realVars 4 + stateDivider.realVars 1) :=
  ⟨rfl, (jac_columns_compute_residual_slopes stateDivider jacSeedOne rfl).1⟩

/-- C7: every one of the four Jacobian column functions writes only the
invocation-scoped side buffers (tmpVars and resultVars): the DATA component
of the pair is returned unchanged, and even the seed buffer is untouched. -/
theorem jac_columns_preserve_primary_store (s : State) (j : JacState) :
    (oc_latch_functionJacLSJac0_column (s, j)).1 = s ∧
    (oc_latch_functionJacLSJac1_column (s, j)).1 = s ∧
    (oc_latch_functionJacLSJac2_column (s, j)).1 = s ∧
    (oc_latch_functionJacLSJac3_column (s, j)).1 = s ∧
    (oc_latch_functionJacLSJac0_column (s, j)).2.seedVars = j.seedVars ∧
    (oc_latch_functionJacLSJac1_column (s, j)).2.seedVars = j.seedVars ∧
    (oc_latch_functionJacLSJac2_column (s, j)).2.seedVars = j.seedVars ∧
    (oc_latch_functionJacLSJac3_column (s, j)).2.seedVars = j.seedVars :=
  ⟨rfl, rfl, rfl, rfl, rfl, rfl, rfl, rfl⟩

/-- C10: evaluating a linear-system residual callback mutates the primary
variable store: residualFunc121 leaves the trial value in R2.i and the
recomputed local constraints in R1.v and R2.v of the returned store, and
residualFunc23, residualFunc33 and residualFunc98 likewise leave the trial
value in their torn variables R2.v, resistor3.v and resistor2.v. -/
theorem residual_callbacks_mutate_primary_store (s : State) (x : ℚ) :
    (residualFunc121 s x).1.realVars 5 = x ∧
    (residualFunc121 s x).1.realVars 2 = s.realVars 1 * x ∧
    (residualFunc121 s x).1.realVars 6 = s.realVars 4 * x ∧
    (residualFunc23 s x).1.realVars 6 = x ∧
    (residualFunc33 s x).1.realVars 53 = x ∧
    (residualFunc98 s x).1.realVars 49 = x := by
  refine ⟨?_, ?_, ?_, ?_, ?_, ?_⟩ <;>
    simp [residualFunc121, residualFunc23, residualFunc33, residualFunc98,
      oc_latch_eqFunction_115, oc_latch_eqFunction_116,
      oc_latch_eqFunction_17, oc_latch_eqFunction_18,
      oc_latch_eqFunction_27, oc_latch_eqFunction_28,
      oc_latch_eqFunction_92, oc_latch_eqFunction_93, upd]

/-- C9: oc_latch_function_ZeroCrossings writes exactly the five entries
gout[0] to gout[4] (every other entry keeps its prior value), each written
entry is +1 or -1, and an entry is +1 exactly when the corresponding
hysteresis-protected relation evaluates to true. -/
theorem function_ZeroCrossings_signed_indicators
    (ext : ExtRuntime) (s : State) (gout : Nat → ℚ) :
    (∀ i, 5 ≤ i → oc_latch_function_ZeroCrossings ext s gout i = gout i) ∧
    (∀ i, i < 5 → oc_latch_function_ZeroCrossings ext s gout i = 1 ∨
      oc_latch_function_ZeroCrossings ext s gout i = -1) ∧
    (oc_latch_function_ZeroCrossings ext s gout 0 = 1 ↔
      ext.greaterEqZC (s.realVars 36) (s.realParameter 32) (s.storedRelations 0) = true) ∧
    (oc_latch_function_ZeroCrossings ext s gout 1 = 1 ↔
      ext.greaterEqZC (s.realVars 38) (s.realParameter 33) (s.storedRelations 1) = true) ∧
    (oc_latch_function_ZeroCrossings ext s gout 2 = 1 ↔
      (ext.lessEqZC s.timeValue 0.1 (s.storedRelations 2) ||
       ext.greaterEqZC s.timeValue 0.9 (s.storedRelations 3)) = true) ∧
    (oc_latch_function_ZeroCrossings ext s gout 3 = 1 ↔
      (ext.greaterEqZC s.timeValue 0.95 (s.storedRelations 4) &&
       ext.lessEqZC s.timeValue 0.96 (s.storedRelations 5)) = true) ∧
    (oc_latch_function_ZeroCrossings ext s gout 4 = 1 ↔
      ext.greaterEqZC s.timeValue (s.realVarsPre 56) (s.storedRelations 6) = true) := by
  have e0 : oc_latch_function_ZeroCrossings ext s gout 0 =
      (if ext.greaterEqZC (s.realVars 36) (s.realParameter 32) (s.storedRelations 0)
        then 1 else -1) := by
    simp [oc_latch_function_ZeroCrossings, upd]
  have e1 : oc_latch_function_ZeroCrossings ext s gout 1 =
      (if ext.greaterEqZC (s.realVars 38) (s.realParameter 33) (s.storedRelations 1)
        then 1 else -1) := by
    simp [oc_latch_function_ZeroCrossings, upd]
  have e2 : oc_latch_function_ZeroCrossings ext s gout 2 =
      (if (ext.lessEqZC s.timeValue 0.1 (s.storedRelations 2) ||
           ext.greaterEqZC s.timeValue 0.9 (s.storedRelations 3))
        then 1 else -1) := by
    simp [oc_latch_function_ZeroCrossings, upd]
  have e3 : oc_latch_function_ZeroCrossings ext s gout 3 =
      (if (ext.greaterEqZC s.timeValue 0.95 (s.storedRelations 4) &&
           ext.lessEqZC s.timeValue 0.96 (s.storedRelations 5))
        then 1 else -1) := by
    simp [oc_latch_function_ZeroCrossings, upd]
  have e4 : oc_latch_function_ZeroCrossings ext s gout 4 =
      (if ext.greaterEqZC s.timeValue (s.realVarsPre 56) (s.storedRelations 6)
        then 1 else -1) := by
    simp [oc_latch_function_ZeroCrossings, upd]
  refine ⟨?_, ?_, ?_, ?_, ?_, ?_, ?_⟩
  · intro i hi
    have h0 : i ≠ 0 := by omega
    have h1 : i ≠ 1 := by omega
    have h2 : i ≠ 2 := by omega
    have h3 : i ≠ 3 := by omega
    have h4 : i ≠ 4 := by omega
    simp [oc_latch_function_ZeroCrossings, upd, h0, h1, h2, h3, h4]
  · intro i hi
    interval_cases i
    · rw [e0]; split <;> norm_num
    · rw [e1]; split <;> norm_num
    · rw [e2]; split <;> norm_num
    · rw [e3]; split <;> norm_num
    · rw [e4]; split <;> norm_num
  · rw [e0]; cases hb : ext.greaterEqZC (s.realVars 36) (s.realParameter 32)
      (s.storedRelations 0) <;> norm_num [hb]
  · rw [e1]; cases hb : ext.greaterEqZC (s.realVars 38) (s.realParameter 33)
      (s.storedRelations 1) <;> norm_num [hb]
  · rw [e2]
    cases hb : (ext.lessEqZC s.timeValue 0.1 (s.storedRelations 2) ||
      ext.greaterEqZC s.timeValue 0.9 (s.storedRelations 3)) <;> norm_num [hb]
  · rw [e3]
    cases hb : (ext.greaterEqZC s.timeValue 0.95 (s.storedRelations 4) &&
      ext.lessEqZC s.timeValue 0.96 (s.storedRelations 5)) <;> norm_num [hb]
  · rw [e4]; cases hb : ext.greaterEqZC s.timeValue (s.realVarsPre 56)
      (s.storedRelations 6) <;> norm_num [hb]

/-- Witness for C9: at a concrete store and indicator array, entry 7 is
left at its prior value and entry 0 is one of the two signed indicators. -/
theorem function_ZeroCrossings_signed_indicators_witness :
    oc_latch_function_ZeroCrossings ext0 state0 (fun _ => 0) 7 = 0 ∧
    (oc_latch_function_ZeroCrossings ext0 state0 (fun _ => 0) 0 = 1 ∨
     oc_latch_function_ZeroCrossings ext0 state0 (fun _ => 0) 0 = -1) :=
  ⟨(function_ZeroCrossings_signed_indicators ext0 state0 (fun _ => 0)).1 7 (by norm_num),
   (function_ZeroCrossings_signed_indicators ext0 state0 (fun _ => 0)).2.1 0 (by norm_num)⟩

/-- C4: the when-clause equations 106 and 108 assign their governed
discrete variables (combiTimeTable.nextTimeEventScaled and
combiTimeTable.nextTimeEvent) exactly on a rising edge of whenCondition1
(current value true, pre value false); in every other case the call leaves
the state unchanged, and in every case no other variable is written. -/
theorem when_clauses_gated_by_rising_edge (ext : ExtRuntime) (s : State) :
    ((s.booleanVars 0 && !s.booleanVarsPre 0) = true →
      (oc_latch_eqFunction_106 ext s).realVars 57 = ext.getNextTimeEvent (s.realVars 9) ∧
      (∀ i, i ≠ 57 → (oc_latch_eqFunction_106 ext s).realVars i = s.realVars i) ∧
      (oc_latch_eqFunction_108 s).realVars 56 =
        (if qLess (s.realVars 57) maxTimeEventValue then s.realVars 57
          else maxTimeEventValue) ∧
      (∀ i, i ≠ 56 → (oc_latch_eqFunction_108 s).realVars i = s.realVars i)) ∧
    ((s.booleanVars 0 && !s.booleanVarsPre 0) = false →
      oc_latch_eqFunction_106 ext s = s ∧ oc_latch_eqFunction_108 s = s) ∧
    (oc_latch_eqFunction_106 ext s).booleanVars = s.booleanVars ∧
    (oc_latch_eqFunction_108 s).booleanVars = s.booleanVars ∧
    (oc_latch_eqFunction_106 ext s).realVarsPre = s.realVarsPre ∧
    (oc_latch_eqFunction_108 s).realVarsPre = s.realVarsPre := by
  cases hedge : (s.booleanVars 0 && !s.booleanVarsPre 0) <;>
    simp [oc_latch_eqFunction_106, oc_latch_eqFunction_108, hedge, upd]
  constructor <;> intro i h1 h2 <;> exact absurd h2 h1

/-- Witness for C4: at a concrete store with whenCondition1 freshly risen,
equation 106 writes the table query result into
combiTimeTable.nextTimeEventScaled, and at the base store with the
condition flat the call is the identity. -/
theorem when_clauses_gated_by_rising_edge_witness :
    (stateEdge.booleanVars 0 && !stateEdge.booleanVarsPre 0) = true ∧
    (oc_latch_eqFunction_106 ext0 stateEdge).realVars 57
      = ext0.getNextTimeEvent (stateEdge.realVars 9) ∧
    (state0.booleanVars 0 && !state0.booleanVarsPre 0) = false ∧
    oc_latch_eqFunction_106 ext0 state0 = state0 :=
  ⟨by decide,
   ((when_clauses_gated_by_rising_edge ext0 stateEdge).1 (by decide)).1,
   by decide,
   ((when_clauses_gated_by_rising_edge ext0 state0).2.1 (by decide)).1⟩

/-- C1: for each generated linear-system equation function (equations 23,
33, 98, 121), whenever the external solve_linear_system call returns a
status greater than 0 the function aborts through
throwStreamPrintWithEquationIndexes with a diagnostic carrying the failing
equation index and the current simulated time, and the store — in
particular the torn unknown — is exactly the entry store (the solution is
not written); whenever the status is 0 or less, the returned aux value is
written to the torn unknown of localData[0]. -/
theorem linear_eqFunctions_fatal_on_solver_failure (ls : LinSolver) (s : State) :
    (0 < (ls 0 s (s.realVars1 6)).1 →
      oc_latch_eqFunction_23 ls s =
        .error ⟨[1, 23], s.timeValue, "Solving linear system 23 failed", s⟩) ∧
    ((ls 0 s (s.realVars1 6)).1 ≤ 0 →
      oc_latch_eqFunction_23 ls s =
        .ok { s with realVars := upd s.realVars 6 (ls 0 s (s.realVars1 6)).2 }) ∧
    (0 < (ls 1 s (s.realVars1 53)).1 →
      oc_latch_eqFunction_33 ls s =
        .error ⟨[1, 33], s.timeValue, "Solving linear system 33 failed", s⟩) ∧
    ((ls 1 s (s.realVars1 53)).1 ≤ 0 →
      oc_latch_eqFunction_33 ls s =
        .ok { s with realVars := upd s.realVars 53 (ls 1 s (s.realVars1 53)).2 }) ∧
    (0 < (ls 2 s (s.realVars1 49)).1 →
      oc_latch_eqFunction_98 ls s =
        .error ⟨[1, 98], s.timeValue, "Solving linear system 98 failed", s⟩) ∧
    ((ls 2 s (s.realVars1 49)).1 ≤ 0 →
      oc_latch_eqFunction_98 ls s =
        .ok { s with realVars := upd s.realVars 49 (ls 2 s (s.realVars1 49)).2 }) ∧
    (0 < (ls 3 s (s.realVars1 5)).1 →
      oc_latch_eqFunction_121 ls s =
        .error ⟨[1, 121], s.timeValue, "Solving linear system 121 failed", s⟩) ∧
    ((ls 3 s (s.realVars1 5)).1 ≤ 0 →
      oc_latch_eqFunction_121 ls s =
        .ok { s with realVars := upd s.realVars 5 (ls 3 s (s.realVars1 5)).2 }) := by
  refine ⟨fun h => ?_, fun h => ?_, fun h => ?_, fun h => ?_,
    fun h => ?_, fun h => ?_, fun h => ?_, fun h => ?_⟩ <;>
    simp only [oc_latch_eqFunction_23, oc_latch_eqFunction_33,
      oc_latch_eqFunction_98, oc_latch_eqFunction_121]
  · rw [if_pos h]
  · rw [if_neg (not_lt.mpr h)]
  · rw [if_pos h]
  · rw [if_neg (not_lt.mpr h)]
  · rw [if_pos h]
  · rw [if_neg (not_lt.mpr h)]
  · rw [if_pos h]
  · rw [if_neg (not_lt.mpr h)]

/-- Witness for C1: a failing solver stub makes equation 98 abort with the
indexed diagnostic at the base store, and a succeeding stub writes its
solution into the torn unknown. -/
theorem linear_eqFunctions_fatal_on_solver_failure_witness :
    (0 < (lsFail 2 state0 (state0.realVars1 49)).1 ∧
      oc_latch_eqFunction_98 lsFail state0 =
        .error ⟨[1, 98], state0.timeValue, "Solving linear system 98 failed", state0⟩) ∧
    ((lsOk 2 state0 (state0.realVars1 49)).1 ≤ 0 ∧
      oc_latch_eqFunction_98 lsOk state0 =
        .ok { state0 with
          realVars := upd state0.realVars 49 (lsOk 2 state0 (state0.realVars1 49)).2 }) :=
  ⟨⟨by decide,
    (linear_eqFunctions_fatal_on_solver_failure lsFail state0).2.2.2.2.1 (by decide)⟩,
   ⟨by decide,
    (linear_eqFunctions_fatal_on_solver_failure lsOk state0).2.2.2.2.2.1 (by decide)⟩⟩

/-- A violated temperature-scope assertion in warning mode logs its two
entries, sets needToReThrow and continues, independently of how often it
ran before. -/
theorem tempScopeAssert_noThrow_violated (eqIndex : Nat) (cv : ℚ) (ct : String)
    (s : State) (hnt : s.noThrowAsserts = true) (hv : ¬ (1e-15 : ℚ) ≤ cv) :
    tempScopeAssert eqIndex cv ct s = .ok { s with
      log := s.log ++ [⟨eqIndex, s.timeValue, ct⟩,
        ⟨eqIndex, s.timeValue, "Temperature outside scope of model!"⟩],
      needToReThrow := true } := by
  simp [tempScopeAssert, qGreaterEq, hv, hnt]

/-- Counterexample for C5: in warning mode (noThrowAsserts set), the
violated temperature assertion of equation 139 logs two entries on the
first evaluation and two further entries on the second evaluation of the
same run — the claimed once-per-run latch does not exist for this
assertion-checking equation function. -/
theorem eqFunction_139_grows_log_by_two (s : State)
    (hnt : s.noThrowAsserts = true)
    (hv : ¬ (1e-15 : ℚ) ≤ 1 + s.realParameter 60 *
      (s.realParameter 57 - s.realParameter 59)) :
    ∃ s1, oc_latch_eqFunction_139 s = .ok s1 ∧
      s1.log.length = s.log.length + 2 ∧
      s1.realParameter = s.realParameter ∧ s1.noThrowAsserts = true :=
  ⟨_, tempScopeAssert_noThrow_violated 139 _ _ s hnt hv, by simp, rfl, hnt⟩

/-- Counterexample for C5: in warning mode (noThrowAsserts set), the
violated temperature assertion of equation 139 logs two entries on the
first evaluation and two further entries on the second evaluation of the
same run — the claimed once-per-run latch does not exist for this
assertion-checking equation function. -/
theorem warning_assert_relogged_counterexample :
    ((oc_latch_eqFunction_139 stateTempViolation).toOption.map
      (fun s1 => s1.log.length)) = some 2 ∧
    (((oc_latch_eqFunction_139 stateTempViolation).toOption.bind
      (fun s1 => (oc_latch_eqFunction_139 s1).toOption)).map
      (fun s2 => s2.log.length)) = some 4 := by
  have hv : ¬ (1e-15 : ℚ) ≤ 1 + stateTempViolation.realParameter 60 *
      (stateTempViolation.realParameter 57 - stateTempViolation.realParameter 59) := by
    norm_num [stateTempViolation, state0]
  obtain ⟨s1, e1, l1, hp1, hn1⟩ := eqFunction_139_grows_log_by_two stateTempViolation rfl hv
  obtain ⟨s2, e2, l2, hp2, hn2⟩ := eqFunction_139_grows_log_by_two s1 hn1 (by rw [hp1]; exact hv)
  have l0 : stateTempViolation.log.length = 0 := rfl
  rw [e1]
  simp only [Except.toOption, Option.bind, Option.map, e2, l2, l1, l0]
  norm_num
/-- C5 as amended: in warning mode a violated assertion of the
algorithm-block temperature family (equation 139) is re-reported on every
evaluation — the generated static already-warned flag is declared but never
consulted or set — while the min/max bound assertion functions of the
bound-parameter pass (equation 216) are latched: once their flag is set
the call does nothing, and a first violation reports and sets the flag. -/
theorem assert_warning_latching_amended (s : State)
    (hnt : s.noThrowAsserts = true) :
    (¬ (1e-15 : ℚ) ≤ 1 + s.realParameter 60 * (s.realParameter 57 - s.realParameter 59) →
      oc_latch_eqFunction_139 s = .ok { s with
        log := s.log ++ [⟨139, s.timeValue,
            "1.0 + resistor3.alpha * (resistor3.T - resistor3.T_ref) >= 1e-15"⟩,
          ⟨139, s.timeValue, "Temperature outside scope of model!"⟩],
        needToReThrow := true }) ∧
    (s.assertLatch 216 = true → oc_latch_eqFunction_216 s = s) ∧
    (s.assertLatch 216 = false → ¬ (0 : ℚ) ≤ s.realParameter 3 →
      oc_latch_eqFunction_216 s = { s with
        log := s.log ++ [⟨216, s.timeValue, "R1.T_ref >= 0.0"⟩,
          ⟨216, s.timeValue, "Variable violating min constraint: 0.0 <= R1.T_ref"⟩],
        assertLatch := upd s.assertLatch 216 true }) := by
  refine ⟨fun hv => ?_, fun hl => ?_, fun hl hv => ?_⟩
  · simp [oc_latch_eqFunction_139, tempScopeAssert, qGreaterEq, hv, hnt]
  · simp [oc_latch_eqFunction_216, latchedBoundAssert, hl]
  · simp [oc_latch_eqFunction_216, latchedBoundAssert, qGreaterEq, hl, hv]

/-- Witness for the amended C5: the violated temperature assertion
re-reports at the concrete violating context, and the violated bound
assertion at its concrete context reports and latches. -/
theorem assert_warning_latching_amended_witness :
    (stateTempViolation.noThrowAsserts = true ∧
      oc_latch_eqFunction_139 stateTempViolation = .ok { stateTempViolation with
        log := stateTempViolation.log ++ [⟨139, stateTempViolation.timeValue,
            "1.0 + resistor3.alpha * (resistor3.T - resistor3.T_ref) >= 1e-15"⟩,
          ⟨139, stateTempViolation.timeValue, "Temperature outside scope of model!"⟩],
        needToReThrow := true }) ∧
    (stateBoundViolation.noThrowAsserts = true ∧
      oc_latch_eqFunction_216 stateBoundViolation = { stateBoundViolation with
        log := stateBoundViolation.log ++ [⟨216, stateBoundViolation.timeValue,
            "R1.T_ref >= 0.0"⟩,
          ⟨216, stateBoundViolation.timeValue,
            "Variable violating min constraint: 0.0 <= R1.T_ref"⟩],
        assertLatch := upd stateBoundViolation.assertLatch 216 true }) :=
  ⟨⟨rfl, (assert_warning_latching_amended stateTempViolation rfl).1
      (by norm_num [stateTempViolation, state0])⟩,
   ⟨rfl, (assert_warning_latching_amended stateBoundViolation rfl).2.2
      rfl (by norm_num [stateBoundViolation, state0])⟩⟩

/-- Binding an ok result just applies the continuation. -/
theorem except_bind_ok {α β ε : Type} (x : α) (f : α → Except ε β) :
    (Except.ok x >>= f) = f x := rfl

/-- pure in the Except monad is ok. -/
theorem except_pure_eq {α ε : Type} (x : α) : (pure x : Except ε α) = .ok x := rfl

/-- Closed form of a temperature-scope assertion in warning mode: it never
aborts; the violation report and the needToReThrow update are conditional
on the assertion value. -/
theorem tempScopeAssert_run (k : Nat) (cv : ℚ) (ct : String) (s : State)
    (hnt : s.noThrowAsserts = true) :
    tempScopeAssert k cv ct s = .ok { s with
      log := s.log ++ (if qGreaterEq cv 1e-15 then [] else [⟨k, s.timeValue, ct⟩,
        ⟨k, s.timeValue, "Temperature outside scope of model!"⟩]),
      needToReThrow := if qGreaterEq cv 1e-15 then s.needToReThrow else true } := by
  by_cases h : qGreaterEq cv 1e-15
  · simp [tempScopeAssert, h]
  · simp [tempScopeAssert, h, hnt]

/-- Closed form of equation 98 under the spec-modelled solver when linear
system 98 is nonsingular: the unique zero of the affine residual is written
to resistor2.v. -/
theorem eqFunction_98_run (s : State) (h : ¬ lsResidualSlope 2 s = 0) :
    oc_latch_eqFunction_98 specLinSolver s = .ok { s with realVars := upd s.realVars 49 (s.realVars1 49 - lsResidualValue 2 s (s.realVars1 49) / lsResidualSlope 2 s) } := by
  simp [oc_latch_eqFunction_98, specLinSolver, h]

/-- Closed form of equation 121 under the spec-modelled solver when linear
system 121 is nonsingular: the unique zero of the affine residual is
written to R2.i. -/
theorem eqFunction_121_run (s : State) (h : ¬ lsResidualSlope 3 s = 0) :
    oc_latch_eqFunction_121 specLinSolver s = .ok { s with realVars := upd s.realVars 5 (s.realVars1 5 - lsResidualValue 3 s (s.realVars1 5) / lsResidualSlope 3 s) } := by
  simp [oc_latch_eqFunction_121, specLinSolver, h]


/-- The residual of linear system 98 depends only on resistor2.R_actual,
resistor3.R_actual and constantVoltage.V. -/
theorem lsResidualValue2_congr (a b : State) (h48 : a.realVars 48 = b.realVars 48)
    (h51 : a.realVars 51 = b.realVars 51)
    (hp : a.realParameter 29 = b.realParameter 29) (x : ℚ) :
    lsResidualValue 2 a x = lsResidualValue 2 b x := by
  simp [lsResidualValue, residualFunc98, oc_latch_eqFunction_92,
    oc_latch_eqFunction_93, upd, h48, h51, hp]

/-- The slope of linear system 98 depends only on resistor2.R_actual,
resistor3.R_actual and constantVoltage.V. -/
theorem lsResidualSlope2_congr (a b : State) (h48 : a.realVars 48 = b.realVars 48)
    (h51 : a.realVars 51 = b.realVars 51)
    (hp : a.realParameter 29 = b.realParameter 29) :
    lsResidualSlope 2 a = lsResidualSlope 2 b := by
  simp only [lsResidualSlope, lsResidualValue2_congr a b h48 h51 hp]

/-- The residual of linear system 121 depends only on R1.R_actual,
R2.R_actual and constantVoltage.V. -/
theorem lsResidualValue3_congr (a b : State) (h1 : a.realVars 1 = b.realVars 1)
    (h4 : a.realVars 4 = b.realVars 4)
    (hp : a.realParameter 29 = b.realParameter 29) (x : ℚ) :
    lsResidualValue 3 a x = lsResidualValue 3 b x := by
  simp [lsResidualValue, residualFunc121, oc_latch_eqFunction_115,
    oc_latch_eqFunction_116, upd, h1, h4, hp]

/-- The slope of linear system 121 depends only on R1.R_actual,
R2.R_actual and constantVoltage.V. -/
theorem lsResidualSlope3_congr (a b : State) (h1 : a.realVars 1 = b.realVars 1)
    (h4 : a.realVars 4 = b.realVars 4)
    (hp : a.realParameter 29 = b.realParameter 29) :
    lsResidualSlope 3 a = lsResidualSlope 3 b := by
  simp only [lsResidualSlope, lsResidualValue3_congr a b h1 h4 hp]
/-- Elementwise reading of an updated store at the written index. -/
theorem upd_same {α : Type} (f : Nat → α) (i : Nat) (v : α) : upd f i v i = v := by
  simp [upd]

/-- Elementwise reading of an updated store away from the written index. -/
theorem upd_ne {α : Type} (f : Nat → α) (i : Nat) (v : α) (j : Nat) (h : ¬ j = i) :
    upd f i v j = f j := by
  simp [upd, h]

/-- Elementwise reading away from the written index, with the index
disequality given as a computable Nat.beq fact. -/
theorem upd_neb {α : Type} (f : Nat → α) (i : Nat) (v : α) (j : Nat)
    (h : Nat.beq j i = false) : upd f i v j = f j := by
  simp [upd, Nat.ne_of_beq_eq_false h]

/-- setLastEq in record-literal form. -/
theorem setLastEq_step (n : Nat) (t : State) :
    setLastEq n t = { t with lastEquationSolved := n } := rfl

/-- Projection of a State literal: realVars. -/
theorem mk_rv (v1 v2 v3 v4 v5 v6 v7 v8 v9 v10 v11 v12 v13 v14 v15 v16 : _) :
    (State.mk v1 v2 v3 v4 v5 v6 v7 v8 v9 v10 v11 v12 v13 v14 v15 v16).realVars = v1 := rfl

/-- Projection of a State literal: booleanVars. -/
theorem mk_bv (v1 v2 v3 v4 v5 v6 v7 v8 v9 v10 v11 v12 v13 v14 v15 v16 : _) :
    (State.mk v1 v2 v3 v4 v5 v6 v7 v8 v9 v10 v11 v12 v13 v14 v15 v16).booleanVars = v3 := rfl

/-- Projection of a State literal: realVars1. -/
theorem mk_rv1 (v1 v2 v3 v4 v5 v6 v7 v8 v9 v10 v11 v12 v13 v14 v15 v16 : _) :
    (State.mk v1 v2 v3 v4 v5 v6 v7 v8 v9 v10 v11 v12 v13 v14 v15 v16).realVars1 = v2 := rfl

/-- Projection of a State literal: realVarsPre. -/
theorem mk_pre (v1 v2 v3 v4 v5 v6 v7 v8 v9 v10 v11 v12 v13 v14 v15 v16 : _) :
    (State.mk v1 v2 v3 v4 v5 v6 v7 v8 v9 v10 v11 v12 v13 v14 v15 v16).realVarsPre = v4 := rfl

/-- Projection of a State literal: booleanVarsPre. -/
theorem mk_bpre (v1 v2 v3 v4 v5 v6 v7 v8 v9 v10 v11 v12 v13 v14 v15 v16 : _) :
    (State.mk v1 v2 v3 v4 v5 v6 v7 v8 v9 v10 v11 v12 v13 v14 v15 v16).booleanVarsPre = v5 := rfl

/-- Projection of a State literal: realParameter. -/
theorem mk_par (v1 v2 v3 v4 v5 v6 v7 v8 v9 v10 v11 v12 v13 v14 v15 v16 : _) :
    (State.mk v1 v2 v3 v4 v5 v6 v7 v8 v9 v10 v11 v12 v13 v14 v15 v16).realParameter = v6 := rfl

/-- Projection of a State literal: integerParameter. -/
theorem mk_ipar (v1 v2 v3 v4 v5 v6 v7 v8 v9 v10 v11 v12 v13 v14 v15 v16 : _) :
    (State.mk v1 v2 v3 v4 v5 v6 v7 v8 v9 v10 v11 v12 v13 v14 v15 v16).integerParameter = v7 := rfl

/-- Projection of a State literal: booleanParameter. -/
theorem mk_bpar (v1 v2 v3 v4 v5 v6 v7 v8 v9 v10 v11 v12 v13 v14 v15 v16 : _) :
    (State.mk v1 v2 v3 v4 v5 v6 v7 v8 v9 v10 v11 v12 v13 v14 v15 v16).booleanParameter = v8 := rfl

/-- Projection of a State literal: timeValue. -/
theorem mk_time (v1 v2 v3 v4 v5 v6 v7 v8 v9 v10 v11 v12 v13 v14 v15 v16 : _) :
    (State.mk v1 v2 v3 v4 v5 v6 v7 v8 v9 v10 v11 v12 v13 v14 v15 v16).timeValue = v9 := rfl

/-- Projection of a State literal: storedRelations. -/
theorem mk_stored (v1 v2 v3 v4 v5 v6 v7 v8 v9 v10 v11 v12 v13 v14 v15 v16 : _) :
    (State.mk v1 v2 v3 v4 v5 v6 v7 v8 v9 v10 v11 v12 v13 v14 v15 v16).storedRelations = v10 := rfl

/-- Projection of a State literal: relations. -/
theorem mk_rels (v1 v2 v3 v4 v5 v6 v7 v8 v9 v10 v11 v12 v13 v14 v15 v16 : _) :
    (State.mk v1 v2 v3 v4 v5 v6 v7 v8 v9 v10 v11 v12 v13 v14 v15 v16).relations = v11 := rfl

/-- Projection of a State literal: noThrowAsserts. -/
theorem mk_nt (v1 v2 v3 v4 v5 v6 v7 v8 v9 v10 v11 v12 v13 v14 v15 v16 : _) :
    (State.mk v1 v2 v3 v4 v5 v6 v7 v8 v9 v10 v11 v12 v13 v14 v15 v16).noThrowAsserts = v12 := rfl

/-- Projection of a State literal: assertLatch. -/
theorem mk_latch (v1 v2 v3 v4 v5 v6 v7 v8 v9 v10 v11 v12 v13 v14 v15 v16 : _) :
    (State.mk v1 v2 v3 v4 v5 v6 v7 v8 v9 v10 v11 v12 v13 v14 v15 v16).assertLatch = v14 := rfl

/-- Equation 89 with its lastEquationSolved update, in record-literal form. -/
theorem alg89_step (ext : ExtRuntime) (t : State) :
    setLastEq 89 (oc_latch_eqFunction_89 ext t) =
    { t with booleanVars := upd t.booleanVars 0 (ext.relationhysteresis .greaterEq t.timeValue (t.realVarsPre 56) (t.storedRelations 6)), lastEquationSolved := 89 } := rfl

/-- Equation 90 with its lastEquationSolved update, in record-literal form. -/
theorem alg90_step (ext : ExtRuntime) (t : State) :
    setLastEq 90 (oc_latch_eqFunction_90 ext t) =
    { t with booleanVars := upd t.booleanVars 11 ((ext.relationhysteresis .greaterEq t.timeValue 0.95 (t.storedRelations 4) && ext.relationhysteresis .lessEq t.timeValue 0.96 (t.storedRelations 5))), lastEquationSolved := 90 } := rfl

/-- Equation 91 with its lastEquationSolved update, in record-literal form. -/
theorem alg91_step (ext : ExtRuntime) (t : State) :
    setLastEq 91 (oc_latch_eqFunction_91 ext t) =
    { t with booleanVars := upd t.booleanVars 2 ((ext.relationhysteresis .lessEq t.timeValue 0.1 (t.storedRelations 2) || ext.relationhysteresis .greaterEq t.timeValue 0.9 (t.storedRelations 3))), lastEquationSolved := 91 } := rfl

/-- Equation 99 with its lastEquationSolved update, in record-literal form. -/
theorem alg99_step (t : State) :
    setLastEq 99 (oc_latch_eqFunction_99 t) =
    { t with realVars := upd t.realVars 47 (t.realVars 49 * t.realVars 52), lastEquationSolved := 99 } := rfl

/-- Equation 100 with its lastEquationSolved update, in record-literal form. -/
theorem alg100_step (t : State) :
    setLastEq 100 (oc_latch_eqFunction_100 t) =
    { t with realVars := upd t.realVars 50 (t.realVars 53 * t.realVars 52), lastEquationSolved := 100 } := rfl

/-- Equation 101 with its lastEquationSolved update, in record-literal form. -/
theorem alg101_step (t : State) :
    setLastEq 101 (oc_latch_eqFunction_101 t) =
    { t with booleanVars := upd t.booleanVars 10 (t.booleanVarsPre 9), lastEquationSolved := 101 } := rfl

/-- Equation 102 with its lastEquationSolved update, in record-literal form. -/
theorem alg102_step (t : State) :
    setLastEq 102 (oc_latch_eqFunction_102 t) =
    { t with booleanVars := upd t.booleanVars 5 (t.booleanVarsPre 8), lastEquationSolved := 102 } := rfl

/-- Equation 103 with its lastEquationSolved update, in record-literal form. -/
theorem alg103_step (t : State) :
    setLastEq 103 (oc_latch_eqFunction_103 t) =
    { t with booleanVars := upd t.booleanVars 1 (!(t.booleanVars 5 || t.booleanVars 10)), lastEquationSolved := 103 } := rfl

/-- Equation 104 with its lastEquationSolved update, in record-literal form. -/
theorem alg104_step (t : State) :
    setLastEq 104 (oc_latch_eqFunction_104 t) =
    { t with booleanVars := upd t.booleanVars 8 (!(t.booleanVars 1 || t.booleanVars 2)), lastEquationSolved := 104 } := rfl

/-- Equation 105 with its lastEquationSolved update, in record-literal form. -/
theorem alg105_step (t : State) :
    setLastEq 105 (oc_latch_eqFunction_105 t) =
    { t with realVars := upd t.realVars 9 (t.timeValue), lastEquationSolved := 105 } := rfl

/-- Equation 107 with its lastEquationSolved update, in record-literal form. -/
theorem alg107_step (ext : ExtRuntime) (t : State) :
    setLastEq 107 (oc_latch_eqFunction_107 ext t) =
    { t with realVars := upd t.realVars 10 (ext.getTimeTableValueNoDer (t.realVars 9) (t.realVars 57) (t.realVarsPre 57)), lastEquationSolved := 107 } := rfl

/-- Equation 109 with its lastEquationSolved update, in record-literal form. -/
theorem alg109_step (t : State) :
    setLastEq 109 (oc_latch_eqFunction_109 t) =
    { t with realVars := upd t.realVars 34 (t.realVars 10 - t.realVars 53), lastEquationSolved := 109 } := rfl

/-- Equation 110 with its lastEquationSolved update, in record-literal form. -/
theorem alg110_step (t : State) :
    setLastEq 110 (oc_latch_eqFunction_110 t) =
    { t with realVars := upd t.realVars 38 (0.5 * t.realParameter 29 + t.realVars 30 * (t.realVars 34 / (1 + t.realVars 30 * (if qLess (t.realVars 31 * t.realVars 34) 0 then (-t.realVars 31) * t.realVars 34 else t.realVars 31 * t.realVars 34)))), lastEquationSolved := 110 } := rfl

/-- Equation 111 with its lastEquationSolved update, in record-literal form. -/
theorem alg111_step (t : State) :
    setLastEq 111 (oc_latch_eqFunction_111 t) =
    { t with realVars := upd t.realVars 46 (t.realParameter 29 - t.realVars 38), lastEquationSolved := 111 } := rfl

/-- Equation 112 with its lastEquationSolved update, in record-literal form. -/
theorem alg112_step (t : State) :
    setLastEq 112 (oc_latch_eqFunction_112 t) =
    { t with realVars := upd t.realVars 45 (t.realVars 46 / t.realVars 44), lastEquationSolved := 112 } := rfl

/-- Equation 113 with its lastEquationSolved update, in record-literal form. -/
theorem alg113_step (t : State) :
    setLastEq 113 (oc_latch_eqFunction_113 t) =
    { t with realVars := upd t.realVars 43 (t.realVars 46 * t.realVars 45), lastEquationSolved := 113 } := rfl

/-- Equation 114 with its lastEquationSolved update, in record-literal form. -/
theorem alg114_step (ext : ExtRuntime) (t : State) :
    setLastEq 114 (oc_latch_eqFunction_114 ext t) =
    { t with booleanVars := upd t.booleanVars 3 (ext.relationhysteresis .greaterEq (t.realVars 38) (t.realParameter 33) (t.storedRelations 1)), lastEquationSolved := 114 } := rfl

/-- Equation 122 with its lastEquationSolved update, in record-literal form. -/
theorem alg122_step (t : State) :
    setLastEq 122 (oc_latch_eqFunction_122 t) =
    { t with realVars := upd t.realVars 0 (t.realVars 2 * t.realVars 5), lastEquationSolved := 122 } := rfl

/-- Equation 123 with its lastEquationSolved update, in record-literal form. -/
theorem alg123_step (t : State) :
    setLastEq 123 (oc_latch_eqFunction_123 t) =
    { t with realVars := upd t.realVars 27 (t.realVars 6 - t.realVars 10), lastEquationSolved := 123 } := rfl

/-- Equation 124 with its lastEquationSolved update, in record-literal form. -/
theorem alg124_step (t : State) :
    setLastEq 124 (oc_latch_eqFunction_124 t) =
    { t with realVars := upd t.realVars 36 (0.5 * t.realParameter 29 + t.realVars 23 * (t.realVars 27 / (1 + t.realVars 23 * (if qLess (t.realVars 24 * t.realVars 27) 0 then (-t.realVars 24) * t.realVars 27 else t.realVars 24 * t.realVars 27)))), lastEquationSolved := 124 } := rfl

/-- Equation 125 with its lastEquationSolved update, in record-literal form. -/
theorem alg125_step (t : State) :
    setLastEq 125 (oc_latch_eqFunction_125 t) =
    { t with realVars := upd t.realVars 42 (t.realParameter 29 - t.realVars 36), lastEquationSolved := 125 } := rfl

/-- Equation 126 with its lastEquationSolved update, in record-literal form. -/
theorem alg126_step (t : State) :
    setLastEq 126 (oc_latch_eqFunction_126 t) =
    { t with realVars := upd t.realVars 41 (t.realVars 42 / t.realVars 40), lastEquationSolved := 126 } := rfl

/-- Equation 127 with its lastEquationSolved update, in record-literal form. -/
theorem alg127_step (t : State) :
    setLastEq 127 (oc_latch_eqFunction_127 t) =
    { t with realVars := upd t.realVars 39 (t.realVars 42 * t.realVars 41), lastEquationSolved := 127 } := rfl

/-- Equation 128 with its lastEquationSolved update, in record-literal form. -/
theorem alg128_step (ext : ExtRuntime) (t : State) :
    setLastEq 128 (oc_latch_eqFunction_128 ext t) =
    { t with booleanVars := upd t.booleanVars 4 (ext.relationhysteresis .greaterEq (t.realVars 36) (t.realParameter 32) (t.storedRelations 0)), lastEquationSolved := 128 } := rfl

/-- Equation 129 with its lastEquationSolved update, in record-literal form. -/
theorem alg129_step (t : State) :
    setLastEq 129 (oc_latch_eqFunction_129 t) =
    { t with booleanVars := upd t.booleanVars 6 (!(t.booleanVars 4 && t.booleanVars 3)), lastEquationSolved := 129 } := rfl

/-- Equation 130 with its lastEquationSolved update, in record-literal form. -/
theorem alg130_step (t : State) :
    setLastEq 130 (oc_latch_eqFunction_130 t) =
    { t with booleanVars := upd t.booleanVars 7 (!(t.booleanVars 10 || t.booleanVars 6)), lastEquationSolved := 130 } := rfl

/-- Equation 131 with its lastEquationSolved update, in record-literal form. -/
theorem alg131_step (t : State) :
    setLastEq 131 (oc_latch_eqFunction_131 t) =
    { t with booleanVars := upd t.booleanVars 9 (!(t.booleanVars 7 || t.booleanVars 11)), lastEquationSolved := 131 } := rfl

/-- Equation 132 with its lastEquationSolved update, in record-literal form. -/
theorem alg132_step (t : State) :
    setLastEq 132 (oc_latch_eqFunction_132 t) =
    { t with realVars := upd t.realVars 3 (t.realVars 6 * t.realVars 5), lastEquationSolved := 132 } := rfl

/-- Equation 133 with its lastEquationSolved update, in record-literal form. -/
theorem alg133_step (t : State) :
    setLastEq 133 (oc_latch_eqFunction_133 t) =
    { t with realVars := upd t.realVars 11 (-t.realVars 52 - t.realVars 45 - t.realVars 41 - t.realVars 5), lastEquationSolved := 133 } := rfl

/-- Equation 98 under the spec-modelled solver on a nonsingular system:
the run completes with ok, writes only the torn unknown, and leaves every
other store component unchanged. -/
theorem eqFunction_98_ok (s : State) (h : ¬ lsResidualSlope 2 s = 0) :
    ∃ t, oc_latch_eqFunction_98 specLinSolver s = .ok t ∧
      t.realVars = upd s.realVars 49 (s.realVars1 49 - lsResidualValue 2 s (s.realVars1 49) / lsResidualSlope 2 s) ∧
      t.booleanVars = s.booleanVars ∧
      t.realVars1 = s.realVars1 ∧
      t.realVarsPre = s.realVarsPre ∧
      t.booleanVarsPre = s.booleanVarsPre ∧
      t.realParameter = s.realParameter ∧
      t.integerParameter = s.integerParameter ∧
      t.booleanParameter = s.booleanParameter ∧
      t.timeValue = s.timeValue ∧
      t.storedRelations = s.storedRelations ∧
      t.relations = s.relations ∧
      t.noThrowAsserts = s.noThrowAsserts ∧
      t.assertLatch = s.assertLatch := by
  rw [eqFunction_98_run s h]
  exact ⟨_, rfl, rfl, rfl, rfl, rfl, rfl, rfl, rfl, rfl, rfl, rfl, rfl, rfl, rfl⟩

/-- Equation 121 under the spec-modelled solver on a nonsingular system:
the run completes with ok, writes only the torn unknown, and leaves every
other store component unchanged. -/
theorem eqFunction_121_ok (s : State) (h : ¬ lsResidualSlope 3 s = 0) :
    ∃ t, oc_latch_eqFunction_121 specLinSolver s = .ok t ∧
      t.realVars = upd s.realVars 5 (s.realVars1 5 - lsResidualValue 3 s (s.realVars1 5) / lsResidualSlope 3 s) ∧
      t.booleanVars = s.booleanVars ∧
      t.realVars1 = s.realVars1 ∧
      t.realVarsPre = s.realVarsPre ∧
      t.booleanVarsPre = s.booleanVarsPre ∧
      t.realParameter = s.realParameter ∧
      t.integerParameter = s.integerParameter ∧
      t.booleanParameter = s.booleanParameter ∧
      t.timeValue = s.timeValue ∧
      t.storedRelations = s.storedRelations ∧
      t.relations = s.relations ∧
      t.noThrowAsserts = s.noThrowAsserts ∧
      t.assertLatch = s.assertLatch := by
  rw [eqFunction_121_run s h]
  exact ⟨_, rfl, rfl, rfl, rfl, rfl, rfl, rfl, rfl, rfl, rfl, rfl, rfl, rfl, rfl⟩

/-- Assertion equation 134 in warning mode: the run completes with ok and
leaves every store component other than the log and the rethrow flag
unchanged. -/
theorem eqFunction_134_ok (s : State) (hnt : s.noThrowAsserts = true) :
    ∃ t, oc_latch_eqFunction_134 s = .ok t ∧
      t.realVars = s.realVars ∧
      t.booleanVars = s.booleanVars ∧
      t.realVars1 = s.realVars1 ∧
      t.realVarsPre = s.realVarsPre ∧
      t.booleanVarsPre = s.booleanVarsPre ∧
      t.realParameter = s.realParameter ∧
      t.integerParameter = s.integerParameter ∧
      t.booleanParameter = s.booleanParameter ∧
      t.timeValue = s.timeValue ∧
      t.storedRelations = s.storedRelations ∧
      t.relations = s.relations ∧
      t.noThrowAsserts = s.noThrowAsserts ∧
      t.assertLatch = s.assertLatch := by
  rw [oc_latch_eqFunction_134, tempScopeAssert_run _ _ _ s hnt]
  exact ⟨_, rfl, rfl, rfl, rfl, rfl, rfl, rfl, rfl, rfl, rfl, rfl, rfl, rfl, rfl⟩

/-- Assertion equation 135 in warning mode: the run completes with ok and
leaves every store component other than the log and the rethrow flag
unchanged. -/
theorem eqFunction_135_ok (s : State) (hnt : s.noThrowAsserts = true) :
    ∃ t, oc_latch_eqFunction_135 s = .ok t ∧
      t.realVars = s.realVars ∧
      t.booleanVars = s.booleanVars ∧
      t.realVars1 = s.realVars1 ∧
      t.realVarsPre = s.realVarsPre ∧
      t.booleanVarsPre = s.booleanVarsPre ∧
      t.realParameter = s.realParameter ∧
      t.integerParameter = s.integerParameter ∧
      t.booleanParameter = s.booleanParameter ∧
      t.timeValue = s.timeValue ∧
      t.storedRelations = s.storedRelations ∧
      t.relations = s.relations ∧
      t.noThrowAsserts = s.noThrowAsserts ∧
      t.assertLatch = s.assertLatch := by
  rw [oc_latch_eqFunction_135, tempScopeAssert_run _ _ _ s hnt]
  exact ⟨_, rfl, rfl, rfl, rfl, rfl, rfl, rfl, rfl, rfl, rfl, rfl, rfl, rfl, rfl⟩

/-- Assertion equation 136 in warning mode: the run completes with ok and
leaves every store component other than the log and the rethrow flag
unchanged. -/
theorem eqFunction_136_ok (s : State) (hnt : s.noThrowAsserts = true) :
    ∃ t, oc_latch_eqFunction_136 s = .ok t ∧
      t.realVars = s.realVars ∧
      t.booleanVars = s.booleanVars ∧
      t.realVars1 = s.realVars1 ∧
      t.realVarsPre = s.realVarsPre ∧
      t.booleanVarsPre = s.booleanVarsPre ∧
      t.realParameter = s.realParameter ∧
      t.integerParameter = s.integerParameter ∧
      t.booleanParameter = s.booleanParameter ∧
      t.timeValue = s.timeValue ∧
      t.storedRelations = s.storedRelations ∧
      t.relations = s.relations ∧
      t.noThrowAsserts = s.noThrowAsserts ∧
      t.assertLatch = s.assertLatch := by
  rw [oc_latch_eqFunction_136, tempScopeAssert_run _ _ _ s hnt]
  exact ⟨_, rfl, rfl, rfl, rfl, rfl, rfl, rfl, rfl, rfl, rfl, rfl, rfl, rfl, rfl⟩

/-- Assertion equation 137 in warning mode: the run completes with ok and
leaves every store component other than the log and the rethrow flag
unchanged. -/
theorem eqFunction_137_ok (s : State) (hnt : s.noThrowAsserts = true) :
    ∃ t, oc_latch_eqFunction_137 s = .ok t ∧
      t.realVars = s.realVars ∧
      t.booleanVars = s.booleanVars ∧
      t.realVars1 = s.realVars1 ∧
      t.realVarsPre = s.realVarsPre ∧
      t.booleanVarsPre = s.booleanVarsPre ∧
      t.realParameter = s.realParameter ∧
      t.integerParameter = s.integerParameter ∧
      t.booleanParameter = s.booleanParameter ∧
      t.timeValue = s.timeValue ∧
      t.storedRelations = s.storedRelations ∧
      t.relations = s.relations ∧
      t.noThrowAsserts = s.noThrowAsserts ∧
      t.assertLatch = s.assertLatch := by
  rw [oc_latch_eqFunction_137, tempScopeAssert_run _ _ _ s hnt]
  exact ⟨_, rfl, rfl, rfl, rfl, rfl, rfl, rfl, rfl, rfl, rfl, rfl, rfl, rfl, rfl⟩

/-- Assertion equation 138 in warning mode: the run completes with ok and
leaves every store component other than the log and the rethrow flag
unchanged. -/
theorem eqFunction_138_ok (s : State) (hnt : s.noThrowAsserts = true) :
    ∃ t, oc_latch_eqFunction_138 s = .ok t ∧
      t.realVars = s.realVars ∧
      t.booleanVars = s.booleanVars ∧
      t.realVars1 = s.realVars1 ∧
      t.realVarsPre = s.realVarsPre ∧
      t.booleanVarsPre = s.booleanVarsPre ∧
      t.realParameter = s.realParameter ∧
      t.integerParameter = s.integerParameter ∧
      t.booleanParameter = s.booleanParameter ∧
      t.timeValue = s.timeValue ∧
      t.storedRelations = s.storedRelations ∧
      t.relations = s.relations ∧
      t.noThrowAsserts = s.noThrowAsserts ∧
      t.assertLatch = s.assertLatch := by
  rw [oc_latch_eqFunction_138, tempScopeAssert_run _ _ _ s hnt]
  exact ⟨_, rfl, rfl, rfl, rfl, rfl, rfl, rfl, rfl, rfl, rfl, rfl, rfl, rfl, rfl⟩

/-- Assertion equation 139 in warning mode: the run completes with ok and
leaves every store component other than the log and the rethrow flag
unchanged. -/
theorem eqFunction_139_ok (s : State) (hnt : s.noThrowAsserts = true) :
    ∃ t, oc_latch_eqFunction_139 s = .ok t ∧
      t.realVars = s.realVars ∧
      t.booleanVars = s.booleanVars ∧
      t.realVars1 = s.realVars1 ∧
      t.realVarsPre = s.realVarsPre ∧
      t.booleanVarsPre = s.booleanVarsPre ∧
      t.realParameter = s.realParameter ∧
      t.integerParameter = s.integerParameter ∧
      t.booleanParameter = s.booleanParameter ∧
      t.timeValue = s.timeValue ∧
      t.storedRelations = s.storedRelations ∧
      t.relations = s.relations ∧
      t.noThrowAsserts = s.noThrowAsserts ∧
      t.assertLatch = s.assertLatch := by
  rw [oc_latch_eqFunction_139, tempScopeAssert_run _ _ _ s hnt]
  exact ⟨_, rfl, rfl, rfl, rfl, rfl, rfl, rfl, rfl, rfl, rfl, rfl, rfl, rfl, rfl⟩

/-- One run of the continuous/algebraic pass in warning mode with both
linear systems nonsingular completes with ok and satisfies the
input/output relation AlgSpec. -/
theorem functionAlg_run_spec (ext : ExtRuntime) (u : State)
    (h2 : ¬ lsResidualSlope 2 u = 0) (h3 : ¬ lsResidualSlope 3 u = 0)
    (hnt : u.noThrowAsserts = true) :
    ∃ w, oc_latch_functionAlgebraics ext specLinSolver u = .ok w ∧
      AlgSpec ext u w := by
  obtain ⟨k1, hk1⟩ : ∃ t : State, t = setLastEq 89 (oc_latch_eqFunction_89 ext u) := ⟨_, rfl⟩
  obtain ⟨k2, hk2⟩ : ∃ t : State, t = setLastEq 90 (oc_latch_eqFunction_90 ext k1) := ⟨_, rfl⟩
  obtain ⟨k3, hk3⟩ : ∃ t : State, t = setLastEq 91 (oc_latch_eqFunction_91 ext k2) := ⟨_, rfl⟩
  have hrvk3 : k3.realVars = u.realVars := by
    rw [hk3, alg91_step, mk_rv, hk2, alg90_step, mk_rv, hk1, alg89_step, mk_rv]
  have hrv1k3 : k3.realVars1 = u.realVars1 := by
    rw [hk3, alg91_step, mk_rv1, hk2, alg90_step, mk_rv1, hk1, alg89_step, mk_rv1]
  have hpark3 : k3.realParameter = u.realParameter := by
    rw [hk3, alg91_step, mk_par, hk2, alg90_step, mk_par, hk1, alg89_step, mk_par]
  have h48k3 : k3.realVars 48 = u.realVars 48 := by rw [hrvk3]
  have h51k3 : k3.realVars 51 = u.realVars 51 := by rw [hrvk3]
  have hp29k3 : k3.realParameter 29 = u.realParameter 29 := by rw [hpark3]
  have h2k3 : ¬ lsResidualSlope 2 k3 = 0 := by
    rw [lsResidualSlope2_congr k3 u h48k3 h51k3 hp29k3]; exact h2
  obtain ⟨k4, hk4, k4rv, k4bv, k4rv1, k4pre, k4bpre, k4par, k4ipar, k4bpar,
    k4time, k4stored, k4rels, k4nt, k4latch⟩ := eqFunction_98_ok k3 h2k3
  obtain ⟨k5, hk5⟩ : ∃ t : State, t = setLastEq 99 (oc_latch_eqFunction_99 (setLastEq 98 k4)) := ⟨_, rfl⟩
  obtain ⟨k6, hk6⟩ : ∃ t : State, t = setLastEq 100 (oc_latch_eqFunction_100 k5) := ⟨_, rfl⟩
  obtain ⟨k7, hk7⟩ : ∃ t : State, t = setLastEq 101 (oc_latch_eqFunction_101 k6) := ⟨_, rfl⟩
  obtain ⟨k8, hk8⟩ : ∃ t : State, t = setLastEq 102 (oc_latch_eqFunction_102 k7) := ⟨_, rfl⟩
  obtain ⟨k9, hk9⟩ : ∃ t : State, t = setLastEq 103 (oc_latch_eqFunction_103 k8) := ⟨_, rfl⟩
  obtain ⟨k10, hk10⟩ : ∃ t : State, t = setLastEq 104 (oc_latch_eqFunction_104 k9) := ⟨_, rfl⟩
  obtain ⟨k11, hk11⟩ : ∃ t : State, t = setLastEq 105 (oc_latch_eqFunction_105 k10) := ⟨_, rfl⟩
  obtain ⟨k12, hk12⟩ : ∃ t : State, t = setLastEq 107 (oc_latch_eqFunction_107 ext k11) := ⟨_, rfl⟩
  obtain ⟨k13, hk13⟩ : ∃ t : State, t = setLastEq 109 (oc_latch_eqFunction_109 k12) := ⟨_, rfl⟩
  obtain ⟨k14, hk14⟩ : ∃ t : State, t = setLastEq 110 (oc_latch_eqFunction_110 k13) := ⟨_, rfl⟩
  obtain ⟨k15, hk15⟩ : ∃ t : State, t = setLastEq 111 (oc_latch_eqFunction_111 k14) := ⟨_, rfl⟩
  obtain ⟨k16, hk16⟩ : ∃ t : State, t = setLastEq 112 (oc_latch_eqFunction_112 k15) := ⟨_, rfl⟩
  obtain ⟨k17, hk17⟩ : ∃ t : State, t = setLastEq 113 (oc_latch_eqFunction_113 k16) := ⟨_, rfl⟩
  obtain ⟨k18, hk18⟩ : ∃ t : State, t = setLastEq 114 (oc_latch_eqFunction_114 ext k17) := ⟨_, rfl⟩
  have hrv1k18 : k18.realVars1 = u.realVars1 := by
    rw [hk18, alg114_step, mk_rv1, hk17, alg113_step, mk_rv1, hk16, alg112_step, mk_rv1, hk15,
      alg111_step, mk_rv1, hk14, alg110_step, mk_rv1, hk13, alg109_step, mk_rv1, hk12,
      alg107_step, mk_rv1, hk11, alg105_step, mk_rv1, hk10, alg104_step, mk_rv1, hk9, alg103_step,
      mk_rv1, hk8, alg102_step, mk_rv1, hk7, alg101_step, mk_rv1, hk6, alg100_step, mk_rv1, hk5,
      alg99_step, mk_rv1, setLastEq_step, mk_rv1, k4rv1, hk3, alg91_step, mk_rv1, hk2, alg90_step,
      mk_rv1, hk1, alg89_step, mk_rv1]
  have hpark18 : k18.realParameter = u.realParameter := by
    rw [hk18, alg114_step, mk_par, hk17, alg113_step, mk_par, hk16, alg112_step, mk_par, hk15,
      alg111_step, mk_par, hk14, alg110_step, mk_par, hk13, alg109_step, mk_par, hk12,
      alg107_step, mk_par, hk11, alg105_step, mk_par, hk10, alg104_step, mk_par, hk9, alg103_step,
      mk_par, hk8, alg102_step, mk_par, hk7, alg101_step, mk_par, hk6, alg100_step, mk_par, hk5,
      alg99_step, mk_par, setLastEq_step, mk_par, k4par, hk3, alg91_step, mk_par, hk2, alg90_step,
      mk_par, hk1, alg89_step, mk_par]
  have h1k18 : k18.realVars 1 = u.realVars 1 := by
    rw [hk18, alg114_step, mk_rv, hk17, alg113_step, mk_rv, upd_neb _ 43 _ 1 rfl, hk16,
      alg112_step, mk_rv, upd_neb _ 45 _ 1 rfl, hk15, alg111_step, mk_rv, upd_neb _ 46 _ 1 rfl,
      hk14, alg110_step, mk_rv, upd_neb _ 38 _ 1 rfl, hk13, alg109_step, mk_rv,
      upd_neb _ 34 _ 1 rfl, hk12, alg107_step, mk_rv, upd_neb _ 10 _ 1 rfl, hk11, alg105_step,
      mk_rv, upd_neb _ 9 _ 1 rfl, hk10, alg104_step, mk_rv, hk9, alg103_step, mk_rv, hk8,
      alg102_step, mk_rv, hk7, alg101_step, mk_rv, hk6, alg100_step, mk_rv, upd_neb _ 50 _ 1 rfl,
      hk5, alg99_step, mk_rv, upd_neb _ 47 _ 1 rfl, setLastEq_step, mk_rv, k4rv,
      upd_neb _ 49 _ 1 rfl, hk3, alg91_step, mk_rv, hk2, alg90_step, mk_rv, hk1, alg89_step,
      mk_rv]
  have h4k18 : k18.realVars 4 = u.realVars 4 := by
    rw [hk18, alg114_step, mk_rv, hk17, alg113_step, mk_rv, upd_neb _ 43 _ 4 rfl, hk16,
      alg112_step, mk_rv, upd_neb _ 45 _ 4 rfl, hk15, alg111_step, mk_rv, upd_neb _ 46 _ 4 rfl,
      hk14, alg110_step, mk_rv, upd_neb _ 38 _ 4 rfl, hk13, alg109_step, mk_rv,
      upd_neb _ 34 _ 4 rfl, hk12, alg107_step, mk_rv, upd_neb _ 10 _ 4 rfl, hk11, alg105_step,
      mk_rv, upd_neb _ 9 _ 4 rfl, hk10, alg104_step, mk_rv, hk9, alg103_step, mk_rv, hk8,
      alg102_step, mk_rv, hk7, alg101_step, mk_rv, hk6, alg100_step, mk_rv, upd_neb _ 50 _ 4 rfl,
      hk5, alg99_step, mk_rv, upd_neb _ 47 _ 4 rfl, setLastEq_step, mk_rv, k4rv,
      upd_neb _ 49 _ 4 rfl, hk3, alg91_step, mk_rv, hk2, alg90_step, mk_rv, hk1, alg89_step,
      mk_rv]
  have hp29k18 : k18.realParameter 29 = u.realParameter 29 := by rw [hpark18]
  have h3k18 : ¬ lsResidualSlope 3 k18 = 0 := by
    rw [lsResidualSlope3_congr k18 u h1k18 h4k18 hp29k18]; exact h3
  obtain ⟨k19, hk19, k19rv, k19bv, k19rv1, k19pre, k19bpre, k19par, k19ipar,
    k19bpar, k19time, k19stored, k19rels, k19nt, k19latch⟩ := eqFunction_121_ok k18 h3k18
  obtain ⟨k20, hk20⟩ : ∃ t : State, t = setLastEq 122 (oc_latch_eqFunction_122 (setLastEq 121 k19)) := ⟨_, rfl⟩
  obtain ⟨k21, hk21⟩ : ∃ t : State, t = setLastEq 123 (oc_latch_eqFunction_123 k20) := ⟨_, rfl⟩
  obtain ⟨k22, hk22⟩ : ∃ t : State, t = setLastEq 124 (oc_latch_eqFunction_124 k21) := ⟨_, rfl⟩
  obtain ⟨k23, hk23⟩ : ∃ t : State, t = setLastEq 125 (oc_latch_eqFunction_125 k22) := ⟨_, rfl⟩
  obtain ⟨k24, hk24⟩ : ∃ t : State, t = setLastEq 126 (oc_latch_eqFunction_126 k23) := ⟨_, rfl⟩
  obtain ⟨k25, hk25⟩ : ∃ t : State, t = setLastEq 127 (oc_latch_eqFunction_127 k24) := ⟨_, rfl⟩
  obtain ⟨k26, hk26⟩ : ∃ t : State, t = setLastEq 128 (oc_latch_eqFunction_128 ext k25) := ⟨_, rfl⟩
  obtain ⟨k27, hk27⟩ : ∃ t : State, t = setLastEq 129 (oc_latch_eqFunction_129 k26) := ⟨_, rfl⟩
  obtain ⟨k28, hk28⟩ : ∃ t : State, t = setLastEq 130 (oc_latch_eqFunction_130 k27) := ⟨_, rfl⟩
  obtain ⟨k29, hk29⟩ : ∃ t : State, t = setLastEq 131 (oc_latch_eqFunction_131 k28) := ⟨_, rfl⟩
  obtain ⟨k30, hk30⟩ : ∃ t : State, t = setLastEq 132 (oc_latch_eqFunction_132 k29) := ⟨_, rfl⟩
  obtain ⟨k31, hk31⟩ : ∃ t : State, t = setLastEq 133 (oc_latch_eqFunction_133 k30) := ⟨_, rfl⟩
  have nt31 : k31.noThrowAsserts = true := by
    rw [hk31, alg133_step, mk_nt, hk30, alg132_step, mk_nt, hk29, alg131_step, mk_nt, hk28,
      alg130_step, mk_nt, hk27, alg129_step, mk_nt, hk26, alg128_step, mk_nt, hk25, alg127_step,
      mk_nt, hk24, alg126_step, mk_nt, hk23, alg125_step, mk_nt, hk22, alg124_step, mk_nt, hk21,
      alg123_step, mk_nt, hk20, alg122_step, mk_nt, setLastEq_step, mk_nt, k19nt, hk18,
      alg114_step, mk_nt, hk17, alg113_step, mk_nt, hk16, alg112_step, mk_nt, hk15, alg111_step,
      mk_nt, hk14, alg110_step, mk_nt, hk13, alg109_step, mk_nt, hk12, alg107_step, mk_nt, hk11,
      alg105_step, mk_nt, hk10, alg104_step, mk_nt, hk9, alg103_step, mk_nt, hk8, alg102_step,
      mk_nt, hk7, alg101_step, mk_nt, hk6, alg100_step, mk_nt, hk5, alg99_step, mk_nt,
      setLastEq_step, mk_nt, k4nt, hk3, alg91_step, mk_nt, hk2, alg90_step, mk_nt, hk1,
      alg89_step, mk_nt, hnt]
  obtain ⟨k32, hk32, k32rv, k32bv, k32rv1, k32pre, k32bpre, k32par, k32ipar, k32bpar, k32time, k32stored, k32rels, k32nt, k32latch⟩ :=
    eqFunction_134_ok k31 nt31
  have nt32 : (setLastEq 134 k32).noThrowAsserts = true := by
    rw [setLastEq_step, mk_nt, k32nt, nt31]
  obtain ⟨k33, hk33, k33rv, k33bv, k33rv1, k33pre, k33bpre, k33par, k33ipar, k33bpar, k33time, k33stored, k33rels, k33nt, k33latch⟩ :=
    eqFunction_135_ok (setLastEq 134 k32) nt32
  have nt33 : (setLastEq 135 k33).noThrowAsserts = true := by
    rw [setLastEq_step, mk_nt, k33nt, nt32]
  obtain ⟨k34, hk34, k34rv, k34bv, k34rv1, k34pre, k34bpre, k34par, k34ipar, k34bpar, k34time, k34stored, k34rels, k34nt, k34latch⟩ :=
    eqFunction_136_ok (setLastEq 135 k33) nt33
  have nt34 : (setLastEq 136 k34).noThrowAsserts = true := by
    rw [setLastEq_step, mk_nt, k34nt, nt33]
  obtain ⟨k35, hk35, k35rv, k35bv, k35rv1, k35pre, k35bpre, k35par, k35ipar, k35bpar, k35time, k35stored, k35rels, k35nt, k35latch⟩ :=
    eqFunction_137_ok (setLastEq 136 k34) nt34
  have nt35 : (setLastEq 137 k35).noThrowAsserts = true := by
    rw [setLastEq_step, mk_nt, k35nt, nt34]
  obtain ⟨k36, hk36, k36rv, k36bv, k36rv1, k36pre, k36bpre, k36par, k36ipar, k36bpar, k36time, k36stored, k36rels, k36nt, k36latch⟩ :=
    eqFunction_138_ok (setLastEq 137 k35) nt35
  have nt36 : (setLastEq 138 k36).noThrowAsserts = true := by
    rw [setLastEq_step, mk_nt, k36nt, nt35]
  obtain ⟨k37, hk37, k37rv, k37bv, k37rv1, k37pre, k37bpre, k37par, k37ipar, k37bpar, k37time, k37stored, k37rels, k37nt, k37latch⟩ :=
    eqFunction_139_ok (setLastEq 138 k36) nt36
  have fr2_time : k1.timeValue = u.timeValue := by
    rw [hk1, alg89_step, mk_time]
  have fr2_stored : k1.storedRelations = u.storedRelations := by
    rw [hk1, alg89_step, mk_stored]
  have fr3_time : k2.timeValue = u.timeValue := by
    rw [hk2, alg90_step, mk_time, hk1, alg89_step, mk_time]
  have fr3_stored : k2.storedRelations = u.storedRelations := by
    rw [hk2, alg90_step, mk_stored, hk1, alg89_step, mk_stored]
  have r5_rv49 : k4.realVars 49 = u.realVars1 49 - lsResidualValue 2 u (u.realVars1 49) / lsResidualSlope 2 u := by
    rw [k4rv, upd_same, hrv1k3, lsResidualValue2_congr k3 u h48k3 h51k3 hp29k3,
      lsResidualSlope2_congr k3 u h48k3 h51k3 hp29k3]
  have r5_rv52 : k4.realVars 52 = u.realVars 52 := by
    rw [k4rv, upd_neb _ 49 _ 52 rfl, hk3, alg91_step, mk_rv, hk2, alg90_step, mk_rv, hk1,
      alg89_step, mk_rv]
  have r6_rv53 : k5.realVars 53 = u.realVars 53 := by
    rw [hk5, alg99_step, mk_rv, upd_neb _ 47 _ 53 rfl, setLastEq_step, mk_rv, k4rv,
      upd_neb _ 49 _ 53 rfl, hk3, alg91_step, mk_rv, hk2, alg90_step, mk_rv, hk1, alg89_step,
      mk_rv]
  have r6_rv52 : k5.realVars 52 = u.realVars 52 := by
    rw [hk5, alg99_step, mk_rv, upd_neb _ 47 _ 52 rfl, setLastEq_step, mk_rv, k4rv,
      upd_neb _ 49 _ 52 rfl, hk3, alg91_step, mk_rv, hk2, alg90_step, mk_rv, hk1, alg89_step,
      mk_rv]
  have fr7_bpre : k6.booleanVarsPre = u.booleanVarsPre := by
    rw [hk6, alg100_step, mk_bpre, hk5, alg99_step, mk_bpre, setLastEq_step, mk_bpre, k4bpre, hk3,
      alg91_step, mk_bpre, hk2, alg90_step, mk_bpre, hk1, alg89_step, mk_bpre]
  have fr8_bpre : k7.booleanVarsPre = u.booleanVarsPre := by
    rw [hk7, alg101_step, mk_bpre, hk6, alg100_step, mk_bpre, hk5, alg99_step, mk_bpre,
      setLastEq_step, mk_bpre, k4bpre, hk3, alg91_step, mk_bpre, hk2, alg90_step, mk_bpre, hk1,
      alg89_step, mk_bpre]
  have r9_bv5 : k8.booleanVars 5 = u.booleanVarsPre 8 := by
    rw [hk8, alg102_step, mk_bv, upd_same, fr8_bpre]
  have r9_bv10 : k8.booleanVars 10 = u.booleanVarsPre 9 := by
    rw [hk8, alg102_step, mk_bv, upd_neb _ 5 _ 10 rfl, hk7, alg101_step, mk_bv, upd_same,
      fr7_bpre]
  have r10_bv1 : k9.booleanVars 1 = !((u.booleanVarsPre 8) || (u.booleanVarsPre 9)) := by
    rw [hk9, alg103_step, mk_bv, upd_same, r9_bv5, r9_bv10]
  have r10_bv2 : k9.booleanVars 2 = (ext.relationhysteresis .lessEq u.timeValue 0.1 (u.storedRelations 2) || ext.relationhysteresis .greaterEq u.timeValue 0.9 (u.storedRelations 3)) := by
    rw [hk9, alg103_step, mk_bv, upd_neb _ 1 _ 2 rfl, hk8, alg102_step, mk_bv,
      upd_neb _ 5 _ 2 rfl, hk7, alg101_step, mk_bv, upd_neb _ 10 _ 2 rfl, hk6, alg100_step, mk_bv,
      hk5, alg99_step, mk_bv, setLastEq_step, mk_bv, k4bv, hk3, alg91_step, mk_bv, upd_same,
      fr3_time, fr3_stored]
  have fr11_time : k10.timeValue = u.timeValue := by
    rw [hk10, alg104_step, mk_time, hk9, alg103_step, mk_time, hk8, alg102_step, mk_time, hk7,
      alg101_step, mk_time, hk6, alg100_step, mk_time, hk5, alg99_step, mk_time, setLastEq_step,
      mk_time, k4time, hk3, alg91_step, mk_time, hk2, alg90_step, mk_time, hk1, alg89_step,
      mk_time]
  have r12_rv9 : k11.realVars 9 = u.timeValue := by
    rw [hk11, alg105_step, mk_rv, upd_same, fr11_time]
  have r12_rv57 : k11.realVars 57 = u.realVars 57 := by
    rw [hk11, alg105_step, mk_rv, upd_neb _ 9 _ 57 rfl, hk10, alg104_step, mk_rv, hk9,
      alg103_step, mk_rv, hk8, alg102_step, mk_rv, hk7, alg101_step, mk_rv, hk6, alg100_step,
      mk_rv, upd_neb _ 50 _ 57 rfl, hk5, alg99_step, mk_rv, upd_neb _ 47 _ 57 rfl, setLastEq_step,
      mk_rv, k4rv, upd_neb _ 49 _ 57 rfl, hk3, alg91_step, mk_rv, hk2, alg90_step, mk_rv, hk1,
      alg89_step, mk_rv]
  have fr12_pre : k11.realVarsPre = u.realVarsPre := by
    rw [hk11, alg105_step, mk_pre, hk10, alg104_step, mk_pre, hk9, alg103_step, mk_pre, hk8,
      alg102_step, mk_pre, hk7, alg101_step, mk_pre, hk6, alg100_step, mk_pre, hk5, alg99_step,
      mk_pre, setLastEq_step, mk_pre, k4pre, hk3, alg91_step, mk_pre, hk2, alg90_step, mk_pre,
      hk1, alg89_step, mk_pre]
  have r13_rv10 : k12.realVars 10 = ext.getTimeTableValueNoDer ((u.timeValue)) (u.realVars 57) (u.realVarsPre 57) := by
    rw [hk12, alg107_step, mk_rv, upd_same, r12_rv9, r12_rv57, fr12_pre]
  have r13_rv53 : k12.realVars 53 = u.realVars 53 := by
    rw [hk12, alg107_step, mk_rv, upd_neb _ 10 _ 53 rfl, hk11, alg105_step, mk_rv,
      upd_neb _ 9 _ 53 rfl, hk10, alg104_step, mk_rv, hk9, alg103_step, mk_rv, hk8, alg102_step,
      mk_rv, hk7, alg101_step, mk_rv, hk6, alg100_step, mk_rv, upd_neb _ 50 _ 53 rfl, hk5,
      alg99_step, mk_rv, upd_neb _ 47 _ 53 rfl, setLastEq_step, mk_rv, k4rv,
      upd_neb _ 49 _ 53 rfl, hk3, alg91_step, mk_rv, hk2, alg90_step, mk_rv, hk1, alg89_step,
      mk_rv]
  have r14_rv30 : k13.realVars 30 = u.realVars 30 := by
    rw [hk13, alg109_step, mk_rv, upd_neb _ 34 _ 30 rfl, hk12, alg107_step, mk_rv,
      upd_neb _ 10 _ 30 rfl, hk11, alg105_step, mk_rv, upd_neb _ 9 _ 30 rfl, hk10, alg104_step,
      mk_rv, hk9, alg103_step, mk_rv, hk8, alg102_step, mk_rv, hk7, alg101_step, mk_rv, hk6,
      alg100_step, mk_rv, upd_neb _ 50 _ 30 rfl, hk5, alg99_step, mk_rv, upd_neb _ 47 _ 30 rfl,
      setLastEq_step, mk_rv, k4rv, upd_neb _ 49 _ 30 rfl, hk3, alg91_step, mk_rv, hk2, alg90_step,
      mk_rv, hk1, alg89_step, mk_rv]
  have r14_rv34 : k13.realVars 34 = (ext.getTimeTableValueNoDer ((u.timeValue)) (u.realVars 57) (u.realVarsPre 57)) - u.realVars 53 := by
    rw [hk13, alg109_step, mk_rv, upd_same, r13_rv10, r13_rv53]
  have r14_rv31 : k13.realVars 31 = u.realVars 31 := by
    rw [hk13, alg109_step, mk_rv, upd_neb _ 34 _ 31 rfl, hk12, alg107_step, mk_rv,
      upd_neb _ 10 _ 31 rfl, hk11, alg105_step, mk_rv, upd_neb _ 9 _ 31 rfl, hk10, alg104_step,
      mk_rv, hk9, alg103_step, mk_rv, hk8, alg102_step, mk_rv, hk7, alg101_step, mk_rv, hk6,
      alg100_step, mk_rv, upd_neb _ 50 _ 31 rfl, hk5, alg99_step, mk_rv, upd_neb _ 47 _ 31 rfl,
      setLastEq_step, mk_rv, k4rv, upd_neb _ 49 _ 31 rfl, hk3, alg91_step, mk_rv, hk2, alg90_step,
      mk_rv, hk1, alg89_step, mk_rv]
  have fr14_par : k13.realParameter = u.realParameter := by
    rw [hk13, alg109_step, mk_par, hk12, alg107_step, mk_par, hk11, alg105_step, mk_par, hk10,
      alg104_step, mk_par, hk9, alg103_step, mk_par, hk8, alg102_step, mk_par, hk7, alg101_step,
      mk_par, hk6, alg100_step, mk_par, hk5, alg99_step, mk_par, setLastEq_step, mk_par, k4par,
      hk3, alg91_step, mk_par, hk2, alg90_step, mk_par, hk1, alg89_step, mk_par]
  have r15_rv38 : k14.realVars 38 = 0.5 * u.realParameter 29 + u.realVars 30 * (((ext.getTimeTableValueNoDer ((u.timeValue)) (u.realVars 57) (u.realVarsPre 57)) - u.realVars 53) / (1 + u.realVars 30 * (if qLess (u.realVars 31 * ((ext.getTimeTableValueNoDer ((u.timeValue)) (u.realVars 57) (u.realVarsPre 57)) - u.realVars 53)) 0 then (-u.realVars 31) * ((ext.getTimeTableValueNoDer ((u.timeValue)) (u.realVars 57) (u.realVarsPre 57)) - u.realVars 53) else u.realVars 31 * ((ext.getTimeTableValueNoDer ((u.timeValue)) (u.realVars 57) (u.realVarsPre 57)) - u.realVars 53)))) := by
    rw [hk14, alg110_step, mk_rv, upd_same, r14_rv30, r14_rv34, r14_rv31, fr14_par]
  have fr15_par : k14.realParameter = u.realParameter := by
    rw [hk14, alg110_step, mk_par, hk13, alg109_step, mk_par, hk12, alg107_step, mk_par, hk11,
      alg105_step, mk_par, hk10, alg104_step, mk_par, hk9, alg103_step, mk_par, hk8, alg102_step,
      mk_par, hk7, alg101_step, mk_par, hk6, alg100_step, mk_par, hk5, alg99_step, mk_par,
      setLastEq_step, mk_par, k4par, hk3, alg91_step, mk_par, hk2, alg90_step, mk_par, hk1,
      alg89_step, mk_par]
  have r16_rv46 : k15.realVars 46 = u.realParameter 29 - (0.5 * u.realParameter 29 + u.realVars 30 * (((ext.getTimeTableValueNoDer ((u.timeValue)) (u.realVars 57) (u.realVarsPre 57)) - u.realVars 53) / (1 + u.realVars 30 * (if qLess (u.realVars 31 * ((ext.getTimeTableValueNoDer ((u.timeValue)) (u.realVars 57) (u.realVarsPre 57)) - u.realVars 53)) 0 then (-u.realVars 31) * ((ext.getTimeTableValueNoDer ((u.timeValue)) (u.realVars 57) (u.realVarsPre 57)) - u.realVars 53) else u.realVars 31 * ((ext.getTimeTableValueNoDer ((u.timeValue)) (u.realVars 57) (u.realVarsPre 57)) - u.realVars 53))))) := by
    rw [hk15, alg111_step, mk_rv, upd_same, r15_rv38, fr15_par]
  have r16_rv44 : k15.realVars 44 = u.realVars 44 := by
    rw [hk15, alg111_step, mk_rv, upd_neb _ 46 _ 44 rfl, hk14, alg110_step, mk_rv,
      upd_neb _ 38 _ 44 rfl, hk13, alg109_step, mk_rv, upd_neb _ 34 _ 44 rfl, hk12, alg107_step,
      mk_rv, upd_neb _ 10 _ 44 rfl, hk11, alg105_step, mk_rv, upd_neb _ 9 _ 44 rfl, hk10,
      alg104_step, mk_rv, hk9, alg103_step, mk_rv, hk8, alg102_step, mk_rv, hk7, alg101_step,
      mk_rv, hk6, alg100_step, mk_rv, upd_neb _ 50 _ 44 rfl, hk5, alg99_step, mk_rv,
      upd_neb _ 47 _ 44 rfl, setLastEq_step, mk_rv, k4rv, upd_neb _ 49 _ 44 rfl, hk3, alg91_step,
      mk_rv, hk2, alg90_step, mk_rv, hk1, alg89_step, mk_rv]
  have r17_rv46 : k16.realVars 46 = u.realParameter 29 - (0.5 * u.realParameter 29 + u.realVars 30 * (((ext.getTimeTableValueNoDer ((u.timeValue)) (u.realVars 57) (u.realVarsPre 57)) - u.realVars 53) / (1 + u.realVars 30 * (if qLess (u.realVars 31 * ((ext.getTimeTableValueNoDer ((u.timeValue)) (u.realVars 57) (u.realVarsPre 57)) - u.realVars 53)) 0 then (-u.realVars 31) * ((ext.getTimeTableValueNoDer ((u.timeValue)) (u.realVars 57) (u.realVarsPre 57)) - u.realVars 53) else u.realVars 31 * ((ext.getTimeTableValueNoDer ((u.timeValue)) (u.realVars 57) (u.realVarsPre 57)) - u.realVars 53))))) := by
    rw [hk16, alg112_step, mk_rv, upd_neb _ 45 _ 46 rfl, hk15, alg111_step, mk_rv, upd_same,
      r15_rv38, fr15_par]
  have r17_rv45 : k16.realVars 45 = (u.realParameter 29 - (0.5 * u.realParameter 29 + u.realVars 30 * (((ext.getTimeTableValueNoDer ((u.timeValue)) (u.realVars 57) (u.realVarsPre 57)) - u.realVars 53) / (1 + u.realVars 30 * (if qLess (u.realVars 31 * ((ext.getTimeTableValueNoDer ((u.timeValue)) (u.realVars 57) (u.realVarsPre 57)) - u.realVars 53)) 0 then (-u.realVars 31) * ((ext.getTimeTableValueNoDer ((u.timeValue)) (u.realVars 57) (u.realVarsPre 57)) - u.realVars 53) else u.realVars 31 * ((ext.getTimeTableValueNoDer ((u.timeValue)) (u.realVars 57) (u.realVarsPre 57)) - u.realVars 53)))))) / u.realVars 44 := by
    rw [hk16, alg112_step, mk_rv, upd_same, r16_rv46, r16_rv44]
  have r18_rv38 : k17.realVars 38 = 0.5 * u.realParameter 29 + u.realVars 30 * (((ext.getTimeTableValueNoDer ((u.timeValue)) (u.realVars 57) (u.realVarsPre 57)) - u.realVars 53) / (1 + u.realVars 30 * (if qLess (u.realVars 31 * ((ext.getTimeTableValueNoDer ((u.timeValue)) (u.realVars 57) (u.realVarsPre 57)) - u.realVars 53)) 0 then (-u.realVars 31) * ((ext.getTimeTableValueNoDer ((u.timeValue)) (u.realVars 57) (u.realVarsPre 57)) - u.realVars 53) else u.realVars 31 * ((ext.getTimeTableValueNoDer ((u.timeValue)) (u.realVars 57) (u.realVarsPre 57)) - u.realVars 53)))) := by
    rw [hk17, alg113_step, mk_rv, upd_neb _ 43 _ 38 rfl, hk16, alg112_step, mk_rv,
      upd_neb _ 45 _ 38 rfl, hk15, alg111_step, mk_rv, upd_neb _ 46 _ 38 rfl, hk14, alg110_step,
      mk_rv, upd_same, r14_rv30, r14_rv34, r14_rv31, fr14_par]
  have fr18_par : k17.realParameter = u.realParameter := by
    rw [hk17, alg113_step, mk_par, hk16, alg112_step, mk_par, hk15, alg111_step, mk_par, hk14,
      alg110_step, mk_par, hk13, alg109_step, mk_par, hk12, alg107_step, mk_par, hk11,
      alg105_step, mk_par, hk10, alg104_step, mk_par, hk9, alg103_step, mk_par, hk8, alg102_step,
      mk_par, hk7, alg101_step, mk_par, hk6, alg100_step, mk_par, hk5, alg99_step, mk_par,
      setLastEq_step, mk_par, k4par, hk3, alg91_step, mk_par, hk2, alg90_step, mk_par, hk1,
      alg89_step, mk_par]
  have fr18_stored : k17.storedRelations = u.storedRelations := by
    rw [hk17, alg113_step, mk_stored, hk16, alg112_step, mk_stored, hk15, alg111_step, mk_stored,
      hk14, alg110_step, mk_stored, hk13, alg109_step, mk_stored, hk12, alg107_step, mk_stored,
      hk11, alg105_step, mk_stored, hk10, alg104_step, mk_stored, hk9, alg103_step, mk_stored,
      hk8, alg102_step, mk_stored, hk7, alg101_step, mk_stored, hk6, alg100_step, mk_stored, hk5,
      alg99_step, mk_stored, setLastEq_step, mk_stored, k4stored, hk3, alg91_step, mk_stored, hk2,
      alg90_step, mk_stored, hk1, alg89_step, mk_stored]
  have r20_rv2 : k19.realVars 2 = u.realVars 2 := by
    rw [k19rv, upd_neb _ 5 _ 2 rfl, hk18, alg114_step, mk_rv, hk17, alg113_step, mk_rv,
      upd_neb _ 43 _ 2 rfl, hk16, alg112_step, mk_rv, upd_neb _ 45 _ 2 rfl, hk15, alg111_step,
      mk_rv, upd_neb _ 46 _ 2 rfl, hk14, alg110_step, mk_rv, upd_neb _ 38 _ 2 rfl, hk13,
      alg109_step, mk_rv, upd_neb _ 34 _ 2 rfl, hk12, alg107_step, mk_rv, upd_neb _ 10 _ 2 rfl,
      hk11, alg105_step, mk_rv, upd_neb _ 9 _ 2 rfl, hk10, alg104_step, mk_rv, hk9, alg103_step,
      mk_rv, hk8, alg102_step, mk_rv, hk7, alg101_step, mk_rv, hk6, alg100_step, mk_rv,
      upd_neb _ 50 _ 2 rfl, hk5, alg99_step, mk_rv, upd_neb _ 47 _ 2 rfl, setLastEq_step, mk_rv,
      k4rv, upd_neb _ 49 _ 2 rfl, hk3, alg91_step, mk_rv, hk2, alg90_step, mk_rv, hk1, alg89_step,
      mk_rv]
  have r20_rv5 : k19.realVars 5 = u.realVars1 5 - lsResidualValue 3 u (u.realVars1 5) / lsResidualSlope 3 u := by
    rw [k19rv, upd_same, hrv1k18, lsResidualValue3_congr k18 u h1k18 h4k18 hp29k18,
      lsResidualSlope3_congr k18 u h1k18 h4k18 hp29k18]
  have r21_rv6 : k20.realVars 6 = u.realVars 6 := by
    rw [hk20, alg122_step, mk_rv, upd_neb _ 0 _ 6 rfl, setLastEq_step, mk_rv, k19rv,
      upd_neb _ 5 _ 6 rfl, hk18, alg114_step, mk_rv, hk17, alg113_step, mk_rv,
      upd_neb _ 43 _ 6 rfl, hk16, alg112_step, mk_rv, upd_neb _ 45 _ 6 rfl, hk15, alg111_step,
      mk_rv, upd_neb _ 46 _ 6 rfl, hk14, alg110_step, mk_rv, upd_neb _ 38 _ 6 rfl, hk13,
      alg109_step, mk_rv, upd_neb _ 34 _ 6 rfl, hk12, alg107_step, mk_rv, upd_neb _ 10 _ 6 rfl,
      hk11, alg105_step, mk_rv, upd_neb _ 9 _ 6 rfl, hk10, alg104_step, mk_rv, hk9, alg103_step,
      mk_rv, hk8, alg102_step, mk_rv, hk7, alg101_step, mk_rv, hk6, alg100_step, mk_rv,
      upd_neb _ 50 _ 6 rfl, hk5, alg99_step, mk_rv, upd_neb _ 47 _ 6 rfl, setLastEq_step, mk_rv,
      k4rv, upd_neb _ 49 _ 6 rfl, hk3, alg91_step, mk_rv, hk2, alg90_step, mk_rv, hk1, alg89_step,
      mk_rv]
  have r21_rv10 : k20.realVars 10 = ext.getTimeTableValueNoDer ((u.timeValue)) (u.realVars 57) (u.realVarsPre 57) := by
    rw [hk20, alg122_step, mk_rv, upd_neb _ 0 _ 10 rfl, setLastEq_step, mk_rv, k19rv,
      upd_neb _ 5 _ 10 rfl, hk18, alg114_step, mk_rv, hk17, alg113_step, mk_rv,
      upd_neb _ 43 _ 10 rfl, hk16, alg112_step, mk_rv, upd_neb _ 45 _ 10 rfl, hk15, alg111_step,
      mk_rv, upd_neb _ 46 _ 10 rfl, hk14, alg110_step, mk_rv, upd_neb _ 38 _ 10 rfl, hk13,
      alg109_step, mk_rv, upd_neb _ 34 _ 10 rfl, hk12, alg107_step, mk_rv, upd_same, r12_rv9,
      r12_rv57, fr12_pre]
  have r22_rv23 : k21.realVars 23 = u.realVars 23 := by
    rw [hk21, alg123_step, mk_rv, upd_neb _ 27 _ 23 rfl, hk20, alg122_step, mk_rv,
      upd_neb _ 0 _ 23 rfl, setLastEq_step, mk_rv, k19rv, upd_neb _ 5 _ 23 rfl, hk18, alg114_step,
      mk_rv, hk17, alg113_step, mk_rv, upd_neb _ 43 _ 23 rfl, hk16, alg112_step, mk_rv,
      upd_neb _ 45 _ 23 rfl, hk15, alg111_step, mk_rv, upd_neb _ 46 _ 23 rfl, hk14, alg110_step,
      mk_rv, upd_neb _ 38 _ 23 rfl, hk13, alg109_step, mk_rv, upd_neb _ 34 _ 23 rfl, hk12,
      alg107_step, mk_rv, upd_neb _ 10 _ 23 rfl, hk11, alg105_step, mk_rv, upd_neb _ 9 _ 23 rfl,
      hk10, alg104_step, mk_rv, hk9, alg103_step, mk_rv, hk8, alg102_step, mk_rv, hk7,
      alg101_step, mk_rv, hk6, alg100_step, mk_rv, upd_neb _ 50 _ 23 rfl, hk5, alg99_step, mk_rv,
      upd_neb _ 47 _ 23 rfl, setLastEq_step, mk_rv, k4rv, upd_neb _ 49 _ 23 rfl, hk3, alg91_step,
      mk_rv, hk2, alg90_step, mk_rv, hk1, alg89_step, mk_rv]
  have r22_rv27 : k21.realVars 27 = u.realVars 6 - (ext.getTimeTableValueNoDer ((u.timeValue)) (u.realVars 57) (u.realVarsPre 57)) := by
    rw [hk21, alg123_step, mk_rv, upd_same, r21_rv6, r21_rv10]
  have r22_rv24 : k21.realVars 24 = u.realVars 24 := by
    rw [hk21, alg123_step, mk_rv, upd_neb _ 27 _ 24 rfl, hk20, alg122_step, mk_rv,
      upd_neb _ 0 _ 24 rfl, setLastEq_step, mk_rv, k19rv, upd_neb _ 5 _ 24 rfl, hk18, alg114_step,
      mk_rv, hk17, alg113_step, mk_rv, upd_neb _ 43 _ 24 rfl, hk16, alg112_step, mk_rv,
      upd_neb _ 45 _ 24 rfl, hk15, alg111_step, mk_rv, upd_neb _ 46 _ 24 rfl, hk14, alg110_step,
      mk_rv, upd_neb _ 38 _ 24 rfl, hk13, alg109_step, mk_rv, upd_neb _ 34 _ 24 rfl, hk12,
      alg107_step, mk_rv, upd_neb _ 10 _ 24 rfl, hk11, alg105_step, mk_rv, upd_neb _ 9 _ 24 rfl,
      hk10, alg104_step, mk_rv, hk9, alg103_step, mk_rv, hk8, alg102_step, mk_rv, hk7,
      alg101_step, mk_rv, hk6, alg100_step, mk_rv, upd_neb _ 50 _ 24 rfl, hk5, alg99_step, mk_rv,
      upd_neb _ 47 _ 24 rfl, setLastEq_step, mk_rv, k4rv, upd_neb _ 49 _ 24 rfl, hk3, alg91_step,
      mk_rv, hk2, alg90_step, mk_rv, hk1, alg89_step, mk_rv]
  have fr22_par : k21.realParameter = u.realParameter := by
    rw [hk21, alg123_step, mk_par, hk20, alg122_step, mk_par, setLastEq_step, mk_par, k19par,
      hk18, alg114_step, mk_par, hk17, alg113_step, mk_par, hk16, alg112_step, mk_par, hk15,
      alg111_step, mk_par, hk14, alg110_step, mk_par, hk13, alg109_step, mk_par, hk12,
      alg107_step, mk_par, hk11, alg105_step, mk_par, hk10, alg104_step, mk_par, hk9, alg103_step,
      mk_par, hk8, alg102_step, mk_par, hk7, alg101_step, mk_par, hk6, alg100_step, mk_par, hk5,
      alg99_step, mk_par, setLastEq_step, mk_par, k4par, hk3, alg91_step, mk_par, hk2, alg90_step,
      mk_par, hk1, alg89_step, mk_par]
  have r23_rv36 : k22.realVars 36 = 0.5 * u.realParameter 29 + u.realVars 23 * ((u.realVars 6 - (ext.getTimeTableValueNoDer ((u.timeValue)) (u.realVars 57) (u.realVarsPre 57))) / (1 + u.realVars 23 * (if qLess (u.realVars 24 * (u.realVars 6 - (ext.getTimeTableValueNoDer ((u.timeValue)) (u.realVars 57) (u.realVarsPre 57)))) 0 then (-u.realVars 24) * (u.realVars 6 - (ext.getTimeTableValueNoDer ((u.timeValue)) (u.realVars 57) (u.realVarsPre 57))) else u.realVars 24 * (u.realVars 6 - (ext.getTimeTableValueNoDer ((u.timeValue)) (u.realVars 57) (u.realVarsPre 57)))))) := by
    rw [hk22, alg124_step, mk_rv, upd_same, r22_rv23, r22_rv27, r22_rv24, fr22_par]
  have fr23_par : k22.realParameter = u.realParameter := by
    rw [hk22, alg124_step, mk_par, hk21, alg123_step, mk_par, hk20, alg122_step, mk_par,
      setLastEq_step, mk_par, k19par, hk18, alg114_step, mk_par, hk17, alg113_step, mk_par, hk16,
      alg112_step, mk_par, hk15, alg111_step, mk_par, hk14, alg110_step, mk_par, hk13,
      alg109_step, mk_par, hk12, alg107_step, mk_par, hk11, alg105_step, mk_par, hk10,
      alg104_step, mk_par, hk9, alg103_step, mk_par, hk8, alg102_step, mk_par, hk7, alg101_step,
      mk_par, hk6, alg100_step, mk_par, hk5, alg99_step, mk_par, setLastEq_step, mk_par, k4par,
      hk3, alg91_step, mk_par, hk2, alg90_step, mk_par, hk1, alg89_step, mk_par]
  have r24_rv42 : k23.realVars 42 = u.realParameter 29 - (0.5 * u.realParameter 29 + u.realVars 23 * ((u.realVars 6 - (ext.getTimeTableValueNoDer ((u.timeValue)) (u.realVars 57) (u.realVarsPre 57))) / (1 + u.realVars 23 * (if qLess (u.realVars 24 * (u.realVars 6 - (ext.getTimeTableValueNoDer ((u.timeValue)) (u.realVars 57) (u.realVarsPre 57)))) 0 then (-u.realVars 24) * (u.realVars 6 - (ext.getTimeTableValueNoDer ((u.timeValue)) (u.realVars 57) (u.realVarsPre 57))) else u.realVars 24 * (u.realVars 6 - (ext.getTimeTableValueNoDer ((u.timeValue)) (u.realVars 57) (u.realVarsPre 57))))))) := by
    rw [hk23, alg125_step, mk_rv, upd_same, r23_rv36, fr23_par]
  have r24_rv40 : k23.realVars 40 = u.realVars 40 := by
    rw [hk23, alg125_step, mk_rv, upd_neb _ 42 _ 40 rfl, hk22, alg124_step, mk_rv,
      upd_neb _ 36 _ 40 rfl, hk21, alg123_step, mk_rv, upd_neb _ 27 _ 40 rfl, hk20, alg122_step,
      mk_rv, upd_neb _ 0 _ 40 rfl, setLastEq_step, mk_rv, k19rv, upd_neb _ 5 _ 40 rfl, hk18,
      alg114_step, mk_rv, hk17, alg113_step, mk_rv, upd_neb _ 43 _ 40 rfl, hk16, alg112_step,
      mk_rv, upd_neb _ 45 _ 40 rfl, hk15, alg111_step, mk_rv, upd_neb _ 46 _ 40 rfl, hk14,
      alg110_step, mk_rv, upd_neb _ 38 _ 40 rfl, hk13, alg109_step, mk_rv, upd_neb _ 34 _ 40 rfl,
      hk12, alg107_step, mk_rv, upd_neb _ 10 _ 40 rfl, hk11, alg105_step, mk_rv,
      upd_neb _ 9 _ 40 rfl, hk10, alg104_step, mk_rv, hk9, alg103_step, mk_rv, hk8, alg102_step,
      mk_rv, hk7, alg101_step, mk_rv, hk6, alg100_step, mk_rv, upd_neb _ 50 _ 40 rfl, hk5,
      alg99_step, mk_rv, upd_neb _ 47 _ 40 rfl, setLastEq_step, mk_rv, k4rv,
      upd_neb _ 49 _ 40 rfl, hk3, alg91_step, mk_rv, hk2, alg90_step, mk_rv, hk1, alg89_step,
      mk_rv]
  have r25_rv42 : k24.realVars 42 = u.realParameter 29 - (0.5 * u.realParameter 29 + u.realVars 23 * ((u.realVars 6 - (ext.getTimeTableValueNoDer ((u.timeValue)) (u.realVars 57) (u.realVarsPre 57))) / (1 + u.realVars 23 * (if qLess (u.realVars 24 * (u.realVars 6 - (ext.getTimeTableValueNoDer ((u.timeValue)) (u.realVars 57) (u.realVarsPre 57)))) 0 then (-u.realVars 24) * (u.realVars 6 - (ext.getTimeTableValueNoDer ((u.timeValue)) (u.realVars 57) (u.realVarsPre 57))) else u.realVars 24 * (u.realVars 6 - (ext.getTimeTableValueNoDer ((u.timeValue)) (u.realVars 57) (u.realVarsPre 57))))))) := by
    rw [hk24, alg126_step, mk_rv, upd_neb _ 41 _ 42 rfl, hk23, alg125_step, mk_rv, upd_same,
      r23_rv36, fr23_par]
  have r25_rv41 : k24.realVars 41 = (u.realParameter 29 - (0.5 * u.realParameter 29 + u.realVars 23 * ((u.realVars 6 - (ext.getTimeTableValueNoDer ((u.timeValue)) (u.realVars 57) (u.realVarsPre 57))) / (1 + u.realVars 23 * (if qLess (u.realVars 24 * (u.realVars 6 - (ext.getTimeTableValueNoDer ((u.timeValue)) (u.realVars 57) (u.realVarsPre 57)))) 0 then (-u.realVars 24) * (u.realVars 6 - (ext.getTimeTableValueNoDer ((u.timeValue)) (u.realVars 57) (u.realVarsPre 57))) else u.realVars 24 * (u.realVars 6 - (ext.getTimeTableValueNoDer ((u.timeValue)) (u.realVars 57) (u.realVarsPre 57)))))))) / u.realVars 40 := by
    rw [hk24, alg126_step, mk_rv, upd_same, r24_rv42, r24_rv40]
  have r26_rv36 : k25.realVars 36 = 0.5 * u.realParameter 29 + u.realVars 23 * ((u.realVars 6 - (ext.getTimeTableValueNoDer ((u.timeValue)) (u.realVars 57) (u.realVarsPre 57))) / (1 + u.realVars 23 * (if qLess (u.realVars 24 * (u.realVars 6 - (ext.getTimeTableValueNoDer ((u.timeValue)) (u.realVars 57) (u.realVarsPre 57)))) 0 then (-u.realVars 24) * (u.realVars 6 - (ext.getTimeTableValueNoDer ((u.timeValue)) (u.realVars 57) (u.realVarsPre 57))) else u.realVars 24 * (u.realVars 6 - (ext.getTimeTableValueNoDer ((u.timeValue)) (u.realVars 57) (u.realVarsPre 57)))))) := by
    rw [hk25, alg127_step, mk_rv, upd_neb _ 39 _ 36 rfl, hk24, alg126_step, mk_rv,
      upd_neb _ 41 _ 36 rfl, hk23, alg125_step, mk_rv, upd_neb _ 42 _ 36 rfl, hk22, alg124_step,
      mk_rv, upd_same, r22_rv23, r22_rv27, r22_rv24, fr22_par]
  have fr26_par : k25.realParameter = u.realParameter := by
    rw [hk25, alg127_step, mk_par, hk24, alg126_step, mk_par, hk23, alg125_step, mk_par, hk22,
      alg124_step, mk_par, hk21, alg123_step, mk_par, hk20, alg122_step, mk_par, setLastEq_step,
      mk_par, k19par, hk18, alg114_step, mk_par, hk17, alg113_step, mk_par, hk16, alg112_step,
      mk_par, hk15, alg111_step, mk_par, hk14, alg110_step, mk_par, hk13, alg109_step, mk_par,
      hk12, alg107_step, mk_par, hk11, alg105_step, mk_par, hk10, alg104_step, mk_par, hk9,
      alg103_step, mk_par, hk8, alg102_step, mk_par, hk7, alg101_step, mk_par, hk6, alg100_step,
      mk_par, hk5, alg99_step, mk_par, setLastEq_step, mk_par, k4par, hk3, alg91_step, mk_par,
      hk2, alg90_step, mk_par, hk1, alg89_step, mk_par]
  have fr26_stored : k25.storedRelations = u.storedRelations := by
    rw [hk25, alg127_step, mk_stored, hk24, alg126_step, mk_stored, hk23, alg125_step, mk_stored,
      hk22, alg124_step, mk_stored, hk21, alg123_step, mk_stored, hk20, alg122_step, mk_stored,
      setLastEq_step, mk_stored, k19stored, hk18, alg114_step, mk_stored, hk17, alg113_step,
      mk_stored, hk16, alg112_step, mk_stored, hk15, alg111_step, mk_stored, hk14, alg110_step,
      mk_stored, hk13, alg109_step, mk_stored, hk12, alg107_step, mk_stored, hk11, alg105_step,
      mk_stored, hk10, alg104_step, mk_stored, hk9, alg103_step, mk_stored, hk8, alg102_step,
      mk_stored, hk7, alg101_step, mk_stored, hk6, alg100_step, mk_stored, hk5, alg99_step,
      mk_stored, setLastEq_step, mk_stored, k4stored, hk3, alg91_step, mk_stored, hk2, alg90_step,
      mk_stored, hk1, alg89_step, mk_stored]
  have r27_bv4 : k26.booleanVars 4 = ext.relationhysteresis .greaterEq ((0.5 * u.realParameter 29 + u.realVars 23 * ((u.realVars 6 - (ext.getTimeTableValueNoDer ((u.timeValue)) (u.realVars 57) (u.realVarsPre 57))) / (1 + u.realVars 23 * (if qLess (u.realVars 24 * (u.realVars 6 - (ext.getTimeTableValueNoDer ((u.timeValue)) (u.realVars 57) (u.realVarsPre 57)))) 0 then (-u.realVars 24) * (u.realVars 6 - (ext.getTimeTableValueNoDer ((u.timeValue)) (u.realVars 57) (u.realVarsPre 57))) else u.realVars 24 * (u.realVars 6 - (ext.getTimeTableValueNoDer ((u.timeValue)) (u.realVars 57) (u.realVarsPre 57)))))))) (u.realParameter 32) (u.storedRelations 0) := by
    rw [hk26, alg128_step, mk_bv, upd_same, r26_rv36, fr26_par, fr26_stored]
  have r27_bv3 : k26.booleanVars 3 = ext.relationhysteresis .greaterEq ((0.5 * u.realParameter 29 + u.realVars 30 * (((ext.getTimeTableValueNoDer ((u.timeValue)) (u.realVars 57) (u.realVarsPre 57)) - u.realVars 53) / (1 + u.realVars 30 * (if qLess (u.realVars 31 * ((ext.getTimeTableValueNoDer ((u.timeValue)) (u.realVars 57) (u.realVarsPre 57)) - u.realVars 53)) 0 then (-u.realVars 31) * ((ext.getTimeTableValueNoDer ((u.timeValue)) (u.realVars 57) (u.realVarsPre 57)) - u.realVars 53) else u.realVars 31 * ((ext.getTimeTableValueNoDer ((u.timeValue)) (u.realVars 57) (u.realVarsPre 57)) - u.realVars 53)))))) (u.realParameter 33) (u.storedRelations 1) := by
    rw [hk26, alg128_step, mk_bv, upd_neb _ 4 _ 3 rfl, hk25, alg127_step, mk_bv, hk24,
      alg126_step, mk_bv, hk23, alg125_step, mk_bv, hk22, alg124_step, mk_bv, hk21, alg123_step,
      mk_bv, hk20, alg122_step, mk_bv, setLastEq_step, mk_bv, k19bv, hk18, alg114_step, mk_bv,
      upd_same, r18_rv38, fr18_par, fr18_stored]
  have r28_bv10 : k27.booleanVars 10 = u.booleanVarsPre 9 := by
    rw [hk27, alg129_step, mk_bv, upd_neb _ 6 _ 10 rfl, hk26, alg128_step, mk_bv,
      upd_neb _ 4 _ 10 rfl, hk25, alg127_step, mk_bv, hk24, alg126_step, mk_bv, hk23, alg125_step,
      mk_bv, hk22, alg124_step, mk_bv, hk21, alg123_step, mk_bv, hk20, alg122_step, mk_bv,
      setLastEq_step, mk_bv, k19bv, hk18, alg114_step, mk_bv, upd_neb _ 3 _ 10 rfl, hk17,
      alg113_step, mk_bv, hk16, alg112_step, mk_bv, hk15, alg111_step, mk_bv, hk14, alg110_step,
      mk_bv, hk13, alg109_step, mk_bv, hk12, alg107_step, mk_bv, hk11, alg105_step, mk_bv, hk10,
      alg104_step, mk_bv, upd_neb _ 8 _ 10 rfl, hk9, alg103_step, mk_bv, upd_neb _ 1 _ 10 rfl,
      hk8, alg102_step, mk_bv, upd_neb _ 5 _ 10 rfl, hk7, alg101_step, mk_bv, upd_same, fr7_bpre]
  have r28_bv6 : k27.booleanVars 6 = !((ext.relationhysteresis .greaterEq ((0.5 * u.realParameter 29 + u.realVars 23 * ((u.realVars 6 - (ext.getTimeTableValueNoDer ((u.timeValue)) (u.realVars 57) (u.realVarsPre 57))) / (1 + u.realVars 23 * (if qLess (u.realVars 24 * (u.realVars 6 - (ext.getTimeTableValueNoDer ((u.timeValue)) (u.realVars 57) (u.realVarsPre 57)))) 0 then (-u.realVars 24) * (u.realVars 6 - (ext.getTimeTableValueNoDer ((u.timeValue)) (u.realVars 57) (u.realVarsPre 57))) else u.realVars 24 * (u.realVars 6 - (ext.getTimeTableValueNoDer ((u.timeValue)) (u.realVars 57) (u.realVarsPre 57)))))))) (u.realParameter 32) (u.storedRelations 0)) && (ext.relationhysteresis .greaterEq ((0.5 * u.realParameter 29 + u.realVars 30 * (((ext.getTimeTableValueNoDer ((u.timeValue)) (u.realVars 57) (u.realVarsPre 57)) - u.realVars 53) / (1 + u.realVars 30 * (if qLess (u.realVars 31 * ((ext.getTimeTableValueNoDer ((u.timeValue)) (u.realVars 57) (u.realVarsPre 57)) - u.realVars 53)) 0 then (-u.realVars 31) * ((ext.getTimeTableValueNoDer ((u.timeValue)) (u.realVars 57) (u.realVarsPre 57)) - u.realVars 53) else u.realVars 31 * ((ext.getTimeTableValueNoDer ((u.timeValue)) (u.realVars 57) (u.realVarsPre 57)) - u.realVars 53)))))) (u.realParameter 33) (u.storedRelations 1))) := by
    rw [hk27, alg129_step, mk_bv, upd_same, r27_bv4, r27_bv3]
  have r29_bv7 : k28.booleanVars 7 = !((u.booleanVarsPre 9) || (!((ext.relationhysteresis .greaterEq ((0.5 * u.realParameter 29 + u.realVars 23 * ((u.realVars 6 - (ext.getTimeTableValueNoDer ((u.timeValue)) (u.realVars 57) (u.realVarsPre 57))) / (1 + u.realVars 23 * (if qLess (u.realVars 24 * (u.realVars 6 - (ext.getTimeTableValueNoDer ((u.timeValue)) (u.realVars 57) (u.realVarsPre 57)))) 0 then (-u.realVars 24) * (u.realVars 6 - (ext.getTimeTableValueNoDer ((u.timeValue)) (u.realVars 57) (u.realVarsPre 57))) else u.realVars 24 * (u.realVars 6 - (ext.getTimeTableValueNoDer ((u.timeValue)) (u.realVars 57) (u.realVarsPre 57)))))))) (u.realParameter 32) (u.storedRelations 0)) && (ext.relationhysteresis .greaterEq ((0.5 * u.realParameter 29 + u.realVars 30 * (((ext.getTimeTableValueNoDer ((u.timeValue)) (u.realVars 57) (u.realVarsPre 57)) - u.realVars 53) / (1 + u.realVars 30 * (if qLess (u.realVars 31 * ((ext.getTimeTableValueNoDer ((u.timeValue)) (u.realVars 57) (u.realVarsPre 57)) - u.realVars 53)) 0 then (-u.realVars 31) * ((ext.getTimeTableValueNoDer ((u.timeValue)) (u.realVars 57) (u.realVarsPre 57)) - u.realVars 53) else u.realVars 31 * ((ext.getTimeTableValueNoDer ((u.timeValue)) (u.realVars 57) (u.realVarsPre 57)) - u.realVars 53)))))) (u.realParameter 33) (u.storedRelations 1))))) := by
    rw [hk28, alg130_step, mk_bv, upd_same, r28_bv10, r28_bv6]
  have r29_bv11 : k28.booleanVars 11 = (ext.relationhysteresis .greaterEq u.timeValue 0.95 (u.storedRelations 4) && ext.relationhysteresis .lessEq u.timeValue 0.96 (u.storedRelations 5)) := by
    rw [hk28, alg130_step, mk_bv, upd_neb _ 7 _ 11 rfl, hk27, alg129_step, mk_bv,
      upd_neb _ 6 _ 11 rfl, hk26, alg128_step, mk_bv, upd_neb _ 4 _ 11 rfl, hk25, alg127_step,
      mk_bv, hk24, alg126_step, mk_bv, hk23, alg125_step, mk_bv, hk22, alg124_step, mk_bv, hk21,
      alg123_step, mk_bv, hk20, alg122_step, mk_bv, setLastEq_step, mk_bv, k19bv, hk18,
      alg114_step, mk_bv, upd_neb _ 3 _ 11 rfl, hk17, alg113_step, mk_bv, hk16, alg112_step,
      mk_bv, hk15, alg111_step, mk_bv, hk14, alg110_step, mk_bv, hk13, alg109_step, mk_bv, hk12,
      alg107_step, mk_bv, hk11, alg105_step, mk_bv, hk10, alg104_step, mk_bv,
      upd_neb _ 8 _ 11 rfl, hk9, alg103_step, mk_bv, upd_neb _ 1 _ 11 rfl, hk8, alg102_step,
      mk_bv, upd_neb _ 5 _ 11 rfl, hk7, alg101_step, mk_bv, upd_neb _ 10 _ 11 rfl, hk6,
      alg100_step, mk_bv, hk5, alg99_step, mk_bv, setLastEq_step, mk_bv, k4bv, hk3, alg91_step,
      mk_bv, upd_neb _ 2 _ 11 rfl, hk2, alg90_step, mk_bv, upd_same, fr2_time, fr2_stored]
  have r30_rv6 : k29.realVars 6 = u.realVars 6 := by
    rw [hk29, alg131_step, mk_rv, hk28, alg130_step, mk_rv, hk27, alg129_step, mk_rv, hk26,
      alg128_step, mk_rv, hk25, alg127_step, mk_rv, upd_neb _ 39 _ 6 rfl, hk24, alg126_step,
      mk_rv, upd_neb _ 41 _ 6 rfl, hk23, alg125_step, mk_rv, upd_neb _ 42 _ 6 rfl, hk22,
      alg124_step, mk_rv, upd_neb _ 36 _ 6 rfl, hk21, alg123_step, mk_rv, upd_neb _ 27 _ 6 rfl,
      hk20, alg122_step, mk_rv, upd_neb _ 0 _ 6 rfl, setLastEq_step, mk_rv, k19rv,
      upd_neb _ 5 _ 6 rfl, hk18, alg114_step, mk_rv, hk17, alg113_step, mk_rv,
      upd_neb _ 43 _ 6 rfl, hk16, alg112_step, mk_rv, upd_neb _ 45 _ 6 rfl, hk15, alg111_step,
      mk_rv, upd_neb _ 46 _ 6 rfl, hk14, alg110_step, mk_rv, upd_neb _ 38 _ 6 rfl, hk13,
      alg109_step, mk_rv, upd_neb _ 34 _ 6 rfl, hk12, alg107_step, mk_rv, upd_neb _ 10 _ 6 rfl,
      hk11, alg105_step, mk_rv, upd_neb _ 9 _ 6 rfl, hk10, alg104_step, mk_rv, hk9, alg103_step,
      mk_rv, hk8, alg102_step, mk_rv, hk7, alg101_step, mk_rv, hk6, alg100_step, mk_rv,
      upd_neb _ 50 _ 6 rfl, hk5, alg99_step, mk_rv, upd_neb _ 47 _ 6 rfl, setLastEq_step, mk_rv,
      k4rv, upd_neb _ 49 _ 6 rfl, hk3, alg91_step, mk_rv, hk2, alg90_step, mk_rv, hk1, alg89_step,
      mk_rv]
  have r30_rv5 : k29.realVars 5 = u.realVars1 5 - lsResidualValue 3 u (u.realVars1 5) / lsResidualSlope 3 u := by
    rw [hk29, alg131_step, mk_rv, hk28, alg130_step, mk_rv, hk27, alg129_step, mk_rv, hk26,
      alg128_step, mk_rv, hk25, alg127_step, mk_rv, upd_neb _ 39 _ 5 rfl, hk24, alg126_step,
      mk_rv, upd_neb _ 41 _ 5 rfl, hk23, alg125_step, mk_rv, upd_neb _ 42 _ 5 rfl, hk22,
      alg124_step, mk_rv, upd_neb _ 36 _ 5 rfl, hk21, alg123_step, mk_rv, upd_neb _ 27 _ 5 rfl,
      hk20, alg122_step, mk_rv, upd_neb _ 0 _ 5 rfl, setLastEq_step, mk_rv, k19rv, upd_same,
      hrv1k18, lsResidualValue3_congr k18 u h1k18 h4k18 hp29k18,
      lsResidualSlope3_congr k18 u h1k18 h4k18 hp29k18]
  have r31_rv52 : k30.realVars 52 = u.realVars 52 := by
    rw [hk30, alg132_step, mk_rv, upd_neb _ 3 _ 52 rfl, hk29, alg131_step, mk_rv, hk28,
      alg130_step, mk_rv, hk27, alg129_step, mk_rv, hk26, alg128_step, mk_rv, hk25, alg127_step,
      mk_rv, upd_neb _ 39 _ 52 rfl, hk24, alg126_step, mk_rv, upd_neb _ 41 _ 52 rfl, hk23,
      alg125_step, mk_rv, upd_neb _ 42 _ 52 rfl, hk22, alg124_step, mk_rv, upd_neb _ 36 _ 52 rfl,
      hk21, alg123_step, mk_rv, upd_neb _ 27 _ 52 rfl, hk20, alg122_step, mk_rv,
      upd_neb _ 0 _ 52 rfl, setLastEq_step, mk_rv, k19rv, upd_neb _ 5 _ 52 rfl, hk18, alg114_step,
      mk_rv, hk17, alg113_step, mk_rv, upd_neb _ 43 _ 52 rfl, hk16, alg112_step, mk_rv,
      upd_neb _ 45 _ 52 rfl, hk15, alg111_step, mk_rv, upd_neb _ 46 _ 52 rfl, hk14, alg110_step,
      mk_rv, upd_neb _ 38 _ 52 rfl, hk13, alg109_step, mk_rv, upd_neb _ 34 _ 52 rfl, hk12,
      alg107_step, mk_rv, upd_neb _ 10 _ 52 rfl, hk11, alg105_step, mk_rv, upd_neb _ 9 _ 52 rfl,
      hk10, alg104_step, mk_rv, hk9, alg103_step, mk_rv, hk8, alg102_step, mk_rv, hk7,
      alg101_step, mk_rv, hk6, alg100_step, mk_rv, upd_neb _ 50 _ 52 rfl, hk5, alg99_step, mk_rv,
      upd_neb _ 47 _ 52 rfl, setLastEq_step, mk_rv, k4rv, upd_neb _ 49 _ 52 rfl, hk3, alg91_step,
      mk_rv, hk2, alg90_step, mk_rv, hk1, alg89_step, mk_rv]
  have r31_rv45 : k30.realVars 45 = (u.realParameter 29 - (0.5 * u.realParameter 29 + u.realVars 30 * (((ext.getTimeTableValueNoDer ((u.timeValue)) (u.realVars 57) (u.realVarsPre 57)) - u.realVars 53) / (1 + u.realVars 30 * (if qLess (u.realVars 31 * ((ext.getTimeTableValueNoDer ((u.timeValue)) (u.realVars 57) (u.realVarsPre 57)) - u.realVars 53)) 0 then (-u.realVars 31) * ((ext.getTimeTableValueNoDer ((u.timeValue)) (u.realVars 57) (u.realVarsPre 57)) - u.realVars 53) else u.realVars 31 * ((ext.getTimeTableValueNoDer ((u.timeValue)) (u.realVars 57) (u.realVarsPre 57)) - u.realVars 53)))))) / u.realVars 44 := by
    rw [hk30, alg132_step, mk_rv, upd_neb _ 3 _ 45 rfl, hk29, alg131_step, mk_rv, hk28,
      alg130_step, mk_rv, hk27, alg129_step, mk_rv, hk26, alg128_step, mk_rv, hk25, alg127_step,
      mk_rv, upd_neb _ 39 _ 45 rfl, hk24, alg126_step, mk_rv, upd_neb _ 41 _ 45 rfl, hk23,
      alg125_step, mk_rv, upd_neb _ 42 _ 45 rfl, hk22, alg124_step, mk_rv, upd_neb _ 36 _ 45 rfl,
      hk21, alg123_step, mk_rv, upd_neb _ 27 _ 45 rfl, hk20, alg122_step, mk_rv,
      upd_neb _ 0 _ 45 rfl, setLastEq_step, mk_rv, k19rv, upd_neb _ 5 _ 45 rfl, hk18, alg114_step,
      mk_rv, hk17, alg113_step, mk_rv, upd_neb _ 43 _ 45 rfl, hk16, alg112_step, mk_rv, upd_same,
      r16_rv46, r16_rv44]
  have r31_rv41 : k30.realVars 41 = (u.realParameter 29 - (0.5 * u.realParameter 29 + u.realVars 23 * ((u.realVars 6 - (ext.getTimeTableValueNoDer ((u.timeValue)) (u.realVars 57) (u.realVarsPre 57))) / (1 + u.realVars 23 * (if qLess (u.realVars 24 * (u.realVars 6 - (ext.getTimeTableValueNoDer ((u.timeValue)) (u.realVars 57) (u.realVarsPre 57)))) 0 then (-u.realVars 24) * (u.realVars 6 - (ext.getTimeTableValueNoDer ((u.timeValue)) (u.realVars 57) (u.realVarsPre 57))) else u.realVars 24 * (u.realVars 6 - (ext.getTimeTableValueNoDer ((u.timeValue)) (u.realVars 57) (u.realVarsPre 57)))))))) / u.realVars 40 := by
    rw [hk30, alg132_step, mk_rv, upd_neb _ 3 _ 41 rfl, hk29, alg131_step, mk_rv, hk28,
      alg130_step, mk_rv, hk27, alg129_step, mk_rv, hk26, alg128_step, mk_rv, hk25, alg127_step,
      mk_rv, upd_neb _ 39 _ 41 rfl, hk24, alg126_step, mk_rv, upd_same, r24_rv42, r24_rv40]
  have r31_rv5 : k30.realVars 5 = u.realVars1 5 - lsResidualValue 3 u (u.realVars1 5) / lsResidualSlope 3 u := by
    rw [hk30, alg132_step, mk_rv, upd_neb _ 3 _ 5 rfl, hk29, alg131_step, mk_rv, hk28,
      alg130_step, mk_rv, hk27, alg129_step, mk_rv, hk26, alg128_step, mk_rv, hk25, alg127_step,
      mk_rv, upd_neb _ 39 _ 5 rfl, hk24, alg126_step, mk_rv, upd_neb _ 41 _ 5 rfl, hk23,
      alg125_step, mk_rv, upd_neb _ 42 _ 5 rfl, hk22, alg124_step, mk_rv, upd_neb _ 36 _ 5 rfl,
      hk21, alg123_step, mk_rv, upd_neb _ 27 _ 5 rfl, hk20, alg122_step, mk_rv,
      upd_neb _ 0 _ 5 rfl, setLastEq_step, mk_rv, k19rv, upd_same, hrv1k18,
      lsResidualValue3_congr k18 u h1k18 h4k18 hp29k18,
      lsResidualSlope3_congr k18 u h1k18 h4k18 hp29k18]
  have gbv0 : (setLastEq 139 k37).booleanVars 0 = ext.relationhysteresis .greaterEq u.timeValue (u.realVarsPre 56) (u.storedRelations 6) := by
    rw [setLastEq_step, mk_bv, k37bv, setLastEq_step, mk_bv, k36bv, setLastEq_step, mk_bv, k35bv,
      setLastEq_step, mk_bv, k34bv, setLastEq_step, mk_bv, k33bv, setLastEq_step, mk_bv, k32bv,
      hk31, alg133_step, mk_bv, hk30, alg132_step, mk_bv, hk29, alg131_step, mk_bv,
      upd_neb _ 9 _ 0 rfl, hk28, alg130_step, mk_bv, upd_neb _ 7 _ 0 rfl, hk27, alg129_step,
      mk_bv, upd_neb _ 6 _ 0 rfl, hk26, alg128_step, mk_bv, upd_neb _ 4 _ 0 rfl, hk25,
      alg127_step, mk_bv, hk24, alg126_step, mk_bv, hk23, alg125_step, mk_bv, hk22, alg124_step,
      mk_bv, hk21, alg123_step, mk_bv, hk20, alg122_step, mk_bv, setLastEq_step, mk_bv, k19bv,
      hk18, alg114_step, mk_bv, upd_neb _ 3 _ 0 rfl, hk17, alg113_step, mk_bv, hk16, alg112_step,
      mk_bv, hk15, alg111_step, mk_bv, hk14, alg110_step, mk_bv, hk13, alg109_step, mk_bv, hk12,
      alg107_step, mk_bv, hk11, alg105_step, mk_bv, hk10, alg104_step, mk_bv, upd_neb _ 8 _ 0 rfl,
      hk9, alg103_step, mk_bv, upd_neb _ 1 _ 0 rfl, hk8, alg102_step, mk_bv, upd_neb _ 5 _ 0 rfl,
      hk7, alg101_step, mk_bv, upd_neb _ 10 _ 0 rfl, hk6, alg100_step, mk_bv, hk5, alg99_step,
      mk_bv, setLastEq_step, mk_bv, k4bv, hk3, alg91_step, mk_bv, upd_neb _ 2 _ 0 rfl, hk2,
      alg90_step, mk_bv, upd_neb _ 11 _ 0 rfl, hk1, alg89_step, mk_bv, upd_same]
  have gbv11 : (setLastEq 139 k37).booleanVars 11 = (ext.relationhysteresis .greaterEq u.timeValue 0.95 (u.storedRelations 4) && ext.relationhysteresis .lessEq u.timeValue 0.96 (u.storedRelations 5)) := by
    rw [setLastEq_step, mk_bv, k37bv, setLastEq_step, mk_bv, k36bv, setLastEq_step, mk_bv, k35bv,
      setLastEq_step, mk_bv, k34bv, setLastEq_step, mk_bv, k33bv, setLastEq_step, mk_bv, k32bv,
      hk31, alg133_step, mk_bv, hk30, alg132_step, mk_bv, hk29, alg131_step, mk_bv,
      upd_neb _ 9 _ 11 rfl, hk28, alg130_step, mk_bv, upd_neb _ 7 _ 11 rfl, hk27, alg129_step,
      mk_bv, upd_neb _ 6 _ 11 rfl, hk26, alg128_step, mk_bv, upd_neb _ 4 _ 11 rfl, hk25,
      alg127_step, mk_bv, hk24, alg126_step, mk_bv, hk23, alg125_step, mk_bv, hk22, alg124_step,
      mk_bv, hk21, alg123_step, mk_bv, hk20, alg122_step, mk_bv, setLastEq_step, mk_bv, k19bv,
      hk18, alg114_step, mk_bv, upd_neb _ 3 _ 11 rfl, hk17, alg113_step, mk_bv, hk16, alg112_step,
      mk_bv, hk15, alg111_step, mk_bv, hk14, alg110_step, mk_bv, hk13, alg109_step, mk_bv, hk12,
      alg107_step, mk_bv, hk11, alg105_step, mk_bv, hk10, alg104_step, mk_bv,
      upd_neb _ 8 _ 11 rfl, hk9, alg103_step, mk_bv, upd_neb _ 1 _ 11 rfl, hk8, alg102_step,
      mk_bv, upd_neb _ 5 _ 11 rfl, hk7, alg101_step, mk_bv, upd_neb _ 10 _ 11 rfl, hk6,
      alg100_step, mk_bv, hk5, alg99_step, mk_bv, setLastEq_step, mk_bv, k4bv, hk3, alg91_step,
      mk_bv, upd_neb _ 2 _ 11 rfl, hk2, alg90_step, mk_bv, upd_same, fr2_time, fr2_stored]
  have gbv2 : (setLastEq 139 k37).booleanVars 2 = (ext.relationhysteresis .lessEq u.timeValue 0.1 (u.storedRelations 2) || ext.relationhysteresis .greaterEq u.timeValue 0.9 (u.storedRelations 3)) := by
    rw [setLastEq_step, mk_bv, k37bv, setLastEq_step, mk_bv, k36bv, setLastEq_step, mk_bv, k35bv,
      setLastEq_step, mk_bv, k34bv, setLastEq_step, mk_bv, k33bv, setLastEq_step, mk_bv, k32bv,
      hk31, alg133_step, mk_bv, hk30, alg132_step, mk_bv, hk29, alg131_step, mk_bv,
      upd_neb _ 9 _ 2 rfl, hk28, alg130_step, mk_bv, upd_neb _ 7 _ 2 rfl, hk27, alg129_step,
      mk_bv, upd_neb _ 6 _ 2 rfl, hk26, alg128_step, mk_bv, upd_neb _ 4 _ 2 rfl, hk25,
      alg127_step, mk_bv, hk24, alg126_step, mk_bv, hk23, alg125_step, mk_bv, hk22, alg124_step,
      mk_bv, hk21, alg123_step, mk_bv, hk20, alg122_step, mk_bv, setLastEq_step, mk_bv, k19bv,
      hk18, alg114_step, mk_bv, upd_neb _ 3 _ 2 rfl, hk17, alg113_step, mk_bv, hk16, alg112_step,
      mk_bv, hk15, alg111_step, mk_bv, hk14, alg110_step, mk_bv, hk13, alg109_step, mk_bv, hk12,
      alg107_step, mk_bv, hk11, alg105_step, mk_bv, hk10, alg104_step, mk_bv, upd_neb _ 8 _ 2 rfl,
      hk9, alg103_step, mk_bv, upd_neb _ 1 _ 2 rfl, hk8, alg102_step, mk_bv, upd_neb _ 5 _ 2 rfl,
      hk7, alg101_step, mk_bv, upd_neb _ 10 _ 2 rfl, hk6, alg100_step, mk_bv, hk5, alg99_step,
      mk_bv, setLastEq_step, mk_bv, k4bv, hk3, alg91_step, mk_bv, upd_same, fr3_time, fr3_stored]
  have grv49 : (setLastEq 139 k37).realVars 49 = u.realVars1 49 - lsResidualValue 2 u (u.realVars1 49) / lsResidualSlope 2 u := by
    rw [setLastEq_step, mk_rv, k37rv, setLastEq_step, mk_rv, k36rv, setLastEq_step, mk_rv, k35rv,
      setLastEq_step, mk_rv, k34rv, setLastEq_step, mk_rv, k33rv, setLastEq_step, mk_rv, k32rv,
      hk31, alg133_step, mk_rv, upd_neb _ 11 _ 49 rfl, hk30, alg132_step, mk_rv,
      upd_neb _ 3 _ 49 rfl, hk29, alg131_step, mk_rv, hk28, alg130_step, mk_rv, hk27, alg129_step,
      mk_rv, hk26, alg128_step, mk_rv, hk25, alg127_step, mk_rv, upd_neb _ 39 _ 49 rfl, hk24,
      alg126_step, mk_rv, upd_neb _ 41 _ 49 rfl, hk23, alg125_step, mk_rv, upd_neb _ 42 _ 49 rfl,
      hk22, alg124_step, mk_rv, upd_neb _ 36 _ 49 rfl, hk21, alg123_step, mk_rv,
      upd_neb _ 27 _ 49 rfl, hk20, alg122_step, mk_rv, upd_neb _ 0 _ 49 rfl, setLastEq_step,
      mk_rv, k19rv, upd_neb _ 5 _ 49 rfl, hk18, alg114_step, mk_rv, hk17, alg113_step, mk_rv,
      upd_neb _ 43 _ 49 rfl, hk16, alg112_step, mk_rv, upd_neb _ 45 _ 49 rfl, hk15, alg111_step,
      mk_rv, upd_neb _ 46 _ 49 rfl, hk14, alg110_step, mk_rv, upd_neb _ 38 _ 49 rfl, hk13,
      alg109_step, mk_rv, upd_neb _ 34 _ 49 rfl, hk12, alg107_step, mk_rv, upd_neb _ 10 _ 49 rfl,
      hk11, alg105_step, mk_rv, upd_neb _ 9 _ 49 rfl, hk10, alg104_step, mk_rv, hk9, alg103_step,
      mk_rv, hk8, alg102_step, mk_rv, hk7, alg101_step, mk_rv, hk6, alg100_step, mk_rv,
      upd_neb _ 50 _ 49 rfl, hk5, alg99_step, mk_rv, upd_neb _ 47 _ 49 rfl, setLastEq_step, mk_rv,
      k4rv, upd_same, hrv1k3, lsResidualValue2_congr k3 u h48k3 h51k3 hp29k3,
      lsResidualSlope2_congr k3 u h48k3 h51k3 hp29k3]
  have grv47 : (setLastEq 139 k37).realVars 47 = (u.realVars1 49 - lsResidualValue 2 u (u.realVars1 49) / lsResidualSlope 2 u) * u.realVars 52 := by
    rw [setLastEq_step, mk_rv, k37rv, setLastEq_step, mk_rv, k36rv, setLastEq_step, mk_rv, k35rv,
      setLastEq_step, mk_rv, k34rv, setLastEq_step, mk_rv, k33rv, setLastEq_step, mk_rv, k32rv,
      hk31, alg133_step, mk_rv, upd_neb _ 11 _ 47 rfl, hk30, alg132_step, mk_rv,
      upd_neb _ 3 _ 47 rfl, hk29, alg131_step, mk_rv, hk28, alg130_step, mk_rv, hk27, alg129_step,
      mk_rv, hk26, alg128_step, mk_rv, hk25, alg127_step, mk_rv, upd_neb _ 39 _ 47 rfl, hk24,
      alg126_step, mk_rv, upd_neb _ 41 _ 47 rfl, hk23, alg125_step, mk_rv, upd_neb _ 42 _ 47 rfl,
      hk22, alg124_step, mk_rv, upd_neb _ 36 _ 47 rfl, hk21, alg123_step, mk_rv,
      upd_neb _ 27 _ 47 rfl, hk20, alg122_step, mk_rv, upd_neb _ 0 _ 47 rfl, setLastEq_step,
      mk_rv, k19rv, upd_neb _ 5 _ 47 rfl, hk18, alg114_step, mk_rv, hk17, alg113_step, mk_rv,
      upd_neb _ 43 _ 47 rfl, hk16, alg112_step, mk_rv, upd_neb _ 45 _ 47 rfl, hk15, alg111_step,
      mk_rv, upd_neb _ 46 _ 47 rfl, hk14, alg110_step, mk_rv, upd_neb _ 38 _ 47 rfl, hk13,
      alg109_step, mk_rv, upd_neb _ 34 _ 47 rfl, hk12, alg107_step, mk_rv, upd_neb _ 10 _ 47 rfl,
      hk11, alg105_step, mk_rv, upd_neb _ 9 _ 47 rfl, hk10, alg104_step, mk_rv, hk9, alg103_step,
      mk_rv, hk8, alg102_step, mk_rv, hk7, alg101_step, mk_rv, hk6, alg100_step, mk_rv,
      upd_neb _ 50 _ 47 rfl, hk5, alg99_step, mk_rv, upd_same, setLastEq_step, mk_rv, r5_rv49,
      r5_rv52]
  have grv50 : (setLastEq 139 k37).realVars 50 = u.realVars 53 * u.realVars 52 := by
    rw [setLastEq_step, mk_rv, k37rv, setLastEq_step, mk_rv, k36rv, setLastEq_step, mk_rv, k35rv,
      setLastEq_step, mk_rv, k34rv, setLastEq_step, mk_rv, k33rv, setLastEq_step, mk_rv, k32rv,
      hk31, alg133_step, mk_rv, upd_neb _ 11 _ 50 rfl, hk30, alg132_step, mk_rv,
      upd_neb _ 3 _ 50 rfl, hk29, alg131_step, mk_rv, hk28, alg130_step, mk_rv, hk27, alg129_step,
      mk_rv, hk26, alg128_step, mk_rv, hk25, alg127_step, mk_rv, upd_neb _ 39 _ 50 rfl, hk24,
      alg126_step, mk_rv, upd_neb _ 41 _ 50 rfl, hk23, alg125_step, mk_rv, upd_neb _ 42 _ 50 rfl,
      hk22, alg124_step, mk_rv, upd_neb _ 36 _ 50 rfl, hk21, alg123_step, mk_rv,
      upd_neb _ 27 _ 50 rfl, hk20, alg122_step, mk_rv, upd_neb _ 0 _ 50 rfl, setLastEq_step,
      mk_rv, k19rv, upd_neb _ 5 _ 50 rfl, hk18, alg114_step, mk_rv, hk17, alg113_step, mk_rv,
      upd_neb _ 43 _ 50 rfl, hk16, alg112_step, mk_rv, upd_neb _ 45 _ 50 rfl, hk15, alg111_step,
      mk_rv, upd_neb _ 46 _ 50 rfl, hk14, alg110_step, mk_rv, upd_neb _ 38 _ 50 rfl, hk13,
      alg109_step, mk_rv, upd_neb _ 34 _ 50 rfl, hk12, alg107_step, mk_rv, upd_neb _ 10 _ 50 rfl,
      hk11, alg105_step, mk_rv, upd_neb _ 9 _ 50 rfl, hk10, alg104_step, mk_rv, hk9, alg103_step,
      mk_rv, hk8, alg102_step, mk_rv, hk7, alg101_step, mk_rv, hk6, alg100_step, mk_rv, upd_same,
      r6_rv53, r6_rv52]
  have gbv10 : (setLastEq 139 k37).booleanVars 10 = u.booleanVarsPre 9 := by
    rw [setLastEq_step, mk_bv, k37bv, setLastEq_step, mk_bv, k36bv, setLastEq_step, mk_bv, k35bv,
      setLastEq_step, mk_bv, k34bv, setLastEq_step, mk_bv, k33bv, setLastEq_step, mk_bv, k32bv,
      hk31, alg133_step, mk_bv, hk30, alg132_step, mk_bv, hk29, alg131_step, mk_bv,
      upd_neb _ 9 _ 10 rfl, hk28, alg130_step, mk_bv, upd_neb _ 7 _ 10 rfl, hk27, alg129_step,
      mk_bv, upd_neb _ 6 _ 10 rfl, hk26, alg128_step, mk_bv, upd_neb _ 4 _ 10 rfl, hk25,
      alg127_step, mk_bv, hk24, alg126_step, mk_bv, hk23, alg125_step, mk_bv, hk22, alg124_step,
      mk_bv, hk21, alg123_step, mk_bv, hk20, alg122_step, mk_bv, setLastEq_step, mk_bv, k19bv,
      hk18, alg114_step, mk_bv, upd_neb _ 3 _ 10 rfl, hk17, alg113_step, mk_bv, hk16, alg112_step,
      mk_bv, hk15, alg111_step, mk_bv, hk14, alg110_step, mk_bv, hk13, alg109_step, mk_bv, hk12,
      alg107_step, mk_bv, hk11, alg105_step, mk_bv, hk10, alg104_step, mk_bv,
      upd_neb _ 8 _ 10 rfl, hk9, alg103_step, mk_bv, upd_neb _ 1 _ 10 rfl, hk8, alg102_step,
      mk_bv, upd_neb _ 5 _ 10 rfl, hk7, alg101_step, mk_bv, upd_same, fr7_bpre]
  have gbv5 : (setLastEq 139 k37).booleanVars 5 = u.booleanVarsPre 8 := by
    rw [setLastEq_step, mk_bv, k37bv, setLastEq_step, mk_bv, k36bv, setLastEq_step, mk_bv, k35bv,
      setLastEq_step, mk_bv, k34bv, setLastEq_step, mk_bv, k33bv, setLastEq_step, mk_bv, k32bv,
      hk31, alg133_step, mk_bv, hk30, alg132_step, mk_bv, hk29, alg131_step, mk_bv,
      upd_neb _ 9 _ 5 rfl, hk28, alg130_step, mk_bv, upd_neb _ 7 _ 5 rfl, hk27, alg129_step,
      mk_bv, upd_neb _ 6 _ 5 rfl, hk26, alg128_step, mk_bv, upd_neb _ 4 _ 5 rfl, hk25,
      alg127_step, mk_bv, hk24, alg126_step, mk_bv, hk23, alg125_step, mk_bv, hk22, alg124_step,
      mk_bv, hk21, alg123_step, mk_bv, hk20, alg122_step, mk_bv, setLastEq_step, mk_bv, k19bv,
      hk18, alg114_step, mk_bv, upd_neb _ 3 _ 5 rfl, hk17, alg113_step, mk_bv, hk16, alg112_step,
      mk_bv, hk15, alg111_step, mk_bv, hk14, alg110_step, mk_bv, hk13, alg109_step, mk_bv, hk12,
      alg107_step, mk_bv, hk11, alg105_step, mk_bv, hk10, alg104_step, mk_bv, upd_neb _ 8 _ 5 rfl,
      hk9, alg103_step, mk_bv, upd_neb _ 1 _ 5 rfl, hk8, alg102_step, mk_bv, upd_same, fr8_bpre]
  have gbv1 : (setLastEq 139 k37).booleanVars 1 = !((u.booleanVarsPre 8) || (u.booleanVarsPre 9)) := by
    rw [setLastEq_step, mk_bv, k37bv, setLastEq_step, mk_bv, k36bv, setLastEq_step, mk_bv, k35bv,
      setLastEq_step, mk_bv, k34bv, setLastEq_step, mk_bv, k33bv, setLastEq_step, mk_bv, k32bv,
      hk31, alg133_step, mk_bv, hk30, alg132_step, mk_bv, hk29, alg131_step, mk_bv,
      upd_neb _ 9 _ 1 rfl, hk28, alg130_step, mk_bv, upd_neb _ 7 _ 1 rfl, hk27, alg129_step,
      mk_bv, upd_neb _ 6 _ 1 rfl, hk26, alg128_step, mk_bv, upd_neb _ 4 _ 1 rfl, hk25,
      alg127_step, mk_bv, hk24, alg126_step, mk_bv, hk23, alg125_step, mk_bv, hk22, alg124_step,
      mk_bv, hk21, alg123_step, mk_bv, hk20, alg122_step, mk_bv, setLastEq_step, mk_bv, k19bv,
      hk18, alg114_step, mk_bv, upd_neb _ 3 _ 1 rfl, hk17, alg113_step, mk_bv, hk16, alg112_step,
      mk_bv, hk15, alg111_step, mk_bv, hk14, alg110_step, mk_bv, hk13, alg109_step, mk_bv, hk12,
      alg107_step, mk_bv, hk11, alg105_step, mk_bv, hk10, alg104_step, mk_bv, upd_neb _ 8 _ 1 rfl,
      hk9, alg103_step, mk_bv, upd_same, r9_bv5, r9_bv10]
  have gbv8 : (setLastEq 139 k37).booleanVars 8 = !((!((u.booleanVarsPre 8) || (u.booleanVarsPre 9))) || ((ext.relationhysteresis .lessEq u.timeValue 0.1 (u.storedRelations 2) || ext.relationhysteresis .greaterEq u.timeValue 0.9 (u.storedRelations 3)))) := by
    rw [setLastEq_step, mk_bv, k37bv, setLastEq_step, mk_bv, k36bv, setLastEq_step, mk_bv, k35bv,
      setLastEq_step, mk_bv, k34bv, setLastEq_step, mk_bv, k33bv, setLastEq_step, mk_bv, k32bv,
      hk31, alg133_step, mk_bv, hk30, alg132_step, mk_bv, hk29, alg131_step, mk_bv,
      upd_neb _ 9 _ 8 rfl, hk28, alg130_step, mk_bv, upd_neb _ 7 _ 8 rfl, hk27, alg129_step,
      mk_bv, upd_neb _ 6 _ 8 rfl, hk26, alg128_step, mk_bv, upd_neb _ 4 _ 8 rfl, hk25,
      alg127_step, mk_bv, hk24, alg126_step, mk_bv, hk23, alg125_step, mk_bv, hk22, alg124_step,
      mk_bv, hk21, alg123_step, mk_bv, hk20, alg122_step, mk_bv, setLastEq_step, mk_bv, k19bv,
      hk18, alg114_step, mk_bv, upd_neb _ 3 _ 8 rfl, hk17, alg113_step, mk_bv, hk16, alg112_step,
      mk_bv, hk15, alg111_step, mk_bv, hk14, alg110_step, mk_bv, hk13, alg109_step, mk_bv, hk12,
      alg107_step, mk_bv, hk11, alg105_step, mk_bv, hk10, alg104_step, mk_bv, upd_same, r10_bv1,
      r10_bv2]
  have grv9 : (setLastEq 139 k37).realVars 9 = u.timeValue := by
    rw [setLastEq_step, mk_rv, k37rv, setLastEq_step, mk_rv, k36rv, setLastEq_step, mk_rv, k35rv,
      setLastEq_step, mk_rv, k34rv, setLastEq_step, mk_rv, k33rv, setLastEq_step, mk_rv, k32rv,
      hk31, alg133_step, mk_rv, upd_neb _ 11 _ 9 rfl, hk30, alg132_step, mk_rv,
      upd_neb _ 3 _ 9 rfl, hk29, alg131_step, mk_rv, hk28, alg130_step, mk_rv, hk27, alg129_step,
      mk_rv, hk26, alg128_step, mk_rv, hk25, alg127_step, mk_rv, upd_neb _ 39 _ 9 rfl, hk24,
      alg126_step, mk_rv, upd_neb _ 41 _ 9 rfl, hk23, alg125_step, mk_rv, upd_neb _ 42 _ 9 rfl,
      hk22, alg124_step, mk_rv, upd_neb _ 36 _ 9 rfl, hk21, alg123_step, mk_rv,
      upd_neb _ 27 _ 9 rfl, hk20, alg122_step, mk_rv, upd_neb _ 0 _ 9 rfl, setLastEq_step, mk_rv,
      k19rv, upd_neb _ 5 _ 9 rfl, hk18, alg114_step, mk_rv, hk17, alg113_step, mk_rv,
      upd_neb _ 43 _ 9 rfl, hk16, alg112_step, mk_rv, upd_neb _ 45 _ 9 rfl, hk15, alg111_step,
      mk_rv, upd_neb _ 46 _ 9 rfl, hk14, alg110_step, mk_rv, upd_neb _ 38 _ 9 rfl, hk13,
      alg109_step, mk_rv, upd_neb _ 34 _ 9 rfl, hk12, alg107_step, mk_rv, upd_neb _ 10 _ 9 rfl,
      hk11, alg105_step, mk_rv, upd_same, fr11_time]
  have grv10 : (setLastEq 139 k37).realVars 10 = ext.getTimeTableValueNoDer ((u.timeValue)) (u.realVars 57) (u.realVarsPre 57) := by
    rw [setLastEq_step, mk_rv, k37rv, setLastEq_step, mk_rv, k36rv, setLastEq_step, mk_rv, k35rv,
      setLastEq_step, mk_rv, k34rv, setLastEq_step, mk_rv, k33rv, setLastEq_step, mk_rv, k32rv,
      hk31, alg133_step, mk_rv, upd_neb _ 11 _ 10 rfl, hk30, alg132_step, mk_rv,
      upd_neb _ 3 _ 10 rfl, hk29, alg131_step, mk_rv, hk28, alg130_step, mk_rv, hk27, alg129_step,
      mk_rv, hk26, alg128_step, mk_rv, hk25, alg127_step, mk_rv, upd_neb _ 39 _ 10 rfl, hk24,
      alg126_step, mk_rv, upd_neb _ 41 _ 10 rfl, hk23, alg125_step, mk_rv, upd_neb _ 42 _ 10 rfl,
      hk22, alg124_step, mk_rv, upd_neb _ 36 _ 10 rfl, hk21, alg123_step, mk_rv,
      upd_neb _ 27 _ 10 rfl, hk20, alg122_step, mk_rv, upd_neb _ 0 _ 10 rfl, setLastEq_step,
      mk_rv, k19rv, upd_neb _ 5 _ 10 rfl, hk18, alg114_step, mk_rv, hk17, alg113_step, mk_rv,
      upd_neb _ 43 _ 10 rfl, hk16, alg112_step, mk_rv, upd_neb _ 45 _ 10 rfl, hk15, alg111_step,
      mk_rv, upd_neb _ 46 _ 10 rfl, hk14, alg110_step, mk_rv, upd_neb _ 38 _ 10 rfl, hk13,
      alg109_step, mk_rv, upd_neb _ 34 _ 10 rfl, hk12, alg107_step, mk_rv, upd_same, r12_rv9,
      r12_rv57, fr12_pre]
  have grv34 : (setLastEq 139 k37).realVars 34 = (ext.getTimeTableValueNoDer ((u.timeValue)) (u.realVars 57) (u.realVarsPre 57)) - u.realVars 53 := by
    rw [setLastEq_step, mk_rv, k37rv, setLastEq_step, mk_rv, k36rv, setLastEq_step, mk_rv, k35rv,
      setLastEq_step, mk_rv, k34rv, setLastEq_step, mk_rv, k33rv, setLastEq_step, mk_rv, k32rv,
      hk31, alg133_step, mk_rv, upd_neb _ 11 _ 34 rfl, hk30, alg132_step, mk_rv,
      upd_neb _ 3 _ 34 rfl, hk29, alg131_step, mk_rv, hk28, alg130_step, mk_rv, hk27, alg129_step,
      mk_rv, hk26, alg128_step, mk_rv, hk25, alg127_step, mk_rv, upd_neb _ 39 _ 34 rfl, hk24,
      alg126_step, mk_rv, upd_neb _ 41 _ 34 rfl, hk23, alg125_step, mk_rv, upd_neb _ 42 _ 34 rfl,
      hk22, alg124_step, mk_rv, upd_neb _ 36 _ 34 rfl, hk21, alg123_step, mk_rv,
      upd_neb _ 27 _ 34 rfl, hk20, alg122_step, mk_rv, upd_neb _ 0 _ 34 rfl, setLastEq_step,
      mk_rv, k19rv, upd_neb _ 5 _ 34 rfl, hk18, alg114_step, mk_rv, hk17, alg113_step, mk_rv,
      upd_neb _ 43 _ 34 rfl, hk16, alg112_step, mk_rv, upd_neb _ 45 _ 34 rfl, hk15, alg111_step,
      mk_rv, upd_neb _ 46 _ 34 rfl, hk14, alg110_step, mk_rv, upd_neb _ 38 _ 34 rfl, hk13,
      alg109_step, mk_rv, upd_same, r13_rv10, r13_rv53]
  have grv38 : (setLastEq 139 k37).realVars 38 = 0.5 * u.realParameter 29 + u.realVars 30 * (((ext.getTimeTableValueNoDer ((u.timeValue)) (u.realVars 57) (u.realVarsPre 57)) - u.realVars 53) / (1 + u.realVars 30 * (if qLess (u.realVars 31 * ((ext.getTimeTableValueNoDer ((u.timeValue)) (u.realVars 57) (u.realVarsPre 57)) - u.realVars 53)) 0 then (-u.realVars 31) * ((ext.getTimeTableValueNoDer ((u.timeValue)) (u.realVars 57) (u.realVarsPre 57)) - u.realVars 53) else u.realVars 31 * ((ext.getTimeTableValueNoDer ((u.timeValue)) (u.realVars 57) (u.realVarsPre 57)) - u.realVars 53)))) := by
    rw [setLastEq_step, mk_rv, k37rv, setLastEq_step, mk_rv, k36rv, setLastEq_step, mk_rv, k35rv,
      setLastEq_step, mk_rv, k34rv, setLastEq_step, mk_rv, k33rv, setLastEq_step, mk_rv, k32rv,
      hk31, alg133_step, mk_rv, upd_neb _ 11 _ 38 rfl, hk30, alg132_step, mk_rv,
      upd_neb _ 3 _ 38 rfl, hk29, alg131_step, mk_rv, hk28, alg130_step, mk_rv, hk27, alg129_step,
      mk_rv, hk26, alg128_step, mk_rv, hk25, alg127_step, mk_rv, upd_neb _ 39 _ 38 rfl, hk24,
      alg126_step, mk_rv, upd_neb _ 41 _ 38 rfl, hk23, alg125_step, mk_rv, upd_neb _ 42 _ 38 rfl,
      hk22, alg124_step, mk_rv, upd_neb _ 36 _ 38 rfl, hk21, alg123_step, mk_rv,
      upd_neb _ 27 _ 38 rfl, hk20, alg122_step, mk_rv, upd_neb _ 0 _ 38 rfl, setLastEq_step,
      mk_rv, k19rv, upd_neb _ 5 _ 38 rfl, hk18, alg114_step, mk_rv, hk17, alg113_step, mk_rv,
      upd_neb _ 43 _ 38 rfl, hk16, alg112_step, mk_rv, upd_neb _ 45 _ 38 rfl, hk15, alg111_step,
      mk_rv, upd_neb _ 46 _ 38 rfl, hk14, alg110_step, mk_rv, upd_same, r14_rv30, r14_rv34,
      r14_rv31, fr14_par]
  have grv46 : (setLastEq 139 k37).realVars 46 = u.realParameter 29 - (0.5 * u.realParameter 29 + u.realVars 30 * (((ext.getTimeTableValueNoDer ((u.timeValue)) (u.realVars 57) (u.realVarsPre 57)) - u.realVars 53) / (1 + u.realVars 30 * (if qLess (u.realVars 31 * ((ext.getTimeTableValueNoDer ((u.timeValue)) (u.realVars 57) (u.realVarsPre 57)) - u.realVars 53)) 0 then (-u.realVars 31) * ((ext.getTimeTableValueNoDer ((u.timeValue)) (u.realVars 57) (u.realVarsPre 57)) - u.realVars 53) else u.realVars 31 * ((ext.getTimeTableValueNoDer ((u.timeValue)) (u.realVars 57) (u.realVarsPre 57)) - u.realVars 53))))) := by
    rw [setLastEq_step, mk_rv, k37rv, setLastEq_step, mk_rv, k36rv, setLastEq_step, mk_rv, k35rv,
      setLastEq_step, mk_rv, k34rv, setLastEq_step, mk_rv, k33rv, setLastEq_step, mk_rv, k32rv,
      hk31, alg133_step, mk_rv, upd_neb _ 11 _ 46 rfl, hk30, alg132_step, mk_rv,
      upd_neb _ 3 _ 46 rfl, hk29, alg131_step, mk_rv, hk28, alg130_step, mk_rv, hk27, alg129_step,
      mk_rv, hk26, alg128_step, mk_rv, hk25, alg127_step, mk_rv, upd_neb _ 39 _ 46 rfl, hk24,
      alg126_step, mk_rv, upd_neb _ 41 _ 46 rfl, hk23, alg125_step, mk_rv, upd_neb _ 42 _ 46 rfl,
      hk22, alg124_step, mk_rv, upd_neb _ 36 _ 46 rfl, hk21, alg123_step, mk_rv,
      upd_neb _ 27 _ 46 rfl, hk20, alg122_step, mk_rv, upd_neb _ 0 _ 46 rfl, setLastEq_step,
      mk_rv, k19rv, upd_neb _ 5 _ 46 rfl, hk18, alg114_step, mk_rv, hk17, alg113_step, mk_rv,
      upd_neb _ 43 _ 46 rfl, hk16, alg112_step, mk_rv, upd_neb _ 45 _ 46 rfl, hk15, alg111_step,
      mk_rv, upd_same, r15_rv38, fr15_par]
  have grv45 : (setLastEq 139 k37).realVars 45 = (u.realParameter 29 - (0.5 * u.realParameter 29 + u.realVars 30 * (((ext.getTimeTableValueNoDer ((u.timeValue)) (u.realVars 57) (u.realVarsPre 57)) - u.realVars 53) / (1 + u.realVars 30 * (if qLess (u.realVars 31 * ((ext.getTimeTableValueNoDer ((u.timeValue)) (u.realVars 57) (u.realVarsPre 57)) - u.realVars 53)) 0 then (-u.realVars 31) * ((ext.getTimeTableValueNoDer ((u.timeValue)) (u.realVars 57) (u.realVarsPre 57)) - u.realVars 53) else u.realVars 31 * ((ext.getTimeTableValueNoDer ((u.timeValue)) (u.realVars 57) (u.realVarsPre 57)) - u.realVars 53)))))) / u.realVars 44 := by
    rw [setLastEq_step, mk_rv, k37rv, setLastEq_step, mk_rv, k36rv, setLastEq_step, mk_rv, k35rv,
      setLastEq_step, mk_rv, k34rv, setLastEq_step, mk_rv, k33rv, setLastEq_step, mk_rv, k32rv,
      hk31, alg133_step, mk_rv, upd_neb _ 11 _ 45 rfl, hk30, alg132_step, mk_rv,
      upd_neb _ 3 _ 45 rfl, hk29, alg131_step, mk_rv, hk28, alg130_step, mk_rv, hk27, alg129_step,
      mk_rv, hk26, alg128_step, mk_rv, hk25, alg127_step, mk_rv, upd_neb _ 39 _ 45 rfl, hk24,
      alg126_step, mk_rv, upd_neb _ 41 _ 45 rfl, hk23, alg125_step, mk_rv, upd_neb _ 42 _ 45 rfl,
      hk22, alg124_step, mk_rv, upd_neb _ 36 _ 45 rfl, hk21, alg123_step, mk_rv,
      upd_neb _ 27 _ 45 rfl, hk20, alg122_step, mk_rv, upd_neb _ 0 _ 45 rfl, setLastEq_step,
      mk_rv, k19rv, upd_neb _ 5 _ 45 rfl, hk18, alg114_step, mk_rv, hk17, alg113_step, mk_rv,
      upd_neb _ 43 _ 45 rfl, hk16, alg112_step, mk_rv, upd_same, r16_rv46, r16_rv44]
  have grv43 : (setLastEq 139 k37).realVars 43 = (u.realParameter 29 - (0.5 * u.realParameter 29 + u.realVars 30 * (((ext.getTimeTableValueNoDer ((u.timeValue)) (u.realVars 57) (u.realVarsPre 57)) - u.realVars 53) / (1 + u.realVars 30 * (if qLess (u.realVars 31 * ((ext.getTimeTableValueNoDer ((u.timeValue)) (u.realVars 57) (u.realVarsPre 57)) - u.realVars 53)) 0 then (-u.realVars 31) * ((ext.getTimeTableValueNoDer ((u.timeValue)) (u.realVars 57) (u.realVarsPre 57)) - u.realVars 53) else u.realVars 31 * ((ext.getTimeTableValueNoDer ((u.timeValue)) (u.realVars 57) (u.realVarsPre 57)) - u.realVars 53)))))) * ((u.realParameter 29 - (0.5 * u.realParameter 29 + u.realVars 30 * (((ext.getTimeTableValueNoDer ((u.timeValue)) (u.realVars 57) (u.realVarsPre 57)) - u.realVars 53) / (1 + u.realVars 30 * (if qLess (u.realVars 31 * ((ext.getTimeTableValueNoDer ((u.timeValue)) (u.realVars 57) (u.realVarsPre 57)) - u.realVars 53)) 0 then (-u.realVars 31) * ((ext.getTimeTableValueNoDer ((u.timeValue)) (u.realVars 57) (u.realVarsPre 57)) - u.realVars 53) else u.realVars 31 * ((ext.getTimeTableValueNoDer ((u.timeValue)) (u.realVars 57) (u.realVarsPre 57)) - u.realVars 53)))))) / u.realVars 44) := by
    rw [setLastEq_step, mk_rv, k37rv, setLastEq_step, mk_rv, k36rv, setLastEq_step, mk_rv, k35rv,
      setLastEq_step, mk_rv, k34rv, setLastEq_step, mk_rv, k33rv, setLastEq_step, mk_rv, k32rv,
      hk31, alg133_step, mk_rv, upd_neb _ 11 _ 43 rfl, hk30, alg132_step, mk_rv,
      upd_neb _ 3 _ 43 rfl, hk29, alg131_step, mk_rv, hk28, alg130_step, mk_rv, hk27, alg129_step,
      mk_rv, hk26, alg128_step, mk_rv, hk25, alg127_step, mk_rv, upd_neb _ 39 _ 43 rfl, hk24,
      alg126_step, mk_rv, upd_neb _ 41 _ 43 rfl, hk23, alg125_step, mk_rv, upd_neb _ 42 _ 43 rfl,
      hk22, alg124_step, mk_rv, upd_neb _ 36 _ 43 rfl, hk21, alg123_step, mk_rv,
      upd_neb _ 27 _ 43 rfl, hk20, alg122_step, mk_rv, upd_neb _ 0 _ 43 rfl, setLastEq_step,
      mk_rv, k19rv, upd_neb _ 5 _ 43 rfl, hk18, alg114_step, mk_rv, hk17, alg113_step, mk_rv,
      upd_same, r17_rv46, r17_rv45]
  have gbv3 : (setLastEq 139 k37).booleanVars 3 = ext.relationhysteresis .greaterEq ((0.5 * u.realParameter 29 + u.realVars 30 * (((ext.getTimeTableValueNoDer ((u.timeValue)) (u.realVars 57) (u.realVarsPre 57)) - u.realVars 53) / (1 + u.realVars 30 * (if qLess (u.realVars 31 * ((ext.getTimeTableValueNoDer ((u.timeValue)) (u.realVars 57) (u.realVarsPre 57)) - u.realVars 53)) 0 then (-u.realVars 31) * ((ext.getTimeTableValueNoDer ((u.timeValue)) (u.realVars 57) (u.realVarsPre 57)) - u.realVars 53) else u.realVars 31 * ((ext.getTimeTableValueNoDer ((u.timeValue)) (u.realVars 57) (u.realVarsPre 57)) - u.realVars 53)))))) (u.realParameter 33) (u.storedRelations 1) := by
    rw [setLastEq_step, mk_bv, k37bv, setLastEq_step, mk_bv, k36bv, setLastEq_step, mk_bv, k35bv,
      setLastEq_step, mk_bv, k34bv, setLastEq_step, mk_bv, k33bv, setLastEq_step, mk_bv, k32bv,
      hk31, alg133_step, mk_bv, hk30, alg132_step, mk_bv, hk29, alg131_step, mk_bv,
      upd_neb _ 9 _ 3 rfl, hk28, alg130_step, mk_bv, upd_neb _ 7 _ 3 rfl, hk27, alg129_step,
      mk_bv, upd_neb _ 6 _ 3 rfl, hk26, alg128_step, mk_bv, upd_neb _ 4 _ 3 rfl, hk25,
      alg127_step, mk_bv, hk24, alg126_step, mk_bv, hk23, alg125_step, mk_bv, hk22, alg124_step,
      mk_bv, hk21, alg123_step, mk_bv, hk20, alg122_step, mk_bv, setLastEq_step, mk_bv, k19bv,
      hk18, alg114_step, mk_bv, upd_same, r18_rv38, fr18_par, fr18_stored]
  have grv5 : (setLastEq 139 k37).realVars 5 = u.realVars1 5 - lsResidualValue 3 u (u.realVars1 5) / lsResidualSlope 3 u := by
    rw [setLastEq_step, mk_rv, k37rv, setLastEq_step, mk_rv, k36rv, setLastEq_step, mk_rv, k35rv,
      setLastEq_step, mk_rv, k34rv, setLastEq_step, mk_rv, k33rv, setLastEq_step, mk_rv, k32rv,
      hk31, alg133_step, mk_rv, upd_neb _ 11 _ 5 rfl, hk30, alg132_step, mk_rv,
      upd_neb _ 3 _ 5 rfl, hk29, alg131_step, mk_rv, hk28, alg130_step, mk_rv, hk27, alg129_step,
      mk_rv, hk26, alg128_step, mk_rv, hk25, alg127_step, mk_rv, upd_neb _ 39 _ 5 rfl, hk24,
      alg126_step, mk_rv, upd_neb _ 41 _ 5 rfl, hk23, alg125_step, mk_rv, upd_neb _ 42 _ 5 rfl,
      hk22, alg124_step, mk_rv, upd_neb _ 36 _ 5 rfl, hk21, alg123_step, mk_rv,
      upd_neb _ 27 _ 5 rfl, hk20, alg122_step, mk_rv, upd_neb _ 0 _ 5 rfl, setLastEq_step, mk_rv,
      k19rv, upd_same, hrv1k18, lsResidualValue3_congr k18 u h1k18 h4k18 hp29k18,
      lsResidualSlope3_congr k18 u h1k18 h4k18 hp29k18]
  have grv0 : (setLastEq 139 k37).realVars 0 = u.realVars 2 * (u.realVars1 5 - lsResidualValue 3 u (u.realVars1 5) / lsResidualSlope 3 u) := by
    rw [setLastEq_step, mk_rv, k37rv, setLastEq_step, mk_rv, k36rv, setLastEq_step, mk_rv, k35rv,
      setLastEq_step, mk_rv, k34rv, setLastEq_step, mk_rv, k33rv, setLastEq_step, mk_rv, k32rv,
      hk31, alg133_step, mk_rv, upd_neb _ 11 _ 0 rfl, hk30, alg132_step, mk_rv,
      upd_neb _ 3 _ 0 rfl, hk29, alg131_step, mk_rv, hk28, alg130_step, mk_rv, hk27, alg129_step,
      mk_rv, hk26, alg128_step, mk_rv, hk25, alg127_step, mk_rv, upd_neb _ 39 _ 0 rfl, hk24,
      alg126_step, mk_rv, upd_neb _ 41 _ 0 rfl, hk23, alg125_step, mk_rv, upd_neb _ 42 _ 0 rfl,
      hk22, alg124_step, mk_rv, upd_neb _ 36 _ 0 rfl, hk21, alg123_step, mk_rv,
      upd_neb _ 27 _ 0 rfl, hk20, alg122_step, mk_rv, upd_same, setLastEq_step, mk_rv, r20_rv2,
      r20_rv5]
  have grv27 : (setLastEq 139 k37).realVars 27 = u.realVars 6 - (ext.getTimeTableValueNoDer ((u.timeValue)) (u.realVars 57) (u.realVarsPre 57)) := by
    rw [setLastEq_step, mk_rv, k37rv, setLastEq_step, mk_rv, k36rv, setLastEq_step, mk_rv, k35rv,
      setLastEq_step, mk_rv, k34rv, setLastEq_step, mk_rv, k33rv, setLastEq_step, mk_rv, k32rv,
      hk31, alg133_step, mk_rv, upd_neb _ 11 _ 27 rfl, hk30, alg132_step, mk_rv,
      upd_neb _ 3 _ 27 rfl, hk29, alg131_step, mk_rv, hk28, alg130_step, mk_rv, hk27, alg129_step,
      mk_rv, hk26, alg128_step, mk_rv, hk25, alg127_step, mk_rv, upd_neb _ 39 _ 27 rfl, hk24,
      alg126_step, mk_rv, upd_neb _ 41 _ 27 rfl, hk23, alg125_step, mk_rv, upd_neb _ 42 _ 27 rfl,
      hk22, alg124_step, mk_rv, upd_neb _ 36 _ 27 rfl, hk21, alg123_step, mk_rv, upd_same,
      r21_rv6, r21_rv10]
  have grv36 : (setLastEq 139 k37).realVars 36 = 0.5 * u.realParameter 29 + u.realVars 23 * ((u.realVars 6 - (ext.getTimeTableValueNoDer ((u.timeValue)) (u.realVars 57) (u.realVarsPre 57))) / (1 + u.realVars 23 * (if qLess (u.realVars 24 * (u.realVars 6 - (ext.getTimeTableValueNoDer ((u.timeValue)) (u.realVars 57) (u.realVarsPre 57)))) 0 then (-u.realVars 24) * (u.realVars 6 - (ext.getTimeTableValueNoDer ((u.timeValue)) (u.realVars 57) (u.realVarsPre 57))) else u.realVars 24 * (u.realVars 6 - (ext.getTimeTableValueNoDer ((u.timeValue)) (u.realVars 57) (u.realVarsPre 57)))))) := by
    rw [setLastEq_step, mk_rv, k37rv, setLastEq_step, mk_rv, k36rv, setLastEq_step, mk_rv, k35rv,
      setLastEq_step, mk_rv, k34rv, setLastEq_step, mk_rv, k33rv, setLastEq_step, mk_rv, k32rv,
      hk31, alg133_step, mk_rv, upd_neb _ 11 _ 36 rfl, hk30, alg132_step, mk_rv,
      upd_neb _ 3 _ 36 rfl, hk29, alg131_step, mk_rv, hk28, alg130_step, mk_rv, hk27, alg129_step,
      mk_rv, hk26, alg128_step, mk_rv, hk25, alg127_step, mk_rv, upd_neb _ 39 _ 36 rfl, hk24,
      alg126_step, mk_rv, upd_neb _ 41 _ 36 rfl, hk23, alg125_step, mk_rv, upd_neb _ 42 _ 36 rfl,
      hk22, alg124_step, mk_rv, upd_same, r22_rv23, r22_rv27, r22_rv24, fr22_par]
  have grv42 : (setLastEq 139 k37).realVars 42 = u.realParameter 29 - (0.5 * u.realParameter 29 + u.realVars 23 * ((u.realVars 6 - (ext.getTimeTableValueNoDer ((u.timeValue)) (u.realVars 57) (u.realVarsPre 57))) / (1 + u.realVars 23 * (if qLess (u.realVars 24 * (u.realVars 6 - (ext.getTimeTableValueNoDer ((u.timeValue)) (u.realVars 57) (u.realVarsPre 57)))) 0 then (-u.realVars 24) * (u.realVars 6 - (ext.getTimeTableValueNoDer ((u.timeValue)) (u.realVars 57) (u.realVarsPre 57))) else u.realVars 24 * (u.realVars 6 - (ext.getTimeTableValueNoDer ((u.timeValue)) (u.realVars 57) (u.realVarsPre 57))))))) := by
    rw [setLastEq_step, mk_rv, k37rv, setLastEq_step, mk_rv, k36rv, setLastEq_step, mk_rv, k35rv,
      setLastEq_step, mk_rv, k34rv, setLastEq_step, mk_rv, k33rv, setLastEq_step, mk_rv, k32rv,
      hk31, alg133_step, mk_rv, upd_neb _ 11 _ 42 rfl, hk30, alg132_step, mk_rv,
      upd_neb _ 3 _ 42 rfl, hk29, alg131_step, mk_rv, hk28, alg130_step, mk_rv, hk27, alg129_step,
      mk_rv, hk26, alg128_step, mk_rv, hk25, alg127_step, mk_rv, upd_neb _ 39 _ 42 rfl, hk24,
      alg126_step, mk_rv, upd_neb _ 41 _ 42 rfl, hk23, alg125_step, mk_rv, upd_same, r23_rv36,
      fr23_par]
  have grv41 : (setLastEq 139 k37).realVars 41 = (u.realParameter 29 - (0.5 * u.realParameter 29 + u.realVars 23 * ((u.realVars 6 - (ext.getTimeTableValueNoDer ((u.timeValue)) (u.realVars 57) (u.realVarsPre 57))) / (1 + u.realVars 23 * (if qLess (u.realVars 24 * (u.realVars 6 - (ext.getTimeTableValueNoDer ((u.timeValue)) (u.realVars 57) (u.realVarsPre 57)))) 0 then (-u.realVars 24) * (u.realVars 6 - (ext.getTimeTableValueNoDer ((u.timeValue)) (u.realVars 57) (u.realVarsPre 57))) else u.realVars 24 * (u.realVars 6 - (ext.getTimeTableValueNoDer ((u.timeValue)) (u.realVars 57) (u.realVarsPre 57)))))))) / u.realVars 40 := by
    rw [setLastEq_step, mk_rv, k37rv, setLastEq_step, mk_rv, k36rv, setLastEq_step, mk_rv, k35rv,
      setLastEq_step, mk_rv, k34rv, setLastEq_step, mk_rv, k33rv, setLastEq_step, mk_rv, k32rv,
      hk31, alg133_step, mk_rv, upd_neb _ 11 _ 41 rfl, hk30, alg132_step, mk_rv,
      upd_neb _ 3 _ 41 rfl, hk29, alg131_step, mk_rv, hk28, alg130_step, mk_rv, hk27, alg129_step,
      mk_rv, hk26, alg128_step, mk_rv, hk25, alg127_step, mk_rv, upd_neb _ 39 _ 41 rfl, hk24,
      alg126_step, mk_rv, upd_same, r24_rv42, r24_rv40]
  have grv39 : (setLastEq 139 k37).realVars 39 = (u.realParameter 29 - (0.5 * u.realParameter 29 + u.realVars 23 * ((u.realVars 6 - (ext.getTimeTableValueNoDer ((u.timeValue)) (u.realVars 57) (u.realVarsPre 57))) / (1 + u.realVars 23 * (if qLess (u.realVars 24 * (u.realVars 6 - (ext.getTimeTableValueNoDer ((u.timeValue)) (u.realVars 57) (u.realVarsPre 57)))) 0 then (-u.realVars 24) * (u.realVars 6 - (ext.getTimeTableValueNoDer ((u.timeValue)) (u.realVars 57) (u.realVarsPre 57))) else u.realVars 24 * (u.realVars 6 - (ext.getTimeTableValueNoDer ((u.timeValue)) (u.realVars 57) (u.realVarsPre 57)))))))) * ((u.realParameter 29 - (0.5 * u.realParameter 29 + u.realVars 23 * ((u.realVars 6 - (ext.getTimeTableValueNoDer ((u.timeValue)) (u.realVars 57) (u.realVarsPre 57))) / (1 + u.realVars 23 * (if qLess (u.realVars 24 * (u.realVars 6 - (ext.getTimeTableValueNoDer ((u.timeValue)) (u.realVars 57) (u.realVarsPre 57)))) 0 then (-u.realVars 24) * (u.realVars 6 - (ext.getTimeTableValueNoDer ((u.timeValue)) (u.realVars 57) (u.realVarsPre 57))) else u.realVars 24 * (u.realVars 6 - (ext.getTimeTableValueNoDer ((u.timeValue)) (u.realVars 57) (u.realVarsPre 57)))))))) / u.realVars 40) := by
    rw [setLastEq_step, mk_rv, k37rv, setLastEq_step, mk_rv, k36rv, setLastEq_step, mk_rv, k35rv,
      setLastEq_step, mk_rv, k34rv, setLastEq_step, mk_rv, k33rv, setLastEq_step, mk_rv, k32rv,
      hk31, alg133_step, mk_rv, upd_neb _ 11 _ 39 rfl, hk30, alg132_step, mk_rv,
      upd_neb _ 3 _ 39 rfl, hk29, alg131_step, mk_rv, hk28, alg130_step, mk_rv, hk27, alg129_step,
      mk_rv, hk26, alg128_step, mk_rv, hk25, alg127_step, mk_rv, upd_same, r25_rv42, r25_rv41]
  have gbv4 : (setLastEq 139 k37).booleanVars 4 = ext.relationhysteresis .greaterEq ((0.5 * u.realParameter 29 + u.realVars 23 * ((u.realVars 6 - (ext.getTimeTableValueNoDer ((u.timeValue)) (u.realVars 57) (u.realVarsPre 57))) / (1 + u.realVars 23 * (if qLess (u.realVars 24 * (u.realVars 6 - (ext.getTimeTableValueNoDer ((u.timeValue)) (u.realVars 57) (u.realVarsPre 57)))) 0 then (-u.realVars 24) * (u.realVars 6 - (ext.getTimeTableValueNoDer ((u.timeValue)) (u.realVars 57) (u.realVarsPre 57))) else u.realVars 24 * (u.realVars 6 - (ext.getTimeTableValueNoDer ((u.timeValue)) (u.realVars 57) (u.realVarsPre 57)))))))) (u.realParameter 32) (u.storedRelations 0) := by
    rw [setLastEq_step, mk_bv, k37bv, setLastEq_step, mk_bv, k36bv, setLastEq_step, mk_bv, k35bv,
      setLastEq_step, mk_bv, k34bv, setLastEq_step, mk_bv, k33bv, setLastEq_step, mk_bv, k32bv,
      hk31, alg133_step, mk_bv, hk30, alg132_step, mk_bv, hk29, alg131_step, mk_bv,
      upd_neb _ 9 _ 4 rfl, hk28, alg130_step, mk_bv, upd_neb _ 7 _ 4 rfl, hk27, alg129_step,
      mk_bv, upd_neb _ 6 _ 4 rfl, hk26, alg128_step, mk_bv, upd_same, r26_rv36, fr26_par,
      fr26_stored]
  have gbv6 : (setLastEq 139 k37).booleanVars 6 = !((ext.relationhysteresis .greaterEq ((0.5 * u.realParameter 29 + u.realVars 23 * ((u.realVars 6 - (ext.getTimeTableValueNoDer ((u.timeValue)) (u.realVars 57) (u.realVarsPre 57))) / (1 + u.realVars 23 * (if qLess (u.realVars 24 * (u.realVars 6 - (ext.getTimeTableValueNoDer ((u.timeValue)) (u.realVars 57) (u.realVarsPre 57)))) 0 then (-u.realVars 24) * (u.realVars 6 - (ext.getTimeTableValueNoDer ((u.timeValue)) (u.realVars 57) (u.realVarsPre 57))) else u.realVars 24 * (u.realVars 6 - (ext.getTimeTableValueNoDer ((u.timeValue)) (u.realVars 57) (u.realVarsPre 57)))))))) (u.realParameter 32) (u.storedRelations 0)) && (ext.relationhysteresis .greaterEq ((0.5 * u.realParameter 29 + u.realVars 30 * (((ext.getTimeTableValueNoDer ((u.timeValue)) (u.realVars 57) (u.realVarsPre 57)) - u.realVars 53) / (1 + u.realVars 30 * (if qLess (u.realVars 31 * ((ext.getTimeTableValueNoDer ((u.timeValue)) (u.realVars 57) (u.realVarsPre 57)) - u.realVars 53)) 0 then (-u.realVars 31) * ((ext.getTimeTableValueNoDer ((u.timeValue)) (u.realVars 57) (u.realVarsPre 57)) - u.realVars 53) else u.realVars 31 * ((ext.getTimeTableValueNoDer ((u.timeValue)) (u.realVars 57) (u.realVarsPre 57)) - u.realVars 53)))))) (u.realParameter 33) (u.storedRelations 1))) := by
    rw [setLastEq_step, mk_bv, k37bv, setLastEq_step, mk_bv, k36bv, setLastEq_step, mk_bv, k35bv,
      setLastEq_step, mk_bv, k34bv, setLastEq_step, mk_bv, k33bv, setLastEq_step, mk_bv, k32bv,
      hk31, alg133_step, mk_bv, hk30, alg132_step, mk_bv, hk29, alg131_step, mk_bv,
      upd_neb _ 9 _ 6 rfl, hk28, alg130_step, mk_bv, upd_neb _ 7 _ 6 rfl, hk27, alg129_step,
      mk_bv, upd_same, r27_bv4, r27_bv3]
  have gbv7 : (setLastEq 139 k37).booleanVars 7 = !((u.booleanVarsPre 9) || (!((ext.relationhysteresis .greaterEq ((0.5 * u.realParameter 29 + u.realVars 23 * ((u.realVars 6 - (ext.getTimeTableValueNoDer ((u.timeValue)) (u.realVars 57) (u.realVarsPre 57))) / (1 + u.realVars 23 * (if qLess (u.realVars 24 * (u.realVars 6 - (ext.getTimeTableValueNoDer ((u.timeValue)) (u.realVars 57) (u.realVarsPre 57)))) 0 then (-u.realVars 24) * (u.realVars 6 - (ext.getTimeTableValueNoDer ((u.timeValue)) (u.realVars 57) (u.realVarsPre 57))) else u.realVars 24 * (u.realVars 6 - (ext.getTimeTableValueNoDer ((u.timeValue)) (u.realVars 57) (u.realVarsPre 57)))))))) (u.realParameter 32) (u.storedRelations 0)) && (ext.relationhysteresis .greaterEq ((0.5 * u.realParameter 29 + u.realVars 30 * (((ext.getTimeTableValueNoDer ((u.timeValue)) (u.realVars 57) (u.realVarsPre 57)) - u.realVars 53) / (1 + u.realVars 30 * (if qLess (u.realVars 31 * ((ext.getTimeTableValueNoDer ((u.timeValue)) (u.realVars 57) (u.realVarsPre 57)) - u.realVars 53)) 0 then (-u.realVars 31) * ((ext.getTimeTableValueNoDer ((u.timeValue)) (u.realVars 57) (u.realVarsPre 57)) - u.realVars 53) else u.realVars 31 * ((ext.getTimeTableValueNoDer ((u.timeValue)) (u.realVars 57) (u.realVarsPre 57)) - u.realVars 53)))))) (u.realParameter 33) (u.storedRelations 1))))) := by
    rw [setLastEq_step, mk_bv, k37bv, setLastEq_step, mk_bv, k36bv, setLastEq_step, mk_bv, k35bv,
      setLastEq_step, mk_bv, k34bv, setLastEq_step, mk_bv, k33bv, setLastEq_step, mk_bv, k32bv,
      hk31, alg133_step, mk_bv, hk30, alg132_step, mk_bv, hk29, alg131_step, mk_bv,
      upd_neb _ 9 _ 7 rfl, hk28, alg130_step, mk_bv, upd_same, r28_bv10, r28_bv6]
  have gbv9 : (setLastEq 139 k37).booleanVars 9 = !((!((u.booleanVarsPre 9) || (!((ext.relationhysteresis .greaterEq ((0.5 * u.realParameter 29 + u.realVars 23 * ((u.realVars 6 - (ext.getTimeTableValueNoDer ((u.timeValue)) (u.realVars 57) (u.realVarsPre 57))) / (1 + u.realVars 23 * (if qLess (u.realVars 24 * (u.realVars 6 - (ext.getTimeTableValueNoDer ((u.timeValue)) (u.realVars 57) (u.realVarsPre 57)))) 0 then (-u.realVars 24) * (u.realVars 6 - (ext.getTimeTableValueNoDer ((u.timeValue)) (u.realVars 57) (u.realVarsPre 57))) else u.realVars 24 * (u.realVars 6 - (ext.getTimeTableValueNoDer ((u.timeValue)) (u.realVars 57) (u.realVarsPre 57)))))))) (u.realParameter 32) (u.storedRelations 0)) && (ext.relationhysteresis .greaterEq ((0.5 * u.realParameter 29 + u.realVars 30 * (((ext.getTimeTableValueNoDer ((u.timeValue)) (u.realVars 57) (u.realVarsPre 57)) - u.realVars 53) / (1 + u.realVars 30 * (if qLess (u.realVars 31 * ((ext.getTimeTableValueNoDer ((u.timeValue)) (u.realVars 57) (u.realVarsPre 57)) - u.realVars 53)) 0 then (-u.realVars 31) * ((ext.getTimeTableValueNoDer ((u.timeValue)) (u.realVars 57) (u.realVarsPre 57)) - u.realVars 53) else u.realVars 31 * ((ext.getTimeTableValueNoDer ((u.timeValue)) (u.realVars 57) (u.realVarsPre 57)) - u.realVars 53)))))) (u.realParameter 33) (u.storedRelations 1)))))) || ((ext.relationhysteresis .greaterEq u.timeValue 0.95 (u.storedRelations 4) && ext.relationhysteresis .lessEq u.timeValue 0.96 (u.storedRelations 5)))) := by
    rw [setLastEq_step, mk_bv, k37bv, setLastEq_step, mk_bv, k36bv, setLastEq_step, mk_bv, k35bv,
      setLastEq_step, mk_bv, k34bv, setLastEq_step, mk_bv, k33bv, setLastEq_step, mk_bv, k32bv,
      hk31, alg133_step, mk_bv, hk30, alg132_step, mk_bv, hk29, alg131_step, mk_bv, upd_same,
      r29_bv7, r29_bv11]
  have grv3 : (setLastEq 139 k37).realVars 3 = u.realVars 6 * (u.realVars1 5 - lsResidualValue 3 u (u.realVars1 5) / lsResidualSlope 3 u) := by
    rw [setLastEq_step, mk_rv, k37rv, setLastEq_step, mk_rv, k36rv, setLastEq_step, mk_rv, k35rv,
      setLastEq_step, mk_rv, k34rv, setLastEq_step, mk_rv, k33rv, setLastEq_step, mk_rv, k32rv,
      hk31, alg133_step, mk_rv, upd_neb _ 11 _ 3 rfl, hk30, alg132_step, mk_rv, upd_same, r30_rv6,
      r30_rv5]
  have grv11 : (setLastEq 139 k37).realVars 11 = -u.realVars 52 - ((u.realParameter 29 - (0.5 * u.realParameter 29 + u.realVars 30 * (((ext.getTimeTableValueNoDer ((u.timeValue)) (u.realVars 57) (u.realVarsPre 57)) - u.realVars 53) / (1 + u.realVars 30 * (if qLess (u.realVars 31 * ((ext.getTimeTableValueNoDer ((u.timeValue)) (u.realVars 57) (u.realVarsPre 57)) - u.realVars 53)) 0 then (-u.realVars 31) * ((ext.getTimeTableValueNoDer ((u.timeValue)) (u.realVars 57) (u.realVarsPre 57)) - u.realVars 53) else u.realVars 31 * ((ext.getTimeTableValueNoDer ((u.timeValue)) (u.realVars 57) (u.realVarsPre 57)) - u.realVars 53)))))) / u.realVars 44) - ((u.realParameter 29 - (0.5 * u.realParameter 29 + u.realVars 23 * ((u.realVars 6 - (ext.getTimeTableValueNoDer ((u.timeValue)) (u.realVars 57) (u.realVarsPre 57))) / (1 + u.realVars 23 * (if qLess (u.realVars 24 * (u.realVars 6 - (ext.getTimeTableValueNoDer ((u.timeValue)) (u.realVars 57) (u.realVarsPre 57)))) 0 then (-u.realVars 24) * (u.realVars 6 - (ext.getTimeTableValueNoDer ((u.timeValue)) (u.realVars 57) (u.realVarsPre 57))) else u.realVars 24 * (u.realVars 6 - (ext.getTimeTableValueNoDer ((u.timeValue)) (u.realVars 57) (u.realVarsPre 57)))))))) / u.realVars 40) - (u.realVars1 5 - lsResidualValue 3 u (u.realVars1 5) / lsResidualSlope 3 u) := by
    rw [setLastEq_step, mk_rv, k37rv, setLastEq_step, mk_rv, k36rv, setLastEq_step, mk_rv, k35rv,
      setLastEq_step, mk_rv, k34rv, setLastEq_step, mk_rv, k33rv, setLastEq_step, mk_rv, k32rv,
      hk31, alg133_step, mk_rv, upd_same, r31_rv52, r31_rv45, r31_rv41, r31_rv5]
  have gOtherRv : ∀ i, ¬ i ∈ algRealWrites → (setLastEq 139 k37).realVars i = u.realVars i := by
    intro i hi
    simp only [algRealWrites, List.mem_cons, List.not_mem_nil, or_false] at hi
    push_neg at hi
    obtain ⟨nr49, nr47, nr50, nr9, nr10, nr34, nr38, nr46, nr45, nr43, nr5, nr0, nr27, nr36, nr42, nr41, nr39, nr3, nr11⟩ := hi
    rw [setLastEq_step, mk_rv, k37rv, setLastEq_step, mk_rv, k36rv, setLastEq_step, mk_rv, k35rv,
      setLastEq_step, mk_rv, k34rv, setLastEq_step, mk_rv, k33rv, setLastEq_step, mk_rv, k32rv,
      hk31, alg133_step, mk_rv, upd_ne _ 11 _ i nr11, hk30, alg132_step, mk_rv,
      upd_ne _ 3 _ i nr3, hk29, alg131_step, mk_rv, hk28, alg130_step, mk_rv, hk27, alg129_step,
      mk_rv, hk26, alg128_step, mk_rv, hk25, alg127_step, mk_rv, upd_ne _ 39 _ i nr39, hk24,
      alg126_step, mk_rv, upd_ne _ 41 _ i nr41, hk23, alg125_step, mk_rv, upd_ne _ 42 _ i nr42,
      hk22, alg124_step, mk_rv, upd_ne _ 36 _ i nr36, hk21, alg123_step, mk_rv,
      upd_ne _ 27 _ i nr27, hk20, alg122_step, mk_rv, upd_ne _ 0 _ i nr0, setLastEq_step, mk_rv,
      k19rv, upd_ne _ 5 _ i nr5, hk18, alg114_step, mk_rv, hk17, alg113_step, mk_rv,
      upd_ne _ 43 _ i nr43, hk16, alg112_step, mk_rv, upd_ne _ 45 _ i nr45, hk15, alg111_step,
      mk_rv, upd_ne _ 46 _ i nr46, hk14, alg110_step, mk_rv, upd_ne _ 38 _ i nr38, hk13,
      alg109_step, mk_rv, upd_ne _ 34 _ i nr34, hk12, alg107_step, mk_rv, upd_ne _ 10 _ i nr10,
      hk11, alg105_step, mk_rv, upd_ne _ 9 _ i nr9, hk10, alg104_step, mk_rv, hk9, alg103_step,
      mk_rv, hk8, alg102_step, mk_rv, hk7, alg101_step, mk_rv, hk6, alg100_step, mk_rv,
      upd_ne _ 50 _ i nr50, hk5, alg99_step, mk_rv, upd_ne _ 47 _ i nr47, setLastEq_step, mk_rv,
      k4rv, upd_ne _ 49 _ i nr49, hk3, alg91_step, mk_rv, hk2, alg90_step, mk_rv, hk1, alg89_step,
      mk_rv]
  have gOtherBv : ∀ i, ¬ i ∈ algBoolWrites → (setLastEq 139 k37).booleanVars i = u.booleanVars i := by
    intro i hi
    simp only [algBoolWrites, List.mem_cons, List.not_mem_nil, or_false] at hi
    push_neg at hi
    obtain ⟨nb0, nb11, nb2, nb10, nb5, nb1, nb8, nb3, nb4, nb6, nb7, nb9⟩ := hi
    rw [setLastEq_step, mk_bv, k37bv, setLastEq_step, mk_bv, k36bv, setLastEq_step, mk_bv, k35bv,
      setLastEq_step, mk_bv, k34bv, setLastEq_step, mk_bv, k33bv, setLastEq_step, mk_bv, k32bv,
      hk31, alg133_step, mk_bv, hk30, alg132_step, mk_bv, hk29, alg131_step, mk_bv,
      upd_ne _ 9 _ i nb9, hk28, alg130_step, mk_bv, upd_ne _ 7 _ i nb7, hk27, alg129_step, mk_bv,
      upd_ne _ 6 _ i nb6, hk26, alg128_step, mk_bv, upd_ne _ 4 _ i nb4, hk25, alg127_step, mk_bv,
      hk24, alg126_step, mk_bv, hk23, alg125_step, mk_bv, hk22, alg124_step, mk_bv, hk21,
      alg123_step, mk_bv, hk20, alg122_step, mk_bv, setLastEq_step, mk_bv, k19bv, hk18,
      alg114_step, mk_bv, upd_ne _ 3 _ i nb3, hk17, alg113_step, mk_bv, hk16, alg112_step, mk_bv,
      hk15, alg111_step, mk_bv, hk14, alg110_step, mk_bv, hk13, alg109_step, mk_bv, hk12,
      alg107_step, mk_bv, hk11, alg105_step, mk_bv, hk10, alg104_step, mk_bv, upd_ne _ 8 _ i nb8,
      hk9, alg103_step, mk_bv, upd_ne _ 1 _ i nb1, hk8, alg102_step, mk_bv, upd_ne _ 5 _ i nb5,
      hk7, alg101_step, mk_bv, upd_ne _ 10 _ i nb10, hk6, alg100_step, mk_bv, hk5, alg99_step,
      mk_bv, setLastEq_step, mk_bv, k4bv, hk3, alg91_step, mk_bv, upd_ne _ 2 _ i nb2, hk2,
      alg90_step, mk_bv, upd_ne _ 11 _ i nb11, hk1, alg89_step, mk_bv, upd_ne _ 0 _ i nb0]
  have gFrv1 : (setLastEq 139 k37).realVars1 = u.realVars1 := by
    rw [setLastEq_step, mk_rv1, k37rv1, setLastEq_step, mk_rv1, k36rv1, setLastEq_step, mk_rv1,
      k35rv1, setLastEq_step, mk_rv1, k34rv1, setLastEq_step, mk_rv1, k33rv1, setLastEq_step,
      mk_rv1, k32rv1, hk31, alg133_step, mk_rv1, hk30, alg132_step, mk_rv1, hk29, alg131_step,
      mk_rv1, hk28, alg130_step, mk_rv1, hk27, alg129_step, mk_rv1, hk26, alg128_step, mk_rv1,
      hk25, alg127_step, mk_rv1, hk24, alg126_step, mk_rv1, hk23, alg125_step, mk_rv1, hk22,
      alg124_step, mk_rv1, hk21, alg123_step, mk_rv1, hk20, alg122_step, mk_rv1, setLastEq_step,
      mk_rv1, k19rv1, hk18, alg114_step, mk_rv1, hk17, alg113_step, mk_rv1, hk16, alg112_step,
      mk_rv1, hk15, alg111_step, mk_rv1, hk14, alg110_step, mk_rv1, hk13, alg109_step, mk_rv1,
      hk12, alg107_step, mk_rv1, hk11, alg105_step, mk_rv1, hk10, alg104_step, mk_rv1, hk9,
      alg103_step, mk_rv1, hk8, alg102_step, mk_rv1, hk7, alg101_step, mk_rv1, hk6, alg100_step,
      mk_rv1, hk5, alg99_step, mk_rv1, setLastEq_step, mk_rv1, k4rv1, hk3, alg91_step, mk_rv1,
      hk2, alg90_step, mk_rv1, hk1, alg89_step, mk_rv1]
  have gFpre : (setLastEq 139 k37).realVarsPre = u.realVarsPre := by
    rw [setLastEq_step, mk_pre, k37pre, setLastEq_step, mk_pre, k36pre, setLastEq_step, mk_pre,
      k35pre, setLastEq_step, mk_pre, k34pre, setLastEq_step, mk_pre, k33pre, setLastEq_step,
      mk_pre, k32pre, hk31, alg133_step, mk_pre, hk30, alg132_step, mk_pre, hk29, alg131_step,
      mk_pre, hk28, alg130_step, mk_pre, hk27, alg129_step, mk_pre, hk26, alg128_step, mk_pre,
      hk25, alg127_step, mk_pre, hk24, alg126_step, mk_pre, hk23, alg125_step, mk_pre, hk22,
      alg124_step, mk_pre, hk21, alg123_step, mk_pre, hk20, alg122_step, mk_pre, setLastEq_step,
      mk_pre, k19pre, hk18, alg114_step, mk_pre, hk17, alg113_step, mk_pre, hk16, alg112_step,
      mk_pre, hk15, alg111_step, mk_pre, hk14, alg110_step, mk_pre, hk13, alg109_step, mk_pre,
      hk12, alg107_step, mk_pre, hk11, alg105_step, mk_pre, hk10, alg104_step, mk_pre, hk9,
      alg103_step, mk_pre, hk8, alg102_step, mk_pre, hk7, alg101_step, mk_pre, hk6, alg100_step,
      mk_pre, hk5, alg99_step, mk_pre, setLastEq_step, mk_pre, k4pre, hk3, alg91_step, mk_pre,
      hk2, alg90_step, mk_pre, hk1, alg89_step, mk_pre]
  have gFbpre : (setLastEq 139 k37).booleanVarsPre = u.booleanVarsPre := by
    rw [setLastEq_step, mk_bpre, k37bpre, setLastEq_step, mk_bpre, k36bpre, setLastEq_step,
      mk_bpre, k35bpre, setLastEq_step, mk_bpre, k34bpre, setLastEq_step, mk_bpre, k33bpre,
      setLastEq_step, mk_bpre, k32bpre, hk31, alg133_step, mk_bpre, hk30, alg132_step, mk_bpre,
      hk29, alg131_step, mk_bpre, hk28, alg130_step, mk_bpre, hk27, alg129_step, mk_bpre, hk26,
      alg128_step, mk_bpre, hk25, alg127_step, mk_bpre, hk24, alg126_step, mk_bpre, hk23,
      alg125_step, mk_bpre, hk22, alg124_step, mk_bpre, hk21, alg123_step, mk_bpre, hk20,
      alg122_step, mk_bpre, setLastEq_step, mk_bpre, k19bpre, hk18, alg114_step, mk_bpre, hk17,
      alg113_step, mk_bpre, hk16, alg112_step, mk_bpre, hk15, alg111_step, mk_bpre, hk14,
      alg110_step, mk_bpre, hk13, alg109_step, mk_bpre, hk12, alg107_step, mk_bpre, hk11,
      alg105_step, mk_bpre, hk10, alg104_step, mk_bpre, hk9, alg103_step, mk_bpre, hk8,
      alg102_step, mk_bpre, hk7, alg101_step, mk_bpre, hk6, alg100_step, mk_bpre, hk5, alg99_step,
      mk_bpre, setLastEq_step, mk_bpre, k4bpre, hk3, alg91_step, mk_bpre, hk2, alg90_step,
      mk_bpre, hk1, alg89_step, mk_bpre]
  have gFpar : (setLastEq 139 k37).realParameter = u.realParameter := by
    rw [setLastEq_step, mk_par, k37par, setLastEq_step, mk_par, k36par, setLastEq_step, mk_par,
      k35par, setLastEq_step, mk_par, k34par, setLastEq_step, mk_par, k33par, setLastEq_step,
      mk_par, k32par, hk31, alg133_step, mk_par, hk30, alg132_step, mk_par, hk29, alg131_step,
      mk_par, hk28, alg130_step, mk_par, hk27, alg129_step, mk_par, hk26, alg128_step, mk_par,
      hk25, alg127_step, mk_par, hk24, alg126_step, mk_par, hk23, alg125_step, mk_par, hk22,
      alg124_step, mk_par, hk21, alg123_step, mk_par, hk20, alg122_step, mk_par, setLastEq_step,
      mk_par, k19par, hk18, alg114_step, mk_par, hk17, alg113_step, mk_par, hk16, alg112_step,
      mk_par, hk15, alg111_step, mk_par, hk14, alg110_step, mk_par, hk13, alg109_step, mk_par,
      hk12, alg107_step, mk_par, hk11, alg105_step, mk_par, hk10, alg104_step, mk_par, hk9,
      alg103_step, mk_par, hk8, alg102_step, mk_par, hk7, alg101_step, mk_par, hk6, alg100_step,
      mk_par, hk5, alg99_step, mk_par, setLastEq_step, mk_par, k4par, hk3, alg91_step, mk_par,
      hk2, alg90_step, mk_par, hk1, alg89_step, mk_par]
  have gFipar : (setLastEq 139 k37).integerParameter = u.integerParameter := by
    rw [setLastEq_step, mk_ipar, k37ipar, setLastEq_step, mk_ipar, k36ipar, setLastEq_step,
      mk_ipar, k35ipar, setLastEq_step, mk_ipar, k34ipar, setLastEq_step, mk_ipar, k33ipar,
      setLastEq_step, mk_ipar, k32ipar, hk31, alg133_step, mk_ipar, hk30, alg132_step, mk_ipar,
      hk29, alg131_step, mk_ipar, hk28, alg130_step, mk_ipar, hk27, alg129_step, mk_ipar, hk26,
      alg128_step, mk_ipar, hk25, alg127_step, mk_ipar, hk24, alg126_step, mk_ipar, hk23,
      alg125_step, mk_ipar, hk22, alg124_step, mk_ipar, hk21, alg123_step, mk_ipar, hk20,
      alg122_step, mk_ipar, setLastEq_step, mk_ipar, k19ipar, hk18, alg114_step, mk_ipar, hk17,
      alg113_step, mk_ipar, hk16, alg112_step, mk_ipar, hk15, alg111_step, mk_ipar, hk14,
      alg110_step, mk_ipar, hk13, alg109_step, mk_ipar, hk12, alg107_step, mk_ipar, hk11,
      alg105_step, mk_ipar, hk10, alg104_step, mk_ipar, hk9, alg103_step, mk_ipar, hk8,
      alg102_step, mk_ipar, hk7, alg101_step, mk_ipar, hk6, alg100_step, mk_ipar, hk5, alg99_step,
      mk_ipar, setLastEq_step, mk_ipar, k4ipar, hk3, alg91_step, mk_ipar, hk2, alg90_step,
      mk_ipar, hk1, alg89_step, mk_ipar]
  have gFbpar : (setLastEq 139 k37).booleanParameter = u.booleanParameter := by
    rw [setLastEq_step, mk_bpar, k37bpar, setLastEq_step, mk_bpar, k36bpar, setLastEq_step,
      mk_bpar, k35bpar, setLastEq_step, mk_bpar, k34bpar, setLastEq_step, mk_bpar, k33bpar,
      setLastEq_step, mk_bpar, k32bpar, hk31, alg133_step, mk_bpar, hk30, alg132_step, mk_bpar,
      hk29, alg131_step, mk_bpar, hk28, alg130_step, mk_bpar, hk27, alg129_step, mk_bpar, hk26,
      alg128_step, mk_bpar, hk25, alg127_step, mk_bpar, hk24, alg126_step, mk_bpar, hk23,
      alg125_step, mk_bpar, hk22, alg124_step, mk_bpar, hk21, alg123_step, mk_bpar, hk20,
      alg122_step, mk_bpar, setLastEq_step, mk_bpar, k19bpar, hk18, alg114_step, mk_bpar, hk17,
      alg113_step, mk_bpar, hk16, alg112_step, mk_bpar, hk15, alg111_step, mk_bpar, hk14,
      alg110_step, mk_bpar, hk13, alg109_step, mk_bpar, hk12, alg107_step, mk_bpar, hk11,
      alg105_step, mk_bpar, hk10, alg104_step, mk_bpar, hk9, alg103_step, mk_bpar, hk8,
      alg102_step, mk_bpar, hk7, alg101_step, mk_bpar, hk6, alg100_step, mk_bpar, hk5, alg99_step,
      mk_bpar, setLastEq_step, mk_bpar, k4bpar, hk3, alg91_step, mk_bpar, hk2, alg90_step,
      mk_bpar, hk1, alg89_step, mk_bpar]
  have gFtime : (setLastEq 139 k37).timeValue = u.timeValue := by
    rw [setLastEq_step, mk_time, k37time, setLastEq_step, mk_time, k36time, setLastEq_step,
      mk_time, k35time, setLastEq_step, mk_time, k34time, setLastEq_step, mk_time, k33time,
      setLastEq_step, mk_time, k32time, hk31, alg133_step, mk_time, hk30, alg132_step, mk_time,
      hk29, alg131_step, mk_time, hk28, alg130_step, mk_time, hk27, alg129_step, mk_time, hk26,
      alg128_step, mk_time, hk25, alg127_step, mk_time, hk24, alg126_step, mk_time, hk23,
      alg125_step, mk_time, hk22, alg124_step, mk_time, hk21, alg123_step, mk_time, hk20,
      alg122_step, mk_time, setLastEq_step, mk_time, k19time, hk18, alg114_step, mk_time, hk17,
      alg113_step, mk_time, hk16, alg112_step, mk_time, hk15, alg111_step, mk_time, hk14,
      alg110_step, mk_time, hk13, alg109_step, mk_time, hk12, alg107_step, mk_time, hk11,
      alg105_step, mk_time, hk10, alg104_step, mk_time, hk9, alg103_step, mk_time, hk8,
      alg102_step, mk_time, hk7, alg101_step, mk_time, hk6, alg100_step, mk_time, hk5, alg99_step,
      mk_time, setLastEq_step, mk_time, k4time, hk3, alg91_step, mk_time, hk2, alg90_step,
      mk_time, hk1, alg89_step, mk_time]
  have gFstored : (setLastEq 139 k37).storedRelations = u.storedRelations := by
    rw [setLastEq_step, mk_stored, k37stored, setLastEq_step, mk_stored, k36stored,
      setLastEq_step, mk_stored, k35stored, setLastEq_step, mk_stored, k34stored, setLastEq_step,
      mk_stored, k33stored, setLastEq_step, mk_stored, k32stored, hk31, alg133_step, mk_stored,
      hk30, alg132_step, mk_stored, hk29, alg131_step, mk_stored, hk28, alg130_step, mk_stored,
      hk27, alg129_step, mk_stored, hk26, alg128_step, mk_stored, hk25, alg127_step, mk_stored,
      hk24, alg126_step, mk_stored, hk23, alg125_step, mk_stored, hk22, alg124_step, mk_stored,
      hk21, alg123_step, mk_stored, hk20, alg122_step, mk_stored, setLastEq_step, mk_stored,
      k19stored, hk18, alg114_step, mk_stored, hk17, alg113_step, mk_stored, hk16, alg112_step,
      mk_stored, hk15, alg111_step, mk_stored, hk14, alg110_step, mk_stored, hk13, alg109_step,
      mk_stored, hk12, alg107_step, mk_stored, hk11, alg105_step, mk_stored, hk10, alg104_step,
      mk_stored, hk9, alg103_step, mk_stored, hk8, alg102_step, mk_stored, hk7, alg101_step,
      mk_stored, hk6, alg100_step, mk_stored, hk5, alg99_step, mk_stored, setLastEq_step,
      mk_stored, k4stored, hk3, alg91_step, mk_stored, hk2, alg90_step, mk_stored, hk1,
      alg89_step, mk_stored]
  have gFrels : (setLastEq 139 k37).relations = u.relations := by
    rw [setLastEq_step, mk_rels, k37rels, setLastEq_step, mk_rels, k36rels, setLastEq_step,
      mk_rels, k35rels, setLastEq_step, mk_rels, k34rels, setLastEq_step, mk_rels, k33rels,
      setLastEq_step, mk_rels, k32rels, hk31, alg133_step, mk_rels, hk30, alg132_step, mk_rels,
      hk29, alg131_step, mk_rels, hk28, alg130_step, mk_rels, hk27, alg129_step, mk_rels, hk26,
      alg128_step, mk_rels, hk25, alg127_step, mk_rels, hk24, alg126_step, mk_rels, hk23,
      alg125_step, mk_rels, hk22, alg124_step, mk_rels, hk21, alg123_step, mk_rels, hk20,
      alg122_step, mk_rels, setLastEq_step, mk_rels, k19rels, hk18, alg114_step, mk_rels, hk17,
      alg113_step, mk_rels, hk16, alg112_step, mk_rels, hk15, alg111_step, mk_rels, hk14,
      alg110_step, mk_rels, hk13, alg109_step, mk_rels, hk12, alg107_step, mk_rels, hk11,
      alg105_step, mk_rels, hk10, alg104_step, mk_rels, hk9, alg103_step, mk_rels, hk8,
      alg102_step, mk_rels, hk7, alg101_step, mk_rels, hk6, alg100_step, mk_rels, hk5, alg99_step,
      mk_rels, setLastEq_step, mk_rels, k4rels, hk3, alg91_step, mk_rels, hk2, alg90_step,
      mk_rels, hk1, alg89_step, mk_rels]
  have gFnt : (setLastEq 139 k37).noThrowAsserts = u.noThrowAsserts := by
    rw [setLastEq_step, mk_nt, k37nt, setLastEq_step, mk_nt, k36nt, setLastEq_step, mk_nt, k35nt,
      setLastEq_step, mk_nt, k34nt, setLastEq_step, mk_nt, k33nt, setLastEq_step, mk_nt, k32nt,
      hk31, alg133_step, mk_nt, hk30, alg132_step, mk_nt, hk29, alg131_step, mk_nt, hk28,
      alg130_step, mk_nt, hk27, alg129_step, mk_nt, hk26, alg128_step, mk_nt, hk25, alg127_step,
      mk_nt, hk24, alg126_step, mk_nt, hk23, alg125_step, mk_nt, hk22, alg124_step, mk_nt, hk21,
      alg123_step, mk_nt, hk20, alg122_step, mk_nt, setLastEq_step, mk_nt, k19nt, hk18,
      alg114_step, mk_nt, hk17, alg113_step, mk_nt, hk16, alg112_step, mk_nt, hk15, alg111_step,
      mk_nt, hk14, alg110_step, mk_nt, hk13, alg109_step, mk_nt, hk12, alg107_step, mk_nt, hk11,
      alg105_step, mk_nt, hk10, alg104_step, mk_nt, hk9, alg103_step, mk_nt, hk8, alg102_step,
      mk_nt, hk7, alg101_step, mk_nt, hk6, alg100_step, mk_nt, hk5, alg99_step, mk_nt,
      setLastEq_step, mk_nt, k4nt, hk3, alg91_step, mk_nt, hk2, alg90_step, mk_nt, hk1,
      alg89_step, mk_nt]
  have gFlatch : (setLastEq 139 k37).assertLatch = u.assertLatch := by
    rw [setLastEq_step, mk_latch, k37latch, setLastEq_step, mk_latch, k36latch, setLastEq_step,
      mk_latch, k35latch, setLastEq_step, mk_latch, k34latch, setLastEq_step, mk_latch, k33latch,
      setLastEq_step, mk_latch, k32latch, hk31, alg133_step, mk_latch, hk30, alg132_step,
      mk_latch, hk29, alg131_step, mk_latch, hk28, alg130_step, mk_latch, hk27, alg129_step,
      mk_latch, hk26, alg128_step, mk_latch, hk25, alg127_step, mk_latch, hk24, alg126_step,
      mk_latch, hk23, alg125_step, mk_latch, hk22, alg124_step, mk_latch, hk21, alg123_step,
      mk_latch, hk20, alg122_step, mk_latch, setLastEq_step, mk_latch, k19latch, hk18,
      alg114_step, mk_latch, hk17, alg113_step, mk_latch, hk16, alg112_step, mk_latch, hk15,
      alg111_step, mk_latch, hk14, alg110_step, mk_latch, hk13, alg109_step, mk_latch, hk12,
      alg107_step, mk_latch, hk11, alg105_step, mk_latch, hk10, alg104_step, mk_latch, hk9,
      alg103_step, mk_latch, hk8, alg102_step, mk_latch, hk7, alg101_step, mk_latch, hk6,
      alg100_step, mk_latch, hk5, alg99_step, mk_latch, setLastEq_step, mk_latch, k4latch, hk3,
      alg91_step, mk_latch, hk2, alg90_step, mk_latch, hk1, alg89_step, mk_latch]
  refine ⟨setLastEq 139 k37, ?_, ?_⟩
  · simp only [oc_latch_functionAlgebraics, oc_latch_function_savePreSynchronous,
      functionAlg_system0]
    rw [← hk1, ← hk2, ← hk3, hk4]
    simp only [except_bind_ok]
    rw [← hk5, ← hk6, ← hk7, ← hk8, ← hk9, ← hk10, ← hk11, ← hk12, ← hk13, ← hk14, ← hk15, ← hk16,
      ← hk17, ← hk18, hk19]
    simp only [except_bind_ok]
    rw [← hk20, ← hk21, ← hk22, ← hk23, ← hk24, ← hk25, ← hk26, ← hk27, ← hk28, ← hk29, ← hk30,
      ← hk31, hk32]
    simp only [except_bind_ok]
    rw [hk33]
    simp only [except_bind_ok]
    rw [hk34]
    simp only [except_bind_ok]
    rw [hk35]
    simp only [except_bind_ok]
    rw [hk36]
    simp only [except_bind_ok]
    rw [hk37]
    simp only [except_bind_ok]
    simp only [except_pure_eq]
  · exact ⟨gbv0, gbv11, gbv2, grv49, grv47, grv50, gbv10, gbv5, gbv1, gbv8,
      grv9, grv10, grv34, grv38, grv46, grv45, grv43, gbv3, grv5, grv0,
      grv27, grv36, grv42, grv41, grv39, gbv4, gbv6, gbv7, gbv9, grv3, grv11,
      gOtherRv, gOtherBv, gFrv1, gFpre, gFbpre, gFpar, gFipar, gFbpar, gFtime, gFstored, gFrels, gFnt, gFlatch⟩
/-- C8: running the continuous/algebraic pass oc_latch_functionAlgebraics
twice in succession from any state (in warning mode, with both linear
systems nonsingular), with no intervening change, leaves the variable
store exactly as after one run: both runs complete, neither writes any
entry of the pre-value arrays, and the realVars and booleanVars stores of
the second result agree pointwise with the first. -/
theorem functionAlgebraics_idempotent (ext : ExtRuntime) (s : State)
    (h2 : ¬ lsResidualSlope 2 s = 0) (h3 : ¬ lsResidualSlope 3 s = 0)
    (hnt : s.noThrowAsserts = true) :
    ∃ s1 s2,
      oc_latch_functionAlgebraics ext specLinSolver s = .ok s1 ∧
      oc_latch_functionAlgebraics ext specLinSolver s1 = .ok s2 ∧
      s1.realVarsPre = s.realVarsPre ∧ s1.booleanVarsPre = s.booleanVarsPre ∧
      s2.realVarsPre = s.realVarsPre ∧ s2.booleanVarsPre = s.booleanVarsPre ∧
      (∀ i, s2.realVars i = s1.realVars i) ∧
      (∀ i, s2.booleanVars i = s1.booleanVars i) := by
  obtain ⟨s1, e1, A⟩ := functionAlg_run_spec ext s h2 h3 hnt
  have u52 := A.rvOther 52 (by decide)
  have u53 := A.rvOther 53 (by decide)
  have u48 := A.rvOther 48 (by decide)
  have u51 := A.rvOther 51 (by decide)
  have u44 := A.rvOther 44 (by decide)
  have u30 := A.rvOther 30 (by decide)
  have u31 := A.rvOther 31 (by decide)
  have u1 := A.rvOther 1 (by decide)
  have u4 := A.rvOther 4 (by decide)
  have u2 := A.rvOther 2 (by decide)
  have u6 := A.rvOther 6 (by decide)
  have u23 := A.rvOther 23 (by decide)
  have u24 := A.rvOther 24 (by decide)
  have u40 := A.rvOther 40 (by decide)
  have u57 := A.rvOther 57 (by decide)
  have hp29s1 : s1.realParameter 29 = s.realParameter 29 := by rw [A.par]
  have h2s1 : ¬ lsResidualSlope 2 s1 = 0 := by
    rw [lsResidualSlope2_congr s1 s u48 u51 hp29s1]; exact h2
  have h3s1 : ¬ lsResidualSlope 3 s1 = 0 := by
    rw [lsResidualSlope3_congr s1 s u1 u4 hp29s1]; exact h3
  obtain ⟨s2, e2, B⟩ := functionAlg_run_spec ext s1 h2s1 h3s1 (by rw [A.nt]; exact hnt)
  have v49 : s2.realVars 49 = s1.realVars 49 := by
    rw [B.e49, A.e49]
    simp only [A.time, A.rpre, A.bpre, A.par, A.stored, A.rv1Eq, u52, u53, u48, u51, u44, u30, u31, u1, u4, u2, u6, u23, u24, u40, u57, lsResidualValue2_congr s1 s u48 u51 hp29s1, lsResidualSlope2_congr s1 s u48 u51 hp29s1, lsResidualValue3_congr s1 s u1 u4 hp29s1, lsResidualSlope3_congr s1 s u1 u4 hp29s1]
  have v47 : s2.realVars 47 = s1.realVars 47 := by
    rw [B.e47, A.e47]
    simp only [A.time, A.rpre, A.bpre, A.par, A.stored, A.rv1Eq, u52, u53, u48, u51, u44, u30, u31, u1, u4, u2, u6, u23, u24, u40, u57, lsResidualValue2_congr s1 s u48 u51 hp29s1, lsResidualSlope2_congr s1 s u48 u51 hp29s1, lsResidualValue3_congr s1 s u1 u4 hp29s1, lsResidualSlope3_congr s1 s u1 u4 hp29s1]
  have v50 : s2.realVars 50 = s1.realVars 50 := by
    rw [B.e50, A.e50]
    simp only [A.time, A.rpre, A.bpre, A.par, A.stored, A.rv1Eq, u52, u53, u48, u51, u44, u30, u31, u1, u4, u2, u6, u23, u24, u40, u57, lsResidualValue2_congr s1 s u48 u51 hp29s1, lsResidualSlope2_congr s1 s u48 u51 hp29s1, lsResidualValue3_congr s1 s u1 u4 hp29s1, lsResidualSlope3_congr s1 s u1 u4 hp29s1]
  have v9 : s2.realVars 9 = s1.realVars 9 := by
    rw [B.e9, A.e9]
    simp only [A.time, A.rpre, A.bpre, A.par, A.stored, A.rv1Eq, u52, u53, u48, u51, u44, u30, u31, u1, u4, u2, u6, u23, u24, u40, u57, lsResidualValue2_congr s1 s u48 u51 hp29s1, lsResidualSlope2_congr s1 s u48 u51 hp29s1, lsResidualValue3_congr s1 s u1 u4 hp29s1, lsResidualSlope3_congr s1 s u1 u4 hp29s1]
  have v10 : s2.realVars 10 = s1.realVars 10 := by
    rw [B.e10, A.e10]
    simp only [A.time, A.rpre, A.bpre, A.par, A.stored, A.rv1Eq, u52, u53, u48, u51, u44, u30, u31, u1, u4, u2, u6, u23, u24, u40, u57, lsResidualValue2_congr s1 s u48 u51 hp29s1, lsResidualSlope2_congr s1 s u48 u51 hp29s1, lsResidualValue3_congr s1 s u1 u4 hp29s1, lsResidualSlope3_congr s1 s u1 u4 hp29s1]
  have v34 : s2.realVars 34 = s1.realVars 34 := by
    rw [B.e34, A.e34]
    simp only [A.time, A.rpre, A.bpre, A.par, A.stored, A.rv1Eq, u52, u53, u48, u51, u44, u30, u31, u1, u4, u2, u6, u23, u24, u40, u57, lsResidualValue2_congr s1 s u48 u51 hp29s1, lsResidualSlope2_congr s1 s u48 u51 hp29s1, lsResidualValue3_congr s1 s u1 u4 hp29s1, lsResidualSlope3_congr s1 s u1 u4 hp29s1]
  have v38 : s2.realVars 38 = s1.realVars 38 := by
    rw [B.e38, A.e38]
    simp only [A.time, A.rpre, A.bpre, A.par, A.stored, A.rv1Eq, u52, u53, u48, u51, u44, u30, u31, u1, u4, u2, u6, u23, u24, u40, u57, lsResidualValue2_congr s1 s u48 u51 hp29s1, lsResidualSlope2_congr s1 s u48 u51 hp29s1, lsResidualValue3_congr s1 s u1 u4 hp29s1, lsResidualSlope3_congr s1 s u1 u4 hp29s1]
  have v46 : s2.realVars 46 = s1.realVars 46 := by
    rw [B.e46, A.e46]
    simp only [A.time, A.rpre, A.bpre, A.par, A.stored, A.rv1Eq, u52, u53, u48, u51, u44, u30, u31, u1, u4, u2, u6, u23, u24, u40, u57, lsResidualValue2_congr s1 s u48 u51 hp29s1, lsResidualSlope2_congr s1 s u48 u51 hp29s1, lsResidualValue3_congr s1 s u1 u4 hp29s1, lsResidualSlope3_congr s1 s u1 u4 hp29s1]
  have v45 : s2.realVars 45 = s1.realVars 45 := by
    rw [B.e45, A.e45]
    simp only [A.time, A.rpre, A.bpre, A.par, A.stored, A.rv1Eq, u52, u53, u48, u51, u44, u30, u31, u1, u4, u2, u6, u23, u24, u40, u57, lsResidualValue2_congr s1 s u48 u51 hp29s1, lsResidualSlope2_congr s1 s u48 u51 hp29s1, lsResidualValue3_congr s1 s u1 u4 hp29s1, lsResidualSlope3_congr s1 s u1 u4 hp29s1]
  have v43 : s2.realVars 43 = s1.realVars 43 := by
    rw [B.e43, A.e43]
    simp only [A.time, A.rpre, A.bpre, A.par, A.stored, A.rv1Eq, u52, u53, u48, u51, u44, u30, u31, u1, u4, u2, u6, u23, u24, u40, u57, lsResidualValue2_congr s1 s u48 u51 hp29s1, lsResidualSlope2_congr s1 s u48 u51 hp29s1, lsResidualValue3_congr s1 s u1 u4 hp29s1, lsResidualSlope3_congr s1 s u1 u4 hp29s1]
  have v5 : s2.realVars 5 = s1.realVars 5 := by
    rw [B.e5, A.e5]
    simp only [A.time, A.rpre, A.bpre, A.par, A.stored, A.rv1Eq, u52, u53, u48, u51, u44, u30, u31, u1, u4, u2, u6, u23, u24, u40, u57, lsResidualValue2_congr s1 s u48 u51 hp29s1, lsResidualSlope2_congr s1 s u48 u51 hp29s1, lsResidualValue3_congr s1 s u1 u4 hp29s1, lsResidualSlope3_congr s1 s u1 u4 hp29s1]
  have v0 : s2.realVars 0 = s1.realVars 0 := by
    rw [B.e0, A.e0]
    simp only [A.time, A.rpre, A.bpre, A.par, A.stored, A.rv1Eq, u52, u53, u48, u51, u44, u30, u31, u1, u4, u2, u6, u23, u24, u40, u57, lsResidualValue2_congr s1 s u48 u51 hp29s1, lsResidualSlope2_congr s1 s u48 u51 hp29s1, lsResidualValue3_congr s1 s u1 u4 hp29s1, lsResidualSlope3_congr s1 s u1 u4 hp29s1]
  have v27 : s2.realVars 27 = s1.realVars 27 := by
    rw [B.e27, A.e27]
    simp only [A.time, A.rpre, A.bpre, A.par, A.stored, A.rv1Eq, u52, u53, u48, u51, u44, u30, u31, u1, u4, u2, u6, u23, u24, u40, u57, lsResidualValue2_congr s1 s u48 u51 hp29s1, lsResidualSlope2_congr s1 s u48 u51 hp29s1, lsResidualValue3_congr s1 s u1 u4 hp29s1, lsResidualSlope3_congr s1 s u1 u4 hp29s1]
  have v36 : s2.realVars 36 = s1.realVars 36 := by
    rw [B.e36, A.e36]
    simp only [A.time, A.rpre, A.bpre, A.par, A.stored, A.rv1Eq, u52, u53, u48, u51, u44, u30, u31, u1, u4, u2, u6, u23, u24, u40, u57, lsResidualValue2_congr s1 s u48 u51 hp29s1, lsResidualSlope2_congr s1 s u48 u51 hp29s1, lsResidualValue3_congr s1 s u1 u4 hp29s1, lsResidualSlope3_congr s1 s u1 u4 hp29s1]
  have v42 : s2.realVars 42 = s1.realVars 42 := by
    rw [B.e42, A.e42]
    simp only [A.time, A.rpre, A.bpre, A.par, A.stored, A.rv1Eq, u52, u53, u48, u51, u44, u30, u31, u1, u4, u2, u6, u23, u24, u40, u57, lsResidualValue2_congr s1 s u48 u51 hp29s1, lsResidualSlope2_congr s1 s u48 u51 hp29s1, lsResidualValue3_congr s1 s u1 u4 hp29s1, lsResidualSlope3_congr s1 s u1 u4 hp29s1]
  have v41 : s2.realVars 41 = s1.realVars 41 := by
    rw [B.e41, A.e41]
    simp only [A.time, A.rpre, A.bpre, A.par, A.stored, A.rv1Eq, u52, u53, u48, u51, u44, u30, u31, u1, u4, u2, u6, u23, u24, u40, u57, lsResidualValue2_congr s1 s u48 u51 hp29s1, lsResidualSlope2_congr s1 s u48 u51 hp29s1, lsResidualValue3_congr s1 s u1 u4 hp29s1, lsResidualSlope3_congr s1 s u1 u4 hp29s1]
  have v39 : s2.realVars 39 = s1.realVars 39 := by
    rw [B.e39, A.e39]
    simp only [A.time, A.rpre, A.bpre, A.par, A.stored, A.rv1Eq, u52, u53, u48, u51, u44, u30, u31, u1, u4, u2, u6, u23, u24, u40, u57, lsResidualValue2_congr s1 s u48 u51 hp29s1, lsResidualSlope2_congr s1 s u48 u51 hp29s1, lsResidualValue3_congr s1 s u1 u4 hp29s1, lsResidualSlope3_congr s1 s u1 u4 hp29s1]
  have v3 : s2.realVars 3 = s1.realVars 3 := by
    rw [B.e3, A.e3]
    simp only [A.time, A.rpre, A.bpre, A.par, A.stored, A.rv1Eq, u52, u53, u48, u51, u44, u30, u31, u1, u4, u2, u6, u23, u24, u40, u57, lsResidualValue2_congr s1 s u48 u51 hp29s1, lsResidualSlope2_congr s1 s u48 u51 hp29s1, lsResidualValue3_congr s1 s u1 u4 hp29s1, lsResidualSlope3_congr s1 s u1 u4 hp29s1]
  have v11 : s2.realVars 11 = s1.realVars 11 := by
    rw [B.e11, A.e11]
    simp only [A.time, A.rpre, A.bpre, A.par, A.stored, A.rv1Eq, u52, u53, u48, u51, u44, u30, u31, u1, u4, u2, u6, u23, u24, u40, u57, lsResidualValue2_congr s1 s u48 u51 hp29s1, lsResidualSlope2_congr s1 s u48 u51 hp29s1, lsResidualValue3_congr s1 s u1 u4 hp29s1, lsResidualSlope3_congr s1 s u1 u4 hp29s1]
  have vb0 : s2.booleanVars 0 = s1.booleanVars 0 := by
    rw [B.b0, A.b0]
    simp only [A.time, A.rpre, A.bpre, A.par, A.stored, A.rv1Eq, u52, u53, u48, u51, u44, u30, u31, u1, u4, u2, u6, u23, u24, u40, u57, lsResidualValue2_congr s1 s u48 u51 hp29s1, lsResidualSlope2_congr s1 s u48 u51 hp29s1, lsResidualValue3_congr s1 s u1 u4 hp29s1, lsResidualSlope3_congr s1 s u1 u4 hp29s1]
  have vb11 : s2.booleanVars 11 = s1.booleanVars 11 := by
    rw [B.b11, A.b11]
    simp only [A.time, A.rpre, A.bpre, A.par, A.stored, A.rv1Eq, u52, u53, u48, u51, u44, u30, u31, u1, u4, u2, u6, u23, u24, u40, u57, lsResidualValue2_congr s1 s u48 u51 hp29s1, lsResidualSlope2_congr s1 s u48 u51 hp29s1, lsResidualValue3_congr s1 s u1 u4 hp29s1, lsResidualSlope3_congr s1 s u1 u4 hp29s1]
  have vb2 : s2.booleanVars 2 = s1.booleanVars 2 := by
    rw [B.b2, A.b2]
    simp only [A.time, A.rpre, A.bpre, A.par, A.stored, A.rv1Eq, u52, u53, u48, u51, u44, u30, u31, u1, u4, u2, u6, u23, u24, u40, u57, lsResidualValue2_congr s1 s u48 u51 hp29s1, lsResidualSlope2_congr s1 s u48 u51 hp29s1, lsResidualValue3_congr s1 s u1 u4 hp29s1, lsResidualSlope3_congr s1 s u1 u4 hp29s1]
  have vb10 : s2.booleanVars 10 = s1.booleanVars 10 := by
    rw [B.b10, A.b10]
    simp only [A.time, A.rpre, A.bpre, A.par, A.stored, A.rv1Eq, u52, u53, u48, u51, u44, u30, u31, u1, u4, u2, u6, u23, u24, u40, u57, lsResidualValue2_congr s1 s u48 u51 hp29s1, lsResidualSlope2_congr s1 s u48 u51 hp29s1, lsResidualValue3_congr s1 s u1 u4 hp29s1, lsResidualSlope3_congr s1 s u1 u4 hp29s1]
  have vb5 : s2.booleanVars 5 = s1.booleanVars 5 := by
    rw [B.b5, A.b5]
    simp only [A.time, A.rpre, A.bpre, A.par, A.stored, A.rv1Eq, u52, u53, u48, u51, u44, u30, u31, u1, u4, u2, u6, u23, u24, u40, u57, lsResidualValue2_congr s1 s u48 u51 hp29s1, lsResidualSlope2_congr s1 s u48 u51 hp29s1, lsResidualValue3_congr s1 s u1 u4 hp29s1, lsResidualSlope3_congr s1 s u1 u4 hp29s1]
  have vb1 : s2.booleanVars 1 = s1.booleanVars 1 := by
    rw [B.b1, A.b1]
    simp only [A.time, A.rpre, A.bpre, A.par, A.stored, A.rv1Eq, u52, u53, u48, u51, u44, u30, u31, u1, u4, u2, u6, u23, u24, u40, u57, lsResidualValue2_congr s1 s u48 u51 hp29s1, lsResidualSlope2_congr s1 s u48 u51 hp29s1, lsResidualValue3_congr s1 s u1 u4 hp29s1, lsResidualSlope3_congr s1 s u1 u4 hp29s1]
  have vb8 : s2.booleanVars 8 = s1.booleanVars 8 := by
    rw [B.b8, A.b8]
    simp only [A.time, A.rpre, A.bpre, A.par, A.stored, A.rv1Eq, u52, u53, u48, u51, u44, u30, u31, u1, u4, u2, u6, u23, u24, u40, u57, lsResidualValue2_congr s1 s u48 u51 hp29s1, lsResidualSlope2_congr s1 s u48 u51 hp29s1, lsResidualValue3_congr s1 s u1 u4 hp29s1, lsResidualSlope3_congr s1 s u1 u4 hp29s1]
  have vb3 : s2.booleanVars 3 = s1.booleanVars 3 := by
    rw [B.b3, A.b3]
    simp only [A.time, A.rpre, A.bpre, A.par, A.stored, A.rv1Eq, u52, u53, u48, u51, u44, u30, u31, u1, u4, u2, u6, u23, u24, u40, u57, lsResidualValue2_congr s1 s u48 u51 hp29s1, lsResidualSlope2_congr s1 s u48 u51 hp29s1, lsResidualValue3_congr s1 s u1 u4 hp29s1, lsResidualSlope3_congr s1 s u1 u4 hp29s1]
  have vb4 : s2.booleanVars 4 = s1.booleanVars 4 := by
    rw [B.b4, A.b4]
    simp only [A.time, A.rpre, A.bpre, A.par, A.stored, A.rv1Eq, u52, u53, u48, u51, u44, u30, u31, u1, u4, u2, u6, u23, u24, u40, u57, lsResidualValue2_congr s1 s u48 u51 hp29s1, lsResidualSlope2_congr s1 s u48 u51 hp29s1, lsResidualValue3_congr s1 s u1 u4 hp29s1, lsResidualSlope3_congr s1 s u1 u4 hp29s1]
  have vb6 : s2.booleanVars 6 = s1.booleanVars 6 := by
    rw [B.b6, A.b6]
    simp only [A.time, A.rpre, A.bpre, A.par, A.stored, A.rv1Eq, u52, u53, u48, u51, u44, u30, u31, u1, u4, u2, u6, u23, u24, u40, u57, lsResidualValue2_congr s1 s u48 u51 hp29s1, lsResidualSlope2_congr s1 s u48 u51 hp29s1, lsResidualValue3_congr s1 s u1 u4 hp29s1, lsResidualSlope3_congr s1 s u1 u4 hp29s1]
  have vb7 : s2.booleanVars 7 = s1.booleanVars 7 := by
    rw [B.b7, A.b7]
    simp only [A.time, A.rpre, A.bpre, A.par, A.stored, A.rv1Eq, u52, u53, u48, u51, u44, u30, u31, u1, u4, u2, u6, u23, u24, u40, u57, lsResidualValue2_congr s1 s u48 u51 hp29s1, lsResidualSlope2_congr s1 s u48 u51 hp29s1, lsResidualValue3_congr s1 s u1 u4 hp29s1, lsResidualSlope3_congr s1 s u1 u4 hp29s1]
  have vb9 : s2.booleanVars 9 = s1.booleanVars 9 := by
    rw [B.b9, A.b9]
    simp only [A.time, A.rpre, A.bpre, A.par, A.stored, A.rv1Eq, u52, u53, u48, u51, u44, u30, u31, u1, u4, u2, u6, u23, u24, u40, u57, lsResidualValue2_congr s1 s u48 u51 hp29s1, lsResidualSlope2_congr s1 s u48 u51 hp29s1, lsResidualValue3_congr s1 s u1 u4 hp29s1, lsResidualSlope3_congr s1 s u1 u4 hp29s1]
  refine ⟨s1, s2, e1, e2, A.rpre, A.bpre, B.rpre.trans A.rpre,
    B.bpre.trans A.bpre, ?_, ?_⟩
  · intro i
    by_cases c49 : i = 49
    · rw [c49]; exact v49
    by_cases c47 : i = 47
    · rw [c47]; exact v47
    by_cases c50 : i = 50
    · rw [c50]; exact v50
    by_cases c9 : i = 9
    · rw [c9]; exact v9
    by_cases c10 : i = 10
    · rw [c10]; exact v10
    by_cases c34 : i = 34
    · rw [c34]; exact v34
    by_cases c38 : i = 38
    · rw [c38]; exact v38
    by_cases c46 : i = 46
    · rw [c46]; exact v46
    by_cases c45 : i = 45
    · rw [c45]; exact v45
    by_cases c43 : i = 43
    · rw [c43]; exact v43
    by_cases c5 : i = 5
    · rw [c5]; exact v5
    by_cases c0 : i = 0
    · rw [c0]; exact v0
    by_cases c27 : i = 27
    · rw [c27]; exact v27
    by_cases c36 : i = 36
    · rw [c36]; exact v36
    by_cases c42 : i = 42
    · rw [c42]; exact v42
    by_cases c41 : i = 41
    · rw [c41]; exact v41
    by_cases c39 : i = 39
    · rw [c39]; exact v39
    by_cases c3 : i = 3
    · rw [c3]; exact v3
    by_cases c11 : i = 11
    · rw [c11]; exact v11
    exact B.rvOther i (by simp [algRealWrites, c49, c47, c50, c9, c10, c34, c38, c46, c45, c43, c5, c0, c27, c36, c42, c41, c39, c3, c11])
  · intro i
    by_cases cb0 : i = 0
    · rw [cb0]; exact vb0
    by_cases cb11 : i = 11
    · rw [cb11]; exact vb11
    by_cases cb2 : i = 2
    · rw [cb2]; exact vb2
    by_cases cb10 : i = 10
    · rw [cb10]; exact vb10
    by_cases cb5 : i = 5
    · rw [cb5]; exact vb5
    by_cases cb1 : i = 1
    · rw [cb1]; exact vb1
    by_cases cb8 : i = 8
    · rw [cb8]; exact vb8
    by_cases cb3 : i = 3
    · rw [cb3]; exact vb3
    by_cases cb4 : i = 4
    · rw [cb4]; exact vb4
    by_cases cb6 : i = 6
    · rw [cb6]; exact vb6
    by_cases cb7 : i = 7
    · rw [cb7]; exact vb7
    by_cases cb9 : i = 9
    · rw [cb9]; exact vb9
    exact B.bvOther i (by simp [algBoolWrites, cb0, cb11, cb2, cb10, cb5, cb1, cb8, cb3, cb4, cb6, cb7, cb9])

/-- C8 witness: both hypotheses hold at the concrete series-divider
context, and the double-run conclusion is obtained there. -/
theorem functionAlgebraics_idempotent_witness :
    (¬ lsResidualSlope 2 stateDivider = 0) ∧ (¬ lsResidualSlope 3 stateDivider = 0) ∧
    stateDivider.noThrowAsserts = true ∧
    (∃ s1 s2,
      oc_latch_functionAlgebraics ext0 specLinSolver stateDivider = .ok s1 ∧
      oc_latch_functionAlgebraics ext0 specLinSolver s1 = .ok s2 ∧
      s1.realVarsPre = stateDivider.realVarsPre ∧
      s1.booleanVarsPre = stateDivider.booleanVarsPre ∧
      s2.realVarsPre = stateDivider.realVarsPre ∧
      s2.booleanVarsPre = stateDivider.booleanVarsPre ∧
      (∀ i, s2.realVars i = s1.realVars i) ∧
      (∀ i, s2.booleanVars i = s1.booleanVars i)) := by
  have p2 : ¬ lsResidualSlope 2 stateDivider = 0 := by
    norm_num [lsResidualSlope, lsResidualValue, residualFunc98,
      oc_latch_eqFunction_92, oc_latch_eqFunction_93, upd, stateDivider, state0]
  have p3 : ¬ lsResidualSlope 3 stateDivider = 0 := by
    norm_num [lsResidualSlope, lsResidualValue, residualFunc121,
      oc_latch_eqFunction_115, oc_latch_eqFunction_116, upd, stateDivider, state0]
  exact ⟨p2, p3, rfl, functionAlgebraics_idempotent ext0 stateDivider p2 p3 rfl⟩

/-- Equation 23 with a non-positive solver status: the run completes with ok
and the solution is written to R2.v. -/
theorem eqFunction_23_st (ls : LinSolver) (s : State)
    (h : (ls 0 s (s.realVars1 6)).1 ≤ 0) :
    oc_latch_eqFunction_23 ls s =
      .ok { s with realVars := upd s.realVars 6 (ls 0 s (s.realVars1 6)).2 } := by
  simp only [oc_latch_eqFunction_23]
  rw [if_neg (Int.not_lt.mpr h)]

/-- Equation 33 with a non-positive solver status: the run completes with ok
and the solution is written to resistor3.v. -/
theorem eqFunction_33_st (ls : LinSolver) (s : State)
    (h : (ls 1 s (s.realVars1 53)).1 ≤ 0) :
    oc_latch_eqFunction_33 ls s =
      .ok { s with realVars := upd s.realVars 53 (ls 1 s (s.realVars1 53)).2 } := by
  simp only [oc_latch_eqFunction_33]
  rw [if_neg (Int.not_lt.mpr h)]

/-- C6: with the default warning-mode assertion configuration, assertion
failures in the one-time initialization passes are non-fatal. The whole
initial-equation pass completes with ok for every state whenever the linear
solver reports success, regardless of any assertion violations; a violated
temperature-scope assertion in warning mode only logs its two report lines,
sets the rethrow flag and continues, while with the fatal configuration the
same violation aborts; and a violated, unlatched bound-parameter assertion
of the bound pass only logs its two report lines, latches itself and
continues — it has no fatal branch at all. -/
theorem init_and_bound_asserts_nonfatal (ext : ExtRuntime) (ls : LinSolver)
    (s : State) (hnt : s.noThrowAsserts = true)
    (hls : ∀ (k : Nat) (t : State) (x : ℚ), (ls k t x).1 ≤ 0) :
    (∃ w, oc_latch_functionInitialEquations ext ls s = .ok w) ∧
    (∀ (k : Nat) (cv : ℚ) (ct : String) (t : State), t.noThrowAsserts = true →
      ¬ (1e-15 : ℚ) ≤ cv →
      tempScopeAssert k cv ct t = .ok { t with
        log := t.log ++ [⟨k, t.timeValue, ct⟩,
          ⟨k, t.timeValue, "Temperature outside scope of model!"⟩],
        needToReThrow := true }) ∧
    (∀ (k : Nat) (cv : ℚ) (ct : String) (t : State), t.noThrowAsserts = false →
      ¬ (1e-15 : ℚ) ≤ cv →
      ∃ e, tempScopeAssert k cv ct t = .error e) ∧
    (∀ (n : Nat) (ok : Bool) (ct mt : String) (t : State),
      t.assertLatch n = false → ok = false →
      latchedBoundAssert n ok ct mt t = { t with
        log := t.log ++ [⟨n, t.timeValue, ct⟩, ⟨n, t.timeValue, mt⟩],
        assertLatch := upd t.assertLatch n true }) := by
  refine ⟨?_, ?_, ?_, ?_⟩
  · simp only [oc_latch_functionInitialEquations, oc_latch_functionInitialEquations_0,
      oc_latch_eqFunction_88, oc_latch_eqFunction_87, oc_latch_eqFunction_86,
      oc_latch_eqFunction_85, oc_latch_eqFunction_84, oc_latch_eqFunction_83]
    rw [eqFunction_23_st ls _ (hls 0 _ _)]
    simp only [except_bind_ok]
    rw [eqFunction_33_st ls _ (hls 1 _ _)]
    simp only [except_bind_ok]
    rw [tempScopeAssert_run _ _ _ _ (by exact hnt)]
    simp only [except_bind_ok]
    rw [tempScopeAssert_run _ _ _ _ (by exact hnt)]
    simp only [except_bind_ok]
    rw [tempScopeAssert_run _ _ _ _ (by exact hnt)]
    simp only [except_bind_ok]
    rw [tempScopeAssert_run _ _ _ _ (by exact hnt)]
    simp only [except_bind_ok]
    rw [tempScopeAssert_run _ _ _ _ (by exact hnt)]
    simp only [except_bind_ok]
    rw [tempScopeAssert_run _ _ _ _ (by exact hnt)]
    simp only [except_bind_ok, except_pure_eq]
    exact ⟨_, rfl⟩
  · intro k cv ct t h1 h2
    exact tempScopeAssert_noThrow_violated k cv ct t h1 h2
  · intro k cv ct t h1 h2
    exact ⟨⟨[1, k], t.timeValue, "Temperature outside scope of model!",
      { t with log := t.log ++ [⟨k, t.timeValue, ct⟩] }⟩,
      by simp [tempScopeAssert, qGreaterEq, h1, h2]⟩
  · intro n ok ct mt t h1 h2
    simp [latchedBoundAssert, h1, h2]

/-- C6 witness: the hypotheses hold at the concrete temperature-violating
context with the always-succeeding solver stub, and the conclusion is
obtained there. -/
theorem init_and_bound_asserts_nonfatal_witness :
    stateTempViolation.noThrowAsserts = true ∧
    (∀ (k : Nat) (t : State) (x : ℚ), (lsOk k t x).1 ≤ 0) ∧
    ((∃ w, oc_latch_functionInitialEquations ext0 lsOk stateTempViolation = .ok w) ∧
    (∀ (k : Nat) (cv : ℚ) (ct : String) (t : State), t.noThrowAsserts = true →
      ¬ (1e-15 : ℚ) ≤ cv →
      tempScopeAssert k cv ct t = .ok { t with
        log := t.log ++ [⟨k, t.timeValue, ct⟩,
          ⟨k, t.timeValue, "Temperature outside scope of model!"⟩],
        needToReThrow := true }) ∧
    (∀ (k : Nat) (cv : ℚ) (ct : String) (t : State), t.noThrowAsserts = false →
      ¬ (1e-15 : ℚ) ≤ cv →
      ∃ e, tempScopeAssert k cv ct t = .error e) ∧
    (∀ (n : Nat) (ok : Bool) (ct mt : String) (t : State),
      t.assertLatch n = false → ok = false →
      latchedBoundAssert n ok ct mt t = { t with
        log := t.log ++ [⟨n, t.timeValue, ct⟩, ⟨n, t.timeValue, mt⟩],
        assertLatch := upd t.assertLatch n true })) := by
  have hls : ∀ (k : Nat) (t : State) (x : ℚ), (lsOk k t x).1 ≤ 0 := fun _ _ _ => Int.le_refl 0
  exact ⟨rfl, hls,
    init_and_bound_asserts_nonfatal ext0 lsOk stateTempViolation rfl hls⟩
